import Mathlib

/-!
# AMQP value algebra of `azure-core-amqp`

A shallow embedding of `sdk/core/azure-core-amqp/src/models/amqp_value.cpp`.

`AmqpValue` is a thin C++ wrapper around a handle (`AMQP_VALUE`) of the uAMQP C library
(`azure_uamqp_c/amqpvalue.h`).  The wrapper is translated from the source.  The C library
is not part of the sources; each of its functions used by the wrapper is modelled from the
specification's data model (a tagged value tree with value semantics) and says so in its
doc comment.

Conventions:
* a C `AMQP_VALUE` handle is `Option AMQP_VALUE_DATA`, `none` being the `NULL` handle;
* a C function `int f(AMQP_VALUE, T* out)` is a function to `Option T`, `none` being a
  non-zero return code;
* a C++ member function that may `throw std::runtime_error(msg)` returns
  `Except String _`, the error carrying `msg`;
* a mutating member function returns the new state of `*this`;
* fixed-width integers are `Nat` / `Int` payloads (no arithmetic is performed on them);
  `float` and `double` payloads are carried as their bit patterns, no floating-point
  operation is modelled;
* `std::string` is `String`; a `const char*` is read up to its first NUL character;
* allocation failure inside the C library is not modelled.
-/

namespace Azure.Core.Amqp.Models

/-! ## Discriminants -/

/-- Discriminant of the C library (`AMQP_TYPE`), the enumerators switched over by
`AmqpValue::GetType`. -/
inductive AMQP_TYPE
  | AMQP_TYPE_INVALID
  | AMQP_TYPE_NULL
  | AMQP_TYPE_BOOL
  | AMQP_TYPE_UBYTE
  | AMQP_TYPE_USHORT
  | AMQP_TYPE_UINT
  | AMQP_TYPE_ULONG
  | AMQP_TYPE_BYTE
  | AMQP_TYPE_SHORT
  | AMQP_TYPE_INT
  | AMQP_TYPE_LONG
  | AMQP_TYPE_FLOAT
  | AMQP_TYPE_DOUBLE
  | AMQP_TYPE_CHAR
  | AMQP_TYPE_TIMESTAMP
  | AMQP_TYPE_UUID
  | AMQP_TYPE_BINARY
  | AMQP_TYPE_STRING
  | AMQP_TYPE_SYMBOL
  | AMQP_TYPE_LIST
  | AMQP_TYPE_MAP
  | AMQP_TYPE_ARRAY
  | AMQP_TYPE_DESCRIBED
  | AMQP_TYPE_COMPOSITE
  | AMQP_TYPE_UNKNOWN
  deriving DecidableEq, Repr

/-- The C++ discriminant `AmqpValueType` returned by `AmqpValue::GetType`. -/
inductive AmqpValueType
  | Invalid
  | Null
  | Bool
  | UByte
  | UShort
  | UInt
  | ULong
  | Byte
  | Short
  | Int
  | Long
  | Float
  | Double
  | Char
  | Timestamp
  | Uuid
  | Binary
  | String
  | Symbol
  | List
  | Map
  | Array
  | Described
  | Composite
  | Unknown
  deriving DecidableEq, Repr

/-! ## The value tree behind a handle -/

/-- Modelled from the spec: the C library's `AMQP_VALUE_DATA` record is not in the sources.
One constructor per kind of the specification's data model: scalars carry their payload,
`list` and `array` an ordered sequence of values, `map` an ordered sequence of key/value
pairs, `described` a descriptor and a value, `composite` a descriptor and an ordered
sequence of fields (an unset field is stored as `null`). -/
inductive AMQP_VALUE_DATA
  | null
  | bool (value : Bool)
  | ubyte (value : Nat)
  | ushort (value : Nat)
  | uint (value : Nat)
  | ulong (value : Nat)
  | byte (value : Int)
  | short (value : Int)
  | int (value : Int)
  | long (value : Int)
  | float (bits : Nat)
  | double (bits : Nat)
  | char (value : Nat)
  | timestamp (value : Int)
  | uuid (bytes : List Nat)
  | binary (bytes : List Nat)
  | string (chars : String)
  | symbol (chars : String)
  | list (items : List AMQP_VALUE_DATA)
  | map (pairs : List (AMQP_VALUE_DATA × AMQP_VALUE_DATA))
  | array (items : List AMQP_VALUE_DATA)
  | described (descriptor : AMQP_VALUE_DATA) (value : AMQP_VALUE_DATA)
  | composite (descriptor : AMQP_VALUE_DATA) (fields : List AMQP_VALUE_DATA)

/-- A C handle `AMQP_VALUE` (`AMQP_VALUE_DATA_TAG*`); `none` is `NULL`. -/
abbrev AMQP_VALUE := Option AMQP_VALUE_DATA

/-- The characters a C function reads through a `const char*`: those before the first NUL
character of the buffer. -/
def c_string (buffer : String) : String :=
  String.mk (buffer.data.takeWhile (fun c => c != Char.ofNat 0))

/-! ## C library: scalar constructors and accessors -/

/-- Modelled from the spec: `amqpvalue_get_type` of the C library is not in the sources.
It returns the tag of the value; the `NULL` handle, which stores no tag, is reported as
`AMQP_TYPE_UNKNOWN`. -/
def amqpvalue_get_type : AMQP_VALUE → AMQP_TYPE
  | none => .AMQP_TYPE_UNKNOWN
  | some .null => .AMQP_TYPE_NULL
  | some (.bool _) => .AMQP_TYPE_BOOL
  | some (.ubyte _) => .AMQP_TYPE_UBYTE
  | some (.ushort _) => .AMQP_TYPE_USHORT
  | some (.uint _) => .AMQP_TYPE_UINT
  | some (.ulong _) => .AMQP_TYPE_ULONG
  | some (.byte _) => .AMQP_TYPE_BYTE
  | some (.short _) => .AMQP_TYPE_SHORT
  | some (.int _) => .AMQP_TYPE_INT
  | some (.long _) => .AMQP_TYPE_LONG
  | some (.float _) => .AMQP_TYPE_FLOAT
  | some (.double _) => .AMQP_TYPE_DOUBLE
  | some (.char _) => .AMQP_TYPE_CHAR
  | some (.timestamp _) => .AMQP_TYPE_TIMESTAMP
  | some (.uuid _) => .AMQP_TYPE_UUID
  | some (.binary _) => .AMQP_TYPE_BINARY
  | some (.string _) => .AMQP_TYPE_STRING
  | some (.symbol _) => .AMQP_TYPE_SYMBOL
  | some (.list _) => .AMQP_TYPE_LIST
  | some (.map _) => .AMQP_TYPE_MAP
  | some (.array _) => .AMQP_TYPE_ARRAY
  | some (.described _ _) => .AMQP_TYPE_DESCRIBED
  | some (.composite _ _) => .AMQP_TYPE_COMPOSITE

/-- Modelled from the spec: `amqpvalue_create_null` of the C library is not in the sources;
it makes a Null value. -/
def amqpvalue_create_null : AMQP_VALUE := some .null

/-- Modelled from the spec: `amqpvalue_create_boolean` of the C library is not in the
sources; a typed constructor makes a value of its kind holding the payload. -/
def amqpvalue_create_boolean (value : Bool) : AMQP_VALUE := some (.bool value)

/-- Modelled from the spec: `amqpvalue_create_ubyte` (C library, not in the sources). -/
def amqpvalue_create_ubyte (value : Nat) : AMQP_VALUE := some (.ubyte value)

/-- Modelled from the spec: `amqpvalue_create_byte` (C library, not in the sources). -/
def amqpvalue_create_byte (value : Int) : AMQP_VALUE := some (.byte value)

/-- Modelled from the spec: `amqpvalue_create_ushort` (C library, not in the sources). -/
def amqpvalue_create_ushort (value : Nat) : AMQP_VALUE := some (.ushort value)

/-- Modelled from the spec: `amqpvalue_create_short` (C library, not in the sources). -/
def amqpvalue_create_short (value : Int) : AMQP_VALUE := some (.short value)

/-- Modelled from the spec: `amqpvalue_create_uint` (C library, not in the sources). -/
def amqpvalue_create_uint (value : Nat) : AMQP_VALUE := some (.uint value)

/-- Modelled from the spec: `amqpvalue_create_int` (C library, not in the sources). -/
def amqpvalue_create_int (value : Int) : AMQP_VALUE := some (.int value)

/-- Modelled from the spec: `amqpvalue_create_ulong` (C library, not in the sources). -/
def amqpvalue_create_ulong (value : Nat) : AMQP_VALUE := some (.ulong value)

/-- Modelled from the spec: `amqpvalue_create_long` (C library, not in the sources). -/
def amqpvalue_create_long (value : Int) : AMQP_VALUE := some (.long value)

/-- Modelled from the spec: `amqpvalue_create_float` (C library, not in the sources); the
payload is the bit pattern of the `float`. -/
def amqpvalue_create_float (bits : Nat) : AMQP_VALUE := some (.float bits)

/-- Modelled from the spec: `amqpvalue_create_double` (C library, not in the sources); the
payload is the bit pattern of the `double`. -/
def amqpvalue_create_double (bits : Nat) : AMQP_VALUE := some (.double bits)

/-- Modelled from the spec: `amqpvalue_create_char` (C library, not in the sources).  The
specification's Char is a code point; Unicode code points end at `0x10FFFF`, and the
library hands back `NULL` for an argument beyond that. -/
def amqpvalue_create_char (value : Nat) : AMQP_VALUE :=
  if value > 0x10FFFF then none else some (.char value)

/-- Modelled from the spec: `amqpvalue_create_timestamp` (C library, not in the sources);
the payload is the signed millisecond count. -/
def amqpvalue_create_timestamp (value : Int) : AMQP_VALUE := some (.timestamp value)

/-- Modelled from the spec: `amqpvalue_create_uuid` (C library, not in the sources); the
payload is the 16 bytes pointed to. -/
def amqpvalue_create_uuid (value : List Nat) : AMQP_VALUE := some (.uuid (value.take 16))

/-- Modelled from the spec: `amqpvalue_create_binary` (C library, not in the sources); the
payload is the first `length` bytes of the buffer. -/
def amqpvalue_create_binary (bytes : List Nat) (length : Nat) : AMQP_VALUE :=
  some (.binary (bytes.take length))

/-- Modelled from the spec: `amqpvalue_create_string` (C library, not in the sources).  Its
argument is a `const char*`, so the payload is the C string found there. -/
def amqpvalue_create_string (value : String) : AMQP_VALUE := some (.string (c_string value))

/-- Modelled from the spec: `amqpvalue_create_symbol` (C library, not in the sources).  Its
argument is a `const char*`, so the payload is the C string found there. -/
def amqpvalue_create_symbol (value : String) : AMQP_VALUE := some (.symbol (c_string value))

/-- Modelled from the spec: `amqpvalue_clone` (C library, not in the sources).  Copying is
a deep clone of an immutable tree, so the clone is the same tree; `NULL` clones to `NULL`. -/
def amqpvalue_clone (value : AMQP_VALUE) : AMQP_VALUE := value

/-- Modelled from the spec: `amqpvalue_get_boolean` (C library, not in the sources).  A
typed accessor fails (non-zero return, here `none`) when the stored tag differs. -/
def amqpvalue_get_boolean : AMQP_VALUE → Option Bool
  | some (.bool v) => some v
  | _ => none

/-- Modelled from the spec: `amqpvalue_get_ubyte` (C library, not in the sources). -/
def amqpvalue_get_ubyte : AMQP_VALUE → Option Nat
  | some (.ubyte v) => some v
  | _ => none

/-- Modelled from the spec: `amqpvalue_get_byte` (C library, not in the sources). -/
def amqpvalue_get_byte : AMQP_VALUE → Option Int
  | some (.byte v) => some v
  | _ => none

/-- Modelled from the spec: `amqpvalue_get_ushort` (C library, not in the sources). -/
def amqpvalue_get_ushort : AMQP_VALUE → Option Nat
  | some (.ushort v) => some v
  | _ => none

/-- Modelled from the spec: `amqpvalue_get_short` (C library, not in the sources). -/
def amqpvalue_get_short : AMQP_VALUE → Option Int
  | some (.short v) => some v
  | _ => none

/-- Modelled from the spec: `amqpvalue_get_uint` (C library, not in the sources). -/
def amqpvalue_get_uint : AMQP_VALUE → Option Nat
  | some (.uint v) => some v
  | _ => none

/-- Modelled from the spec: `amqpvalue_get_int` (C library, not in the sources). -/
def amqpvalue_get_int : AMQP_VALUE → Option Int
  | some (.int v) => some v
  | _ => none

/-- Modelled from the spec: `amqpvalue_get_ulong` (C library, not in the sources). -/
def amqpvalue_get_ulong : AMQP_VALUE → Option Nat
  | some (.ulong v) => some v
  | _ => none

/-- Modelled from the spec: `amqpvalue_get_long` (C library, not in the sources). -/
def amqpvalue_get_long : AMQP_VALUE → Option Int
  | some (.long v) => some v
  | _ => none

/-- Modelled from the spec: `amqpvalue_get_float` (C library, not in the sources). -/
def amqpvalue_get_float : AMQP_VALUE → Option Nat
  | some (.float v) => some v
  | _ => none

/-- Modelled from the spec: `amqpvalue_get_double` (C library, not in the sources). -/
def amqpvalue_get_double : AMQP_VALUE → Option Nat
  | some (.double v) => some v
  | _ => none

/-- Modelled from the spec: `amqpvalue_get_char` (C library, not in the sources). -/
def amqpvalue_get_char : AMQP_VALUE → Option Nat
  | some (.char v) => some v
  | _ => none

/-- Modelled from the spec: `amqpvalue_get_timestamp` (C library, not in the sources). -/
def amqpvalue_get_timestamp : AMQP_VALUE → Option Int
  | some (.timestamp v) => some v
  | _ => none

/-- Modelled from the spec: `amqpvalue_get_binary` (C library, not in the sources); yields
the stored bytes (pointer and length). -/
def amqpvalue_get_binary : AMQP_VALUE → Option (List Nat)
  | some (.binary v) => some v
  | _ => none

/-- Modelled from the spec: `amqpvalue_get_string` (C library, not in the sources); yields
a `const char*` to the stored characters. -/
def amqpvalue_get_string : AMQP_VALUE → Option String
  | some (.string v) => some v
  | _ => none

/-- Modelled from the spec: `amqpvalue_get_symbol` (C library, not in the sources); yields
a `const char*` to the stored characters. -/
def amqpvalue_get_symbol : AMQP_VALUE → Option String
  | some (.symbol v) => some v
  | _ => none

/-! ## C library: structural equality -/

mutual
/-- Modelled from the spec: the comparison behind `amqpvalue_are_equal` (C library, not in
the sources).  Equality is structural: two values are equal when they have the same AMQP
type and the same AMQP value, containers being compared element by element in order. -/
def AMQP_VALUE_DATA.are_equal : AMQP_VALUE_DATA → AMQP_VALUE_DATA → Bool
  | .null, value2 => match value2 with | .null => true | _ => false
  | .bool a, value2 => match value2 with | .bool b => a == b | _ => false
  | .ubyte a, value2 => match value2 with | .ubyte b => a == b | _ => false
  | .ushort a, value2 => match value2 with | .ushort b => a == b | _ => false
  | .uint a, value2 => match value2 with | .uint b => a == b | _ => false
  | .ulong a, value2 => match value2 with | .ulong b => a == b | _ => false
  | .byte a, value2 => match value2 with | .byte b => a == b | _ => false
  | .short a, value2 => match value2 with | .short b => a == b | _ => false
  | .int a, value2 => match value2 with | .int b => a == b | _ => false
  | .long a, value2 => match value2 with | .long b => a == b | _ => false
  | .float a, value2 => match value2 with | .float b => a == b | _ => false
  | .double a, value2 => match value2 with | .double b => a == b | _ => false
  | .char a, value2 => match value2 with | .char b => a == b | _ => false
  | .timestamp a, value2 => match value2 with | .timestamp b => a == b | _ => false
  | .uuid a, value2 => match value2 with | .uuid b => a == b | _ => false
  | .binary a, value2 => match value2 with | .binary b => a == b | _ => false
  | .string a, value2 => match value2 with | .string b => a == b | _ => false
  | .symbol a, value2 => match value2 with | .symbol b => a == b | _ => false
  | .list a, value2 =>
      match value2 with | .list b => AMQP_VALUE_DATA.items_are_equal a b | _ => false
  | .map a, value2 =>
      match value2 with | .map b => AMQP_VALUE_DATA.pairs_are_equal a b | _ => false
  | .array a, value2 =>
      match value2 with | .array b => AMQP_VALUE_DATA.items_are_equal a b | _ => false
  | .described d1 v1, value2 =>
      match value2 with
      | .described d2 v2 => AMQP_VALUE_DATA.are_equal d1 d2 && AMQP_VALUE_DATA.are_equal v1 v2
      | _ => false
  | .composite d1 f1, value2 =>
      match value2 with
      | .composite d2 f2 =>
          AMQP_VALUE_DATA.are_equal d1 d2 && AMQP_VALUE_DATA.items_are_equal f1 f2
      | _ => false
/-- Element-wise comparison of two item sequences (same count, equal items in order). -/
def AMQP_VALUE_DATA.items_are_equal : List AMQP_VALUE_DATA → List AMQP_VALUE_DATA → Bool
  | [], [] => true
  | a :: as, b :: bs => AMQP_VALUE_DATA.are_equal a b && AMQP_VALUE_DATA.items_are_equal as bs
  | _, _ => false
/-- Pair-wise comparison of two key/value sequences (same count, equal pairs in order). -/
def AMQP_VALUE_DATA.pairs_are_equal :
    List (AMQP_VALUE_DATA × AMQP_VALUE_DATA) → List (AMQP_VALUE_DATA × AMQP_VALUE_DATA) → Bool
  | [], [] => true
  | (k1, v1) :: as, (k2, v2) :: bs =>
      AMQP_VALUE_DATA.are_equal k1 k2 && AMQP_VALUE_DATA.are_equal v1 v2 &&
        AMQP_VALUE_DATA.pairs_are_equal as bs
  | _, _ => false
end

/-- Modelled from the spec: `amqpvalue_are_equal` (C library, not in the sources): two
`NULL` handles are equal, a `NULL` and a non-`NULL` handle are not, two values are
compared structurally. -/
def amqpvalue_are_equal : AMQP_VALUE → AMQP_VALUE → Bool
  | none, none => true
  | some a, some b => a.are_equal b
  | _, _ => false

/-! ## C library: lists -/

/-- Modelled from the spec: `amqpvalue_create_list` (C library, not in the sources): a List
with no items. -/
def amqpvalue_create_list : AMQP_VALUE := some (.list [])

/-- Modelled from the spec: `amqpvalue_set_list_item_count` (C library, not in the
sources).  On a List it resizes to `count` items, dropping items beyond the count and
padding with Null items; on anything else it fails.  The result is the new state of the
value, `none` a non-zero return code. -/
def amqpvalue_set_list_item_count (value : AMQP_VALUE) (count : Nat) :
    Option AMQP_VALUE_DATA :=
  match value with
  | some (.list items) =>
      some (.list (items.take count ++ List.replicate (count - items.length) AMQP_VALUE_DATA.null))
  | _ => none

/-- Modelled from the spec: `amqpvalue_get_list_item_count` (C library, not in the
sources): the item count of a List, failure on anything else. -/
def amqpvalue_get_list_item_count : AMQP_VALUE → Option Nat
  | some (.list items) => some items.length
  | _ => none

/-- Modelled from the spec: `amqpvalue_set_list_item` (C library, not in the sources).  On
a List it stores a clone of the item at `index`, first padding the list with Null items
when `index` is not below the count; it fails on anything else and on a `NULL` item.  The
result is the new state of the value. -/
def amqpvalue_set_list_item (value : AMQP_VALUE) (index : Nat) (list_item_value : AMQP_VALUE) :
    Option AMQP_VALUE_DATA :=
  match value, amqpvalue_clone list_item_value with
  | some (.list items), some item =>
      some (.list ((items ++ List.replicate (index + 1 - items.length) AMQP_VALUE_DATA.null).set index item))
  | _, _ => none

/-- Modelled from the spec: `amqpvalue_get_list_item` (C library, not in the sources): a
clone of the item at `index` of a List; `NULL` when `index` is not below the count or the
value is not a List. -/
def amqpvalue_get_list_item (value : AMQP_VALUE) (index : Nat) : AMQP_VALUE :=
  match value with
  | some (.list items) => amqpvalue_clone items[index]?
  | _ => none

/-! ## C library: maps -/

/-- Modelled from the spec: `amqpvalue_create_map` (C library, not in the sources): a Map
with no pairs. -/
def amqpvalue_create_map : AMQP_VALUE := some (.map [])

/-- Modelled from the spec: `amqpvalue_set_map_value` (C library, not in the sources).  On
a Map it appends the pair of a clone of the key and a clone of the value; the map is an
ordered sequence of pairs and does not deduplicate keys on insertion.  It fails on
anything else and on a `NULL` key or value.  The result is the new state of the value. -/
def amqpvalue_set_map_value (map key value : AMQP_VALUE) : Option AMQP_VALUE_DATA :=
  match map, amqpvalue_clone key, amqpvalue_clone value with
  | some (.map pairs), some k, some v => some (.map (pairs ++ [(k, v)]))
  | _, _, _ => none

/-- The value of the first pair of the sequence whose key is equal to `key`. -/
def find_map_value (key : AMQP_VALUE_DATA) :
    List (AMQP_VALUE_DATA × AMQP_VALUE_DATA) → AMQP_VALUE
  | [] => none
  | (k, v) :: rest => if k.are_equal key then some v else find_map_value key rest

/-- Modelled from the spec: `amqpvalue_get_map_value` (C library, not in the sources): a
clone of the value stored under a key equal (by value equality) to `key`; `NULL` when
there is none, when the value is not a Map or when `key` is `NULL`. -/
def amqpvalue_get_map_value (map key : AMQP_VALUE) : AMQP_VALUE :=
  match map, key with
  | some (.map pairs), some k => amqpvalue_clone (find_map_value k pairs)
  | _, _ => none

/-- Modelled from the spec: `amqpvalue_get_map_key_value_pair` (C library, not in the
sources): clones of the key and value of the pair at `index` of a Map; failure when
`index` is not below the pair count or the value is not a Map. -/
def amqpvalue_get_map_key_value_pair (map : AMQP_VALUE) (index : Nat) :
    Option (AMQP_VALUE × AMQP_VALUE) :=
  match map with
  | some (.map pairs) =>
      match pairs[index]? with
      | some (k, v) => some (amqpvalue_clone (some k), amqpvalue_clone (some v))
      | none => none
  | _ => none

/-- Modelled from the spec: `amqpvalue_get_map_pair_count` (C library, not in the
sources): the pair count of a Map, failure on anything else. -/
def amqpvalue_get_map_pair_count : AMQP_VALUE → Option Nat
  | some (.map pairs) => some pairs.length
  | _ => none

/-! ## C library: arrays -/

/-- Modelled from the spec: `amqpvalue_create_array` (C library, not in the sources): an
Array with no items. -/
def amqpvalue_create_array : AMQP_VALUE := some (.array [])

/-- Modelled from the spec: `amqpvalue_add_array_item` (C library, not in the sources).
On an Array it appends a clone of the item; that all items have one type is a contract on
the caller which the container does not enforce.  It fails on anything else and on a
`NULL` item.  The result is the new state of the value. -/
def amqpvalue_add_array_item (value array_item_value : AMQP_VALUE) : Option AMQP_VALUE_DATA :=
  match value, amqpvalue_clone array_item_value with
  | some (.array items), some item => some (.array (items ++ [item]))
  | _, _ => none

/-- Modelled from the spec: `amqpvalue_get_array_item` (C library, not in the sources): a
clone of the item at `index` of an Array; `NULL` when `index` is not below the count or
the value is not an Array. -/
def amqpvalue_get_array_item (value : AMQP_VALUE) (index : Nat) : AMQP_VALUE :=
  match value with
  | some (.array items) => amqpvalue_clone items[index]?
  | _ => none

/-- Modelled from the spec: `amqpvalue_get_array_item_count` (C library, not in the
sources): the item count of an Array, failure on anything else. -/
def amqpvalue_get_array_item_count : AMQP_VALUE → Option Nat
  | some (.array items) => some items.length
  | _ => none

/-! ## C library: composite and described values -/

/-- Modelled from the spec: `amqpvalue_create_composite` (C library, not in the sources):
a Composite with a clone of the descriptor and `list_size` fields, all unset; `NULL` when
the descriptor is `NULL`. -/
def amqpvalue_create_composite (descriptor : AMQP_VALUE) (list_size : Nat) : AMQP_VALUE :=
  match amqpvalue_clone descriptor with
  | some d => some (.composite d (List.replicate list_size AMQP_VALUE_DATA.null))
  | none => none

/-- Modelled from the spec: `amqpvalue_set_composite_item` (C library, not in the
sources).  On a Composite it stores a clone of the item in field `index`, first padding
the fields with unset ones when `index` is not below the count; it fails on anything else
and on a `NULL` item.  The result is the new state of the value. -/
def amqpvalue_set_composite_item (value : AMQP_VALUE) (index : Nat) (item_value : AMQP_VALUE) :
    Option AMQP_VALUE_DATA :=
  match value, amqpvalue_clone item_value with
  | some (.composite d fields), some item =>
      some (.composite d
        ((fields ++ List.replicate (index + 1 - fields.length) AMQP_VALUE_DATA.null).set index item))
  | _, _ => none

/-- Modelled from the spec: `amqpvalue_get_composite_item` (C library, not in the
sources): a clone of field `index` of a Composite (Null for an unset field); `NULL` when
`index` is not below the field count or the value is not a Composite. -/
def amqpvalue_get_composite_item (value : AMQP_VALUE) (index : Nat) : AMQP_VALUE :=
  match value with
  | some (.composite _ fields) => amqpvalue_clone fields[index]?
  | _ => none

/-- Modelled from the spec: `amqpvalue_get_composite_item_count` (C library, not in the
sources): the field count of a Composite, failure on anything else. -/
def amqpvalue_get_composite_item_count : AMQP_VALUE → Option Nat
  | some (.composite _ fields) => some fields.length
  | _ => none

/-- Modelled from the spec: `amqpvalue_create_described` (C library, not in the sources):
a Described value holding the descriptor and the value handed over; `NULL` when either is
`NULL`. -/
def amqpvalue_create_described (descriptor value : AMQP_VALUE) : AMQP_VALUE :=
  match descriptor, value with
  | some d, some v => some (.described d v)
  | _, _ => none

/-- Modelled from the spec: `amqpvalue_get_inplace_descriptor` (C library, not in the
sources): the descriptor of a Described value, `NULL` on anything else. -/
def amqpvalue_get_inplace_descriptor : AMQP_VALUE → AMQP_VALUE
  | some (.described d _) => some d
  | _ => none

/-- Modelled from the spec: `amqpvalue_get_inplace_described_value` (C library, not in the
sources): the value of a Described value, `NULL` on anything else. -/
def amqpvalue_get_inplace_described_value : AMQP_VALUE → AMQP_VALUE
  | some (.described _ v) => some v
  | _ => none

/-! ## Header record and its conversion to and from a value -/

/-- Modelled from the spec: the `Header` class (`amqp_header.hpp`) and the library record
behind its `HEADER_HANDLE` are not in the sources.  A header has the fixed field schema
durable, priority, ttl, first-acquirer, delivery-count; each field is optional, and
absence (`none`) is distinct from a false or zero value.  Equality of headers is equality
of all five fields. -/
structure Header where
  durable : Option Bool
  priority : Option Nat
  ttl : Option Nat
  first_acquirer : Option Bool
  delivery_count : Option Nat
  deriving DecidableEq, Repr

/-- Modelled from the spec: the well-known numeric descriptor of the header section, which
is not in the sources (AMQP 1.0 `amqp:header:list`, code `0x70`). -/
def header_descriptor : AMQP_VALUE_DATA := .ulong 0x70

/-- The field of a composite that stores an optional boolean: Null when unset. -/
def optional_bool_field : Option Bool → AMQP_VALUE_DATA
  | none => .null
  | some b => .bool b

/-- The field of a composite that stores an optional `ubyte`: Null when unset. -/
def optional_ubyte_field : Option Nat → AMQP_VALUE_DATA
  | none => .null
  | some v => .ubyte v

/-- The field of a composite that stores an optional `uint`: Null when unset. -/
def optional_uint_field : Option Nat → AMQP_VALUE_DATA
  | none => .null
  | some v => .uint v

/-- Reads an optional boolean field: a missing or Null field is unset, a Bool field is
set, a field of any other kind is a failure (outer `none`). -/
def get_optional_bool : Option AMQP_VALUE_DATA → Option (Option Bool)
  | none => some none
  | some .null => some none
  | some (.bool b) => some (some b)
  | some _ => none

/-- Reads an optional `ubyte` field, like `get_optional_bool`. -/
def get_optional_ubyte : Option AMQP_VALUE_DATA → Option (Option Nat)
  | none => some none
  | some .null => some none
  | some (.ubyte v) => some (some v)
  | some _ => none

/-- Reads an optional `uint` field, like `get_optional_bool`. -/
def get_optional_uint : Option AMQP_VALUE_DATA → Option (Option Nat)
  | none => some none
  | some .null => some none
  | some (.uint v) => some (some v)
  | some _ => none

/-- Modelled from the spec: `amqpvalue_create_header` (C library, not in the sources): the
composite value with the header descriptor whose five fields are, in schema order, the
fields of the header, an unset field being left unset. -/
def amqpvalue_create_header (header : Header) : AMQP_VALUE :=
  some (.composite header_descriptor
    [optional_bool_field header.durable, optional_ubyte_field header.priority,
     optional_uint_field header.ttl, optional_bool_field header.first_acquirer,
     optional_uint_field header.delivery_count])

/-- Modelled from the spec: `is_header_type_by_descriptor` (C library, not in the
sources): whether the value carries a descriptor equal to the header descriptor. -/
def is_header_type_by_descriptor : AMQP_VALUE → Bool
  | some (.composite d _) => d.are_equal header_descriptor
  | some (.described d _) => d.are_equal header_descriptor
  | _ => false

/-- The field sequence of a composite value, or of a described value over a list. -/
def composite_fields : AMQP_VALUE → Option (List AMQP_VALUE_DATA)
  | some (.composite _ fields) => some fields
  | some (.described _ (.list items)) => some items
  | _ => none

/-- Modelled from the spec: `amqpvalue_get_header` (C library, not in the sources), the
inverse of `amqpvalue_create_header`: it fails on a value whose descriptor is not the
header descriptor and on a field of the wrong kind, and otherwise reads the five fields in
schema order, an unset field staying unset. -/
def amqpvalue_get_header (value : AMQP_VALUE) : Option Header :=
  if is_header_type_by_descriptor value then
    match composite_fields value with
    | none => none
    | some fields =>
      match get_optional_bool fields[0]?, get_optional_ubyte fields[1]?,
        get_optional_uint fields[2]?, get_optional_bool fields[3]?,
        get_optional_uint fields[4]? with
      | some durable, some priority, some ttl, some first_acquirer, some delivery_count =>
          some ⟨durable, priority, ttl, first_acquirer, delivery_count⟩
      | _, _, _, _, _ => none
  else none

/-! ## Properties record and its conversion to and from a value -/

/-- Modelled from the spec: the `Properties` class (`amqp_properties.hpp`) and the library
record behind its `PROPERTIES_HANDLE` are not in the sources.  The properties record has
the fixed field schema message-id, user-id, to, subject, reply-to, correlation-id,
content-type, content-encoding, absolute-expiry-time, creation-time, group-id,
group-sequence, reply-to-group-id; each field is optional and holds a value when set. -/
structure Properties where
  message_id : Option AMQP_VALUE_DATA
  user_id : Option AMQP_VALUE_DATA
  to_address : Option AMQP_VALUE_DATA
  subject : Option AMQP_VALUE_DATA
  reply_to : Option AMQP_VALUE_DATA
  correlation_id : Option AMQP_VALUE_DATA
  content_type : Option AMQP_VALUE_DATA
  content_encoding : Option AMQP_VALUE_DATA
  absolute_expiry_time : Option AMQP_VALUE_DATA
  creation_time : Option AMQP_VALUE_DATA
  group_id : Option AMQP_VALUE_DATA
  group_sequence : Option AMQP_VALUE_DATA
  reply_to_group_id : Option AMQP_VALUE_DATA

/-- Modelled from the spec: the well-known numeric descriptor of the properties section,
which is not in the sources (AMQP 1.0 `amqp:properties:list`, code `0x73`). -/
def properties_descriptor : AMQP_VALUE_DATA := .ulong 0x73

/-- The field of a composite that stores an optional value: Null when unset. -/
def optional_value_field : Option AMQP_VALUE_DATA → AMQP_VALUE_DATA
  | none => .null
  | some v => v

/-- Reads an optional value field: a missing or Null field is unset. -/
def get_optional_value : Option AMQP_VALUE_DATA → Option AMQP_VALUE_DATA
  | none => none
  | some .null => none
  | some v => some v

/-- Modelled from the spec: `amqpvalue_create_properties` (C library, not in the sources):
the composite value with the properties descriptor whose thirteen fields are, in schema
order, the fields of the record, an unset field being left unset. -/
def amqpvalue_create_properties (properties : Properties) : AMQP_VALUE :=
  some (.composite properties_descriptor
    [optional_value_field properties.message_id, optional_value_field properties.user_id,
     optional_value_field properties.to_address, optional_value_field properties.subject,
     optional_value_field properties.reply_to, optional_value_field properties.correlation_id,
     optional_value_field properties.content_type,
     optional_value_field properties.content_encoding,
     optional_value_field properties.absolute_expiry_time,
     optional_value_field properties.creation_time, optional_value_field properties.group_id,
     optional_value_field properties.group_sequence,
     optional_value_field properties.reply_to_group_id])

/-- Modelled from the spec: `is_properties_type_by_descriptor` (C library, not in the
sources): whether the value carries a descriptor equal to the properties descriptor. -/
def is_properties_type_by_descriptor : AMQP_VALUE → Bool
  | some (.composite d _) => d.are_equal properties_descriptor
  | some (.described d _) => d.are_equal properties_descriptor
  | _ => false

/-- Modelled from the spec: `amqpvalue_get_properties` (C library, not in the sources),
the inverse of `amqpvalue_create_properties`: it fails on a value whose descriptor is not
the properties descriptor, and otherwise reads the thirteen fields in schema order. -/
def amqpvalue_get_properties (value : AMQP_VALUE) : Option Properties :=
  if is_properties_type_by_descriptor value then
    match composite_fields value with
    | none => none
    | some fields =>
      some ⟨get_optional_value fields[0]?, get_optional_value fields[1]?,
        get_optional_value fields[2]?, get_optional_value fields[3]?,
        get_optional_value fields[4]?, get_optional_value fields[5]?,
        get_optional_value fields[6]?, get_optional_value fields[7]?,
        get_optional_value fields[8]?, get_optional_value fields[9]?,
        get_optional_value fields[10]?, get_optional_value fields[11]?,
        get_optional_value fields[12]?⟩
  else none

/-! ## `AmqpValue`: construction, conversion operators, `GetType` -/

/-- The C++ class `AmqpValue`: its only data member is the handle `m_value`. -/
structure AmqpValue where
  m_value : AMQP_VALUE

namespace AmqpValue

/-- Translation of `AmqpValue::AmqpValue(bool)`. -/
def from_bool (bool_value : Bool) : AmqpValue := ⟨amqpvalue_create_boolean bool_value⟩

/-- Translation of `AmqpValue::AmqpValue(unsigned char)`. -/
def from_uchar (byte_value : Nat) : AmqpValue := ⟨amqpvalue_create_ubyte byte_value⟩

/-- Translation of `AmqpValue::AmqpValue(char)`. -/
def from_char (value : Int) : AmqpValue := ⟨amqpvalue_create_byte value⟩

/-- Translation of `AmqpValue::AmqpValue(uint16_t)`. -/
def from_uint16 (value : Nat) : AmqpValue := ⟨amqpvalue_create_ushort value⟩

/-- Translation of `AmqpValue::AmqpValue(int16_t)`. -/
def from_int16 (value : Int) : AmqpValue := ⟨amqpvalue_create_short value⟩

/-- Translation of `AmqpValue::AmqpValue(uint32_t)`. -/
def from_uint32 (value : Nat) : AmqpValue := ⟨amqpvalue_create_uint value⟩

/-- Translation of `AmqpValue::AmqpValue(int32_t)`. -/
def from_int32 (value : Int) : AmqpValue := ⟨amqpvalue_create_int value⟩

/-- Translation of `AmqpValue::AmqpValue(uint64_t)`. -/
def from_uint64 (value : Nat) : AmqpValue := ⟨amqpvalue_create_ulong value⟩

/-- Translation of `AmqpValue::AmqpValue(int64_t)`. -/
def from_int64 (value : Int) : AmqpValue := ⟨amqpvalue_create_long value⟩

/-- Translation of `AmqpValue::AmqpValue(float)`, the argument given by its bit pattern. -/
def from_float (value : Nat) : AmqpValue := ⟨amqpvalue_create_float value⟩

/-- Translation of `AmqpValue::AmqpValue(double)`, the argument given by its bit pattern. -/
def from_double (value : Nat) : AmqpValue := ⟨amqpvalue_create_double value⟩

/-- Translation of `AmqpValue::AmqpValue(Uuid)`. -/
def from_Uuid (value : List Nat) : AmqpValue := ⟨amqpvalue_create_uuid value⟩

/-- Translation of `AmqpValue::AmqpValue(BinaryData)`: the length is cast to `uint32_t`. -/
def from_BinaryData (bytes : List Nat) (length : Nat) : AmqpValue :=
  ⟨amqpvalue_create_binary bytes (length % 2 ^ 32)⟩

/-- Translation of `AmqpValue::AmqpValue(std::string)`: passes `value.c_str()`, a pointer to the
characters of `value`, to the C constructor. -/
def from_string (value : String) : AmqpValue := ⟨amqpvalue_create_string value⟩

/-- Translation of `AmqpValue::AmqpValue(const char*)`. -/
def from_cstr (value : String) : AmqpValue := ⟨amqpvalue_create_string value⟩

/-- Translation of `AmqpValue::AmqpValue()`. -/
def null : AmqpValue := ⟨amqpvalue_create_null⟩

/-- Translation of `AmqpValue::AmqpValue(AmqpValue const&)`, the copy constructor. -/
def copy (that : AmqpValue) : AmqpValue := ⟨amqpvalue_clone that.m_value⟩

/-- Translation of `AmqpValue::AmqpValue(AMQP_VALUE_DATA_TAG*)`: clones the incoming value; if no value is
provided, treats it as null. -/
def from_handle (value : AMQP_VALUE) : AmqpValue :=
  match value with
  | some _ => ⟨amqpvalue_clone value⟩
  | none => ⟨amqpvalue_create_null⟩

/-- Translation of `AmqpValue::operator bool` (both overloads have this body). -/
def operator_bool (self : AmqpValue) : Except String Bool :=
  match amqpvalue_get_boolean self.m_value with
  | none => .error "Could not retrieve value"
  | some value => .ok value

/-- Translation of `AmqpValue::operator unsigned char`. -/
def operator_uchar (self : AmqpValue) : Except String Nat :=
  match amqpvalue_get_ubyte self.m_value with
  | none => .error "Could not retrieve value"
  | some value => .ok value

/-- Translation of `AmqpValue::operator char`. -/
def operator_char (self : AmqpValue) : Except String Int :=
  match amqpvalue_get_byte self.m_value with
  | none => .error "Could not retrieve value"
  | some value => .ok value

/-- Translation of `AmqpValue::operator uint16_t`. -/
def operator_uint16 (self : AmqpValue) : Except String Nat :=
  match amqpvalue_get_ushort self.m_value with
  | none => .error "Could not retrieve value"
  | some value => .ok value

/-- Translation of `AmqpValue::operator int16_t`. -/
def operator_int16 (self : AmqpValue) : Except String Int :=
  match amqpvalue_get_short self.m_value with
  | none => .error "Could not retrieve value"
  | some value => .ok value

/-- Translation of `AmqpValue::operator uint32_t`. -/
def operator_uint32 (self : AmqpValue) : Except String Nat :=
  match amqpvalue_get_uint self.m_value with
  | none => .error "Could not retrieve value"
  | some value => .ok value

/-- Translation of `AmqpValue::operator int32_t`. -/
def operator_int32 (self : AmqpValue) : Except String Int :=
  match amqpvalue_get_int self.m_value with
  | none => .error "Could not retrieve value"
  | some value => .ok value

/-- Translation of `AmqpValue::operator uint64_t`. -/
def operator_uint64 (self : AmqpValue) : Except String Nat :=
  match amqpvalue_get_ulong self.m_value with
  | none => .error "Could not retrieve value"
  | some value => .ok value

/-- Translation of `AmqpValue::operator int64_t`. -/
def operator_int64 (self : AmqpValue) : Except String Int :=
  match amqpvalue_get_long self.m_value with
  | none => .error "Could not retrieve value"
  | some value => .ok value

/-- Translation of `AmqpValue::operator float`, the result given by its bit pattern. -/
def operator_float (self : AmqpValue) : Except String Nat :=
  match amqpvalue_get_float self.m_value with
  | none => .error "Could not retrieve value"
  | some value => .ok value

/-- Translation of `AmqpValue::operator double`, the result given by its bit pattern. -/
def operator_double (self : AmqpValue) : Except String Nat :=
  match amqpvalue_get_double self.m_value with
  | none => .error "Could not retrieve value"
  | some value => .ok value

/-- Translation of `AmqpValue::operator BinaryData`: the stored bytes and their length. -/
def operator_BinaryData (self : AmqpValue) : Except String (List Nat × Nat) :=
  match amqpvalue_get_binary self.m_value with
  | none => .error "Could not retrieve value"
  | some value => .ok (value, value.length)

/-- Translation of `AmqpValue::operator std::string`: the `const char*` obtained from the library is
converted to a `std::string`, which reads it up to the first NUL. -/
def operator_string (self : AmqpValue) : Except String String :=
  match amqpvalue_get_string self.m_value with
  | none => .error "Could not retrieve value"
  | some value => .ok (c_string value)

/-- Translation of `AmqpValue::CreateChar`: the handle goes through `AmqpValue(AMQP_VALUE_DATA_TAG*)`. -/
def CreateChar (value : Nat) : AmqpValue := from_handle (amqpvalue_create_char value)

/-- Translation of `AmqpValue::GetChar`. -/
def GetChar (self : AmqpValue) : Except String Nat :=
  match amqpvalue_get_char self.m_value with
  | none => .error "Could not get character."
  | some value => .ok value

/-- Translation of `AmqpValue::CreateTimestamp`: passes `value.count()` to the C constructor. -/
def CreateTimestamp (value : Int) : AmqpValue :=
  from_handle (amqpvalue_create_timestamp value)

/-- Translation of `AmqpValue::GetTimestamp`. -/
def GetTimestamp (self : AmqpValue) : Except String Int :=
  match amqpvalue_get_timestamp self.m_value with
  | none => .error "Could not get timestamp."
  | some ms => .ok ms

/-- Translation of `AmqpValue::CreateSymbol`: passes `value.c_str()` to the C constructor. -/
def CreateSymbol (value : String) : AmqpValue :=
  from_handle (amqpvalue_create_symbol value)

/-- Translation of `AmqpValue::GetSymbol`. -/
def GetSymbol (self : AmqpValue) : Except String String :=
  match amqpvalue_get_symbol self.m_value with
  | none => .error "Could not get symbol."
  | some symbol => .ok (c_string symbol)

/-- Translation of `AmqpValue::GetType`: the switch over the library tag.  Every enumerator has a case, so
the trailing `throw` of the source is not reached. -/
def GetType (self : AmqpValue) : AmqpValueType :=
  match amqpvalue_get_type self.m_value with
  | .AMQP_TYPE_INVALID => .Invalid
  | .AMQP_TYPE_NULL => .Null
  | .AMQP_TYPE_BOOL => .Bool
  | .AMQP_TYPE_UBYTE => .UByte
  | .AMQP_TYPE_USHORT => .UShort
  | .AMQP_TYPE_UINT => .UInt
  | .AMQP_TYPE_ULONG => .ULong
  | .AMQP_TYPE_BYTE => .Byte
  | .AMQP_TYPE_SHORT => .Short
  | .AMQP_TYPE_INT => .Int
  | .AMQP_TYPE_LONG => .Long
  | .AMQP_TYPE_FLOAT => .Float
  | .AMQP_TYPE_DOUBLE => .Double
  | .AMQP_TYPE_CHAR => .Char
  | .AMQP_TYPE_TIMESTAMP => .Timestamp
  | .AMQP_TYPE_UUID => .Uuid
  | .AMQP_TYPE_BINARY => .Binary
  | .AMQP_TYPE_STRING => .String
  | .AMQP_TYPE_SYMBOL => .Symbol
  | .AMQP_TYPE_LIST => .List
  | .AMQP_TYPE_MAP => .Map
  | .AMQP_TYPE_ARRAY => .Array
  | .AMQP_TYPE_DESCRIBED => .Described
  | .AMQP_TYPE_COMPOSITE => .Composite
  | .AMQP_TYPE_UNKNOWN => .Unknown

/-- Translation of `AmqpValue::operator==`. -/
def operator_eq (self that : AmqpValue) : Bool :=
  amqpvalue_are_equal self.m_value that.m_value

/-- Translation of `AmqpValue::CreateList`. -/
def CreateList : AmqpValue := from_handle amqpvalue_create_list

/-- Translation of `AmqpValue::SetListItemCount`. -/
def SetListItemCount (self : AmqpValue) (count : Nat) : Except String AmqpValue :=
  match amqpvalue_set_list_item_count self.m_value count with
  | none => .error "Could not set List item count"
  | some value => .ok ⟨some value⟩

/-- Translation of `AmqpValue::GetListItemCount`. -/
def GetListItemCount (self : AmqpValue) : Except String Nat :=
  match amqpvalue_get_list_item_count self.m_value with
  | none => .error "Could not get List item count"
  | some count => .ok count

/-- Translation of `AmqpValue::SetListItem`. -/
def SetListItem (self : AmqpValue) (index : Nat) (item : AmqpValue) : Except String AmqpValue :=
  match amqpvalue_set_list_item self.m_value index item.m_value with
  | none => .error "Could not set List item count"
  | some value => .ok ⟨some value⟩

/-- Translation of `AmqpValue::GetListItem`: the handle obtained from the library is returned through
`AmqpValue(AMQP_VALUE_DATA_TAG*)`; the function has no `throw`. -/
def GetListItem (self : AmqpValue) (index : Nat) : Except String AmqpValue :=
  let item := amqpvalue_get_list_item self.m_value index
  .ok (from_handle item)

/-- Translation of `AmqpValue::CreateMap`. -/
def CreateMap : AmqpValue := from_handle amqpvalue_create_map

/-- Translation of `AmqpValue::SetMapValue`. -/
def SetMapValue (self : AmqpValue) (key value : AmqpValue) : Except String AmqpValue :=
  match amqpvalue_set_map_value self.m_value key.m_value value.m_value with
  | none => .error "Could not set map value."
  | some map => .ok ⟨some map⟩

/-- Translation of `AmqpValue::GetMapValue`: returned through `AmqpValue(AMQP_VALUE_DATA_TAG*)`; the
function has no `throw`. -/
def GetMapValue (self : AmqpValue) (key : AmqpValue) : Except String AmqpValue :=
  .ok (from_handle (amqpvalue_get_map_value self.m_value key.m_value))

/-- Translation of `AmqpValue::GetMapKeyAndValue`. -/
def GetMapKeyAndValue (self : AmqpValue) (index : Nat) :
    Except String (AmqpValue × AmqpValue) :=
  match amqpvalue_get_map_key_value_pair self.m_value index with
  | none => .error "Could not set map value."
  | some (key, value) => .ok (from_handle key, from_handle value)

/-- Translation of `AmqpValue::GetMapValueCount`. -/
def GetMapValueCount (self : AmqpValue) : Except String Nat :=
  match amqpvalue_get_map_pair_count self.m_value with
  | none => .error "Could not get map size."
  | some count => .ok count

/-- Translation of `AmqpValue::CreateArray`. -/
def CreateArray : AmqpValue := from_handle amqpvalue_create_array

/-- Translation of `AmqpValue::AddArrayItem`. -/
def AddArrayItem (self : AmqpValue) (itemValue : AmqpValue) : Except String AmqpValue :=
  match amqpvalue_add_array_item self.m_value itemValue.m_value with
  | none => .error "Could not add array item."
  | some value => .ok ⟨some value⟩

/-- Translation of `AmqpValue::GetArrayItem`: returned through `AmqpValue(AMQP_VALUE_DATA_TAG*)`; the
function has no `throw`. -/
def GetArrayItem (self : AmqpValue) (index : Nat) : Except String AmqpValue :=
  .ok (from_handle (amqpvalue_get_array_item self.m_value index))

/-- Translation of `AmqpValue::GetArrayItemCount`. -/
def GetArrayItemCount (self : AmqpValue) : Except String Nat :=
  match amqpvalue_get_array_item_count self.m_value with
  | none => .error "Could not get array item count."
  | some count => .ok count

/-- Translation of `AmqpValue::CreateComposite`. -/
def CreateComposite (descriptor : AmqpValue) (listSize : Nat) : AmqpValue :=
  from_handle (amqpvalue_create_composite descriptor.m_value listSize)

/-- Translation of `AmqpValue::SetCompositeItem`. -/
def SetCompositeItem (self : AmqpValue) (index : Nat) (itemValue : AmqpValue) :
    Except String AmqpValue :=
  match amqpvalue_set_composite_item self.m_value index itemValue.m_value with
  | none => .error "Could not set composite item"
  | some value => .ok ⟨some value⟩

/-- Translation of `AmqpValue::GetCompositeItem`: returned through `AmqpValue(AMQP_VALUE_DATA_TAG*)`; the
function has no `throw`. -/
def GetCompositeItem (self : AmqpValue) (index : Nat) : Except String AmqpValue :=
  .ok (from_handle (amqpvalue_get_composite_item self.m_value index))

/-- Translation of `AmqpValue::GetCompositeItemCount`. -/
def GetCompositeItemCount (self : AmqpValue) : Except String Nat :=
  match amqpvalue_get_composite_item_count self.m_value with
  | none => .error "Could not set composite item"
  | some size => .ok size

/-- Translation of `AmqpValue::CreateDescribed`: hands clones of the descriptor and of the value to the
library. -/
def CreateDescribed (descriptor value : AmqpValue) : AmqpValue :=
  from_handle
    (amqpvalue_create_described (amqpvalue_clone descriptor.m_value) (amqpvalue_clone value.m_value))

/-- Translation of `AmqpValue::GetDescriptor`: returned through `AmqpValue(AMQP_VALUE_DATA_TAG*)`; the
function has no `throw`. -/
def GetDescriptor (self : AmqpValue) : Except String AmqpValue :=
  .ok (from_handle (amqpvalue_get_inplace_descriptor self.m_value))

/-- Translation of `AmqpValue::GetDescribedValue`: returned through `AmqpValue(AMQP_VALUE_DATA_TAG*)`; the
function has no `throw`. -/
def GetDescribedValue (self : AmqpValue) : Except String AmqpValue :=
  .ok (from_handle (amqpvalue_get_inplace_described_value self.m_value))

/-- Translation of `AmqpValue::IsHeaderTypeByDescriptor`. -/
def IsHeaderTypeByDescriptor (self : AmqpValue) : Bool :=
  is_header_type_by_descriptor self.m_value

/-- Translation of `AmqpValue::GetHeaderFromValue`. -/
def GetHeaderFromValue (self : AmqpValue) : Except String Header :=
  match amqpvalue_get_header self.m_value with
  | none => .error "Could not get header from value"
  | some header => .ok header

/-- Translation of `AmqpValue::CreateHeader`. -/
def CreateHeader (header : Header) : AmqpValue :=
  from_handle (amqpvalue_create_header header)

/-- Translation of `AmqpValue::IsPropertiesTypeByDescriptor`. -/
def IsPropertiesTypeByDescriptor (self : AmqpValue) : Bool :=
  is_properties_type_by_descriptor self.m_value

/-- Translation of `AmqpValue::GetPropertiesFromValue`. -/
def GetPropertiesFromValue (self : AmqpValue) : Except String Properties :=
  match amqpvalue_get_properties self.m_value with
  | none => .error "Could not get properties from value"
  | some properties => .ok properties

/-- Translation of `AmqpValue::CreateProperties`. -/
def CreateProperties (properties : Properties) : AmqpValue :=
  from_handle (amqpvalue_create_properties properties)

/-- Translation of `AmqpValue::IsNull`. -/
def IsNull (self : AmqpValue) : Bool :=
  self.m_value.isNone || amqpvalue_get_type self.m_value == .AMQP_TYPE_NULL

/-! ### Call sequences -/

/-- The calls `SetMapValue(k1, v1)`, ..., `SetMapValue(kn, vn)` made in order on one map;
the sequence ends at the first call that throws. -/
def SetMapValues (self : AmqpValue) : List (AmqpValue × AmqpValue) → Except String AmqpValue
  | [] => .ok self
  | (key, value) :: rest =>
      match self.SetMapValue key value with
      | .error e => .error e
      | .ok next => SetMapValues next rest

/-- The calls `AddArrayItem(x1)`, ..., `AddArrayItem(xn)` made in order on one array; the
sequence ends at the first call that throws. -/
def AddArrayItems (self : AmqpValue) : List AmqpValue → Except String AmqpValue
  | [] => .ok self
  | item :: rest =>
      match self.AddArrayItem item with
      | .error e => .error e
      | .ok next => AddArrayItems next rest

/-- The calls `SetCompositeItem(i1, x1)`, ..., `SetCompositeItem(in, xn)` made in order on
one composite; the sequence ends at the first call that throws. -/
def SetCompositeItems (self : AmqpValue) : List (Nat × AmqpValue) → Except String AmqpValue
  | [] => .ok self
  | (index, item) :: rest =>
      match self.SetCompositeItem index item with
      | .error e => .error e
      | .ok next => SetCompositeItems next rest

/-- The `AmqpValue` that owns the given value tree. -/
def of_data (value : AMQP_VALUE_DATA) : AmqpValue := ⟨some value⟩

end AmqpValue

/-! ## Copies: values held in library storage -/

/-- Modelled from the spec: the storage of the C library, which is not in the sources.
Cell `a` holds the value tree behind the handle with address `a`.  A container owns its
children, which are part of its tree, so two cells share no structure. -/
abbrev Storage := List AMQP_VALUE_DATA

/-- A library handle seen as a pointer into the storage: `NULL` or the address of a cell. -/
abbrev Handle := Option Nat

/-- The value tree a handle points at; nothing for `NULL` or an address past the storage. -/
def Storage.value_at (storage : Storage) (handle : Handle) : AMQP_VALUE :=
  match handle with
  | none => none
  | some address => storage[address]?

/-- Modelled from the spec: `amqpvalue_clone` acting on the storage (C library, not in the
sources).  Copying a value performs a deep clone (structural, not reference, sharing): the
clone is a new cell holding a copy of the tree, and `NULL` clones to `NULL`. -/
def Storage.clone (storage : Storage) (handle : Handle) : Storage × Handle :=
  match storage.value_at handle with
  | none => (storage, none)
  | some value => (storage ++ [value], some storage.length)

/-- An `AmqpValue` object whose handle `m_value` points into the library storage. -/
structure StoredAmqpValue where
  m_value : Handle

/-- One call of a mutating member function of `AmqpValue`, with its arguments. -/
inductive Mutation
  | SetListItemCount (count : Nat)
  | SetListItem (index : Nat) (item : AmqpValue)
  | SetMapValue (key : AmqpValue) (value : AmqpValue)
  | AddArrayItem (itemValue : AmqpValue)
  | SetCompositeItem (index : Nat) (itemValue : AmqpValue)

/-- The mutating member function called on a value, giving the new state of the value. -/
def Mutation.run (mutation : Mutation) (self : AmqpValue) : Except String AmqpValue :=
  match mutation with
  | .SetListItemCount count => self.SetListItemCount count
  | .SetListItem index item => self.SetListItem index item
  | .SetMapValue key value => self.SetMapValue key value
  | .AddArrayItem itemValue => self.AddArrayItem itemValue
  | .SetCompositeItem index itemValue => self.SetCompositeItem index itemValue

namespace StoredAmqpValue

/-- The value an object currently holds. -/
def value (storage : Storage) (self : StoredAmqpValue) : AmqpValue :=
  ⟨storage.value_at self.m_value⟩

/-- Translation of `AmqpValue::AmqpValue(AmqpValue const&)` over the storage: the new
object holds `amqpvalue_clone(that.m_value)`. -/
def copy_construct (storage : Storage) (that : StoredAmqpValue) : Storage × StoredAmqpValue :=
  ((storage.clone that.m_value).1, ⟨(storage.clone that.m_value).2⟩)

/-- Translation of `AmqpValue::operator=(AmqpValue const&)` over the storage: `m_value`
is overwritten with `amqpvalue_clone(that.m_value)`; the cell it pointed at before stays
in the storage. -/
def copy_assign (storage : Storage) (_self that : StoredAmqpValue) :
    Storage × StoredAmqpValue :=
  ((storage.clone that.m_value).1, ⟨(storage.clone that.m_value).2⟩)

/-- Translation of `AmqpValue::operator==` over the storage. -/
def operator_eq (storage : Storage) (self that : StoredAmqpValue) : Bool :=
  amqpvalue_are_equal (storage.value_at self.m_value) (storage.value_at that.m_value)

/-- A mutating member function called on an object: the library changes, in place, the
cell `m_value` points at; when the call throws the storage is as before. -/
def mutate (storage : Storage) (self : StoredAmqpValue) (mutation : Mutation) :
    Except String Storage :=
  match mutation.run (self.value storage) with
  | .error e => .error e
  | .ok next =>
      match self.m_value, next.m_value with
      | some address, some tree => .ok (storage.set address tree)
      | _, _ => .ok storage

end StoredAmqpValue

/-! ## Message envelope -/

/-- The enumeration `MessageBodyType` of `amqp_message.hpp`. -/
inductive MessageBodyType
  | Invalid
  | None
  | Data
  | Sequence
  | Value
  deriving DecidableEq, Repr

/-- Modelled from the spec: the body storage of a message, which is not in the sources
(`amqp_message.hpp` only declares the class).  The body is exactly one of: nothing, an
ordered sequence of opaque binary Data sections, an ordered sequence of AMQP-Sequence
sections, a single AMQP value. -/
inductive MessageBody
  | none
  | data (sections : List (List Nat))
  | sequence (sections : List AMQP_VALUE_DATA)
  | value (value : AMQP_VALUE_DATA)

/-- Modelled from the spec: the state of a `Message`, whose implementation is not in the
sources: optional header, delivery-annotations, message-annotations, properties,
application-properties and footer, the message format (default 0) and the body. -/
structure Message where
  header : Option Header
  delivery_annotations : Option AMQP_VALUE_DATA
  message_annotations : Option AMQP_VALUE_DATA
  properties : Option Properties
  application_properties : Option AMQP_VALUE_DATA
  footer : Option AMQP_VALUE_DATA
  message_format : Nat
  body : MessageBody

namespace Message

/-- Modelled from the spec: `Message::Message()`, a message with nothing set. -/
def create : Message := ⟨none, none, none, none, none, none, 0, .none⟩

/-- The message with its body replaced, everything else kept. -/
def with_body (self : Message) (body : MessageBody) : Message :=
  ⟨self.header, self.delivery_annotations, self.message_annotations, self.properties,
    self.application_properties, self.footer, self.message_format, body⟩

/-- Modelled from the spec: `Message::GetBodyType`: the body-type query reflects the last
body-mutating call; a message on which no body was set reports `None`. -/
def GetBodyType (self : Message) : MessageBodyType :=
  match self.body with
  | .none => .None
  | .data _ => .Data
  | .sequence _ => .Sequence
  | .value _ => .Value

/-- Modelled from the spec: `Message::AddBodyAmqpData`: appends a Data section; a body of
another kind is discarded and the body restarts as Data. -/
def AddBodyAmqpData (self : Message) (binaryData : List Nat) : Message :=
  match self.body with
  | .data sections => self.with_body (.data (sections ++ [binaryData]))
  | _ => self.with_body (.data [binaryData])

/-- Modelled from the spec: `Message::GetBodyAmqpDataCount`: the number of Data sections,
0 when the body is not Data. -/
def GetBodyAmqpDataCount (self : Message) : Nat :=
  match self.body with
  | .data sections => sections.length
  | _ => 0

/-- Modelled from the spec: `Message::GetBodyAmqpData`: the Data section at `index`;
an index beyond the current count fails with IndexOutOfRange. -/
def GetBodyAmqpData (self : Message) (index : Nat) : Except String (List Nat) :=
  match self.body with
  | .data sections =>
      match sections[index]? with
      | some data => .ok data
      | none => .error "IndexOutOfRange"
  | _ => .error "IndexOutOfRange"

/-- Modelled from the spec: `Message::AddBodyAmqpSequence`: appends a Sequence section; a
body of another kind is discarded and the body restarts as Sequence.  A value with a null
handle is refused. -/
def AddBodyAmqpSequence (self : Message) (value : AmqpValue) : Except String Message :=
  match value.m_value, self.body with
  | none, _ => .error "TypeMismatch"
  | some v, .sequence sections => .ok (self.with_body (.sequence (sections ++ [v])))
  | some v, _ => .ok (self.with_body (.sequence [v]))

/-- Modelled from the spec: `Message::GetBodyAmqpSequenceCount`: the number of Sequence
sections, 0 when the body is not Sequence. -/
def GetBodyAmqpSequenceCount (self : Message) : Nat :=
  match self.body with
  | .sequence sections => sections.length
  | _ => 0

/-- Modelled from the spec: `Message::SetBodyAmqpValue`: the body becomes the single
value, replacing whatever body was there.  A value with a null handle is refused. -/
def SetBodyAmqpValue (self : Message) (value : AmqpValue) : Except String Message :=
  match value.m_value with
  | none => .error "TypeMismatch"
  | some v => .ok (self.with_body (.value v))

/-- Modelled from the spec: `Message::GetBodyAmqpValue`: the single value of a Value
body. -/
def GetBodyAmqpValue (self : Message) : Except String AmqpValue :=
  match self.body with
  | .value v => .ok ⟨some v⟩
  | _ => .error "TypeMismatch"

end Message

end Azure.Core.Amqp.Models

/-!
# Connection (`sdk/core/azure-core-amqp/src/amqp/connection.cpp`)

`ConnectionImpl` drives the frame engine of the uAMQP C library (`azure_uamqp_c/connection.h`)
and reports its events to a `ConnectionEvents` handler.  Neither is in the sources, so both
are external to the embedding:

* every call made into the frame engine, every call made on the event handler and the other
  side effects of the code are appended, in order, to a trace (`List Effect`);
* what the frame engine answers (status codes, the handle of a created connection) is given
  by an `Environment`, as a function of the trace so far and of the call;
* a member function takes the trace and returns the extended trace with its `Outcome`:
  a normal return, a thrown C++ exception, or undefined behaviour (a null pointer
  dereferenced), which is not a thrown exception.
-/

namespace Azure.Core.Amqp

open Azure.Core.Amqp.Models

/-- A C++ exception thrown by the connection code, with its `what()` message. -/
inductive Exception
  | runtime_error (what : String)
  | logic_error (what : String)
  deriving DecidableEq, Repr

/-- How a call ends: it returns a value, it throws, or it runs into undefined behaviour. -/
inductive Outcome (α : Type)
  | returned (value : α)
  | thrown (exception : Exception)
  | undefined_behaviour

namespace Network._internal

/-- Modelled from the spec: the transports a connection can own; the classes `Transport`,
`SocketTransport` and `TlsTransport` are not in the sources.  A transport is either one
made by the caller beforehand, a plaintext socket transport to a host and port, or a TLS
transport to a host and port. -/
inductive Transport
  | prebuilt (id : Nat)
  | SocketTransport (host : String) (port : Nat)
  | TlsTransport (host : String) (port : Nat)
  deriving DecidableEq, Repr

end Network._internal

open Network._internal

/-- Modelled from the spec: a parsed `Azure::Core::Url`, whose class is not in the sources
(URL parsing is an external collaborator), seen through the three getters the connection
uses; `GetPort` is 0 when the URL gives no port. -/
structure Url where
  GetScheme : String
  GetHost : String
  GetPort : Nat
  deriving DecidableEq, Repr

/-- A frame-engine connection handle (`CONNECTION_HANDLE`); `none` is `NULL`. -/
abbrev CONNECTION_HANDLE := Option Nat

/-- The enumeration `CONNECTION_STATE` of the frame engine, whose declaration is not in the
sources: the fifteen enumerators named in the switch of
`ConnectionStateFromCONNECTION_STATE`, and any other value of the underlying integer. -/
inductive CONNECTION_STATE
  | CONNECTION_STATE_START
  | CONNECTION_STATE_CLOSE_PIPE
  | CONNECTION_STATE_CLOSE_RCVD
  | CONNECTION_STATE_END
  | CONNECTION_STATE_HDR_RCVD
  | CONNECTION_STATE_HDR_SENT
  | CONNECTION_STATE_HDR_EXCH
  | CONNECTION_STATE_OPEN_PIPE
  | CONNECTION_STATE_OC_PIPE
  | CONNECTION_STATE_OPEN_RCVD
  | CONNECTION_STATE_OPEN_SENT
  | CONNECTION_STATE_OPENED
  | CONNECTION_STATE_CLOSE_SENT
  | CONNECTION_STATE_DISCARDING
  | CONNECTION_STATE_ERROR
  | unrecognised (value : Int)
  deriving DecidableEq, Repr

namespace _internal

/-- The enumeration `ConnectionState` of `connection.hpp`, whose declaration is not in the
sources: the enumerators returned by `ConnectionStateFromCONNECTION_STATE`. -/
inductive ConnectionState
  | Start
  | ClosePipe
  | CloseReceived
  | End
  | HeaderReceived
  | HeaderSent
  | HeaderExchanged
  | OpenPipe
  | OcPipe
  | OpenReceived
  | OpenSent
  | Opened
  | CloseSent
  | Discarding
  | Error
  deriving DecidableEq, Repr

/-- The members of `ConnectionOptions` that `connection.cpp` reads; `SaslCredentials` is a
pointer, `none` when null. -/
structure ConnectionOptions where
  HostName : String
  ContainerId : String
  EnableTrace : Bool
  SaslCredentials : Option Nat
  deriving DecidableEq, Repr

/-- A `ConnectionEvents` handler, the interface of which is not in the sources: a user
object whose `OnNewEndpoint` answers whether the endpoint is accepted. -/
structure ConnectionEvents where
  OnNewEndpoint : Nat → Bool

end _internal

open _internal

/-- A call into the frame engine, with its arguments. -/
inductive EngineCall
  | connection_create2 (xio : Transport) (hostname : String) (container_id : String)
  | connection_open (connection : CONNECTION_HANDLE)
  | connection_listen (connection : CONNECTION_HANDLE)
  | connection_close (connection : CONNECTION_HANDLE) (condition_value : Option String)
      (description : Option String) (info : AMQP_VALUE)
  | connection_set_trace (connection : CONNECTION_HANDLE) (trace_on : Bool)
  | connection_set_max_frame_size (connection : CONNECTION_HANDLE) (max_frame_size : Nat)
  | connection_set_channel_max (connection : CONNECTION_HANDLE) (channel_max : Nat)
  | connection_set_idle_timeout (connection : CONNECTION_HANDLE) (idle_timeout : Nat)
  | connection_set_properties (connection : CONNECTION_HANDLE) (properties : AMQP_VALUE)
  | connection_set_remote_idle_timeout_empty_frame_send_ratio
      (connection : CONNECTION_HANDLE) (ratio_bits : Nat)
  | connection_dowork (connection : CONNECTION_HANDLE)
  | connection_destroy (connection : CONNECTION_HANDLE)

/-- A call on the event handler, with its arguments (the connection argument left out). -/
inductive HandlerCall
  | OnConnectionStateChanged (newState : ConnectionState) (oldState : ConnectionState)
  | OnNewEndpoint (endpoint : Nat)
  | OnIoError

/-- A side effect of the connection code. -/
inductive Effect
  | EnsureGlobalStateInitialized
  | make_shared (transport : Transport)
  | engine (call : EngineCall)
  | handler (call : HandlerCall)

/-- What lies outside the code: the status code the frame engine returns for a call, the
handle `connection_create2` returns, and the identifier `Uuid::CreateUuid` generates, each
as a function of what happened before. -/
structure Environment where
  status : List Effect → EngineCall → Int
  connection_create2 : List Effect → EngineCall → CONNECTION_HANDLE
  CreateUuid : List Effect → String

namespace _detail

/-- The data members of `ConnectionImpl`; `m_eventHandler` and `m_transport` are pointers,
`none` when null. -/
structure ConnectionImpl where
  m_hostName : String
  m_options : ConnectionOptions
  m_eventHandler : Option ConnectionEvents
  m_transport : Option Transport
  m_connection : CONNECTION_HANDLE

/-- Translation of `ConnectionStateFromCONNECTION_STATE`. -/
def ConnectionStateFromCONNECTION_STATE (state : CONNECTION_STATE) : Outcome ConnectionState :=
  match state with
  | .CONNECTION_STATE_START => .returned .Start
  | .CONNECTION_STATE_CLOSE_PIPE => .returned .ClosePipe
  | .CONNECTION_STATE_CLOSE_RCVD => .returned .CloseReceived
  | .CONNECTION_STATE_END => .returned .End
  | .CONNECTION_STATE_HDR_RCVD => .returned .HeaderReceived
  | .CONNECTION_STATE_HDR_SENT => .returned .HeaderSent
  | .CONNECTION_STATE_HDR_EXCH => .returned .HeaderExchanged
  | .CONNECTION_STATE_OPEN_PIPE => .returned .OpenPipe
  | .CONNECTION_STATE_OC_PIPE => .returned .OcPipe
  | .CONNECTION_STATE_OPEN_RCVD => .returned .OpenReceived
  | .CONNECTION_STATE_OPEN_SENT => .returned .OpenSent
  | .CONNECTION_STATE_OPENED => .returned .Opened
  | .CONNECTION_STATE_CLOSE_SENT => .returned .CloseSent
  | .CONNECTION_STATE_DISCARDING => .returned .Discarding
  | .CONNECTION_STATE_ERROR => .returned .Error
  | .unrecognised _ => .thrown (.logic_error "Unknown connection state")

namespace ConnectionImpl

/-- Translation of `ConnectionImpl::ConnectionImpl(transport, options, eventHandler)`. -/
def from_transport (transport : Option Transport) (options : ConnectionOptions)
    (eventHandler : Option ConnectionEvents) (trace : List Effect) :
    List Effect × Outcome ConnectionImpl :=
  if options.SaslCredentials.isSome then
    (trace,
      .thrown (.runtime_error "Sasl Credentials should not be provided with a transport."))
  else
    (trace ++ [.EnsureGlobalStateInitialized],
      .returned ⟨options.HostName, options, eventHandler, transport, none⟩)

/-- Translation of `ConnectionImpl::ConnectionImpl(requestUri, options, eventHandler)`,
given the URL parsed from `requestUri`. -/
def from_request_uri (requestUrl : Url) (options : ConnectionOptions)
    (eventHandler : Option ConnectionEvents) (trace : List Effect) :
    List Effect × Outcome ConnectionImpl :=
  if options.SaslCredentials.isSome then
    (trace ++ [.EnsureGlobalStateInitialized],
      .thrown (.runtime_error "Sasl Credentials should not be provided with a request URI."))
  else if requestUrl.GetScheme = "amqp" then
    (trace ++ [.EnsureGlobalStateInitialized,
        .make_shared (.SocketTransport requestUrl.GetHost
          (if requestUrl.GetPort ≠ 0 then requestUrl.GetPort else 5672))],
      .returned ⟨requestUrl.GetHost, options, eventHandler,
        some (.SocketTransport requestUrl.GetHost
          (if requestUrl.GetPort ≠ 0 then requestUrl.GetPort else 5672)), none⟩)
  else if requestUrl.GetScheme = "amqps" then
    (trace ++ [.EnsureGlobalStateInitialized,
        .make_shared (.TlsTransport requestUrl.GetHost
          (if requestUrl.GetPort ≠ 0 then requestUrl.GetPort else 5671))],
      .returned ⟨requestUrl.GetHost, options, eventHandler,
        some (.TlsTransport requestUrl.GetHost
          (if requestUrl.GetPort ≠ 0 then requestUrl.GetPort else 5671)), none⟩)
  else
    (trace ++ [.EnsureGlobalStateInitialized],
      .returned ⟨requestUrl.GetHost, options, eventHandler, none, none⟩)

/-- Translation of `ConnectionImpl::~ConnectionImpl`: the members after the destructor
body. -/
def destroy (self : ConnectionImpl) (trace : List Effect) : List Effect × ConnectionImpl :=
  match self.m_connection with
  | some connection =>
      (trace ++ [.engine (.connection_destroy (some connection))],
        ⟨self.m_hostName, self.m_options, none, self.m_transport, none⟩)
  | none => (trace, ⟨self.m_hostName, self.m_options, none, self.m_transport, none⟩)

/-- Translation of `ConnectionImpl::SetTrace`. -/
def SetTrace (self : ConnectionImpl) (setTrace : Bool) (trace : List Effect) :
    List Effect × Outcome Unit :=
  (trace ++ [.engine (.connection_set_trace self.m_connection setTrace)], .returned ())

/-- Translation of `ConnectionImpl::FinishConstruction`, giving the members afterwards.
`*m_transport->GetImpl()` dereferences `m_transport`, which is undefined behaviour when
the pointer is null. -/
def FinishConstruction (env : Environment) (self : ConnectionImpl) (trace : List Effect) :
    List Effect × Outcome ConnectionImpl :=
  match self.m_transport with
  | none => (trace, .undefined_behaviour)
  | some transport =>
      (trace ++
        [.engine (.connection_create2 transport (c_string self.m_hostName)
          (c_string (if self.m_options.ContainerId.isEmpty then env.CreateUuid trace
            else self.m_options.ContainerId))),
         .engine (.connection_set_trace
          (env.connection_create2 trace
            (.connection_create2 transport (c_string self.m_hostName)
              (c_string (if self.m_options.ContainerId.isEmpty then env.CreateUuid trace
                else self.m_options.ContainerId))))
          self.m_options.EnableTrace)],
        .returned ⟨self.m_hostName, self.m_options, self.m_eventHandler, self.m_transport,
          env.connection_create2 trace
            (.connection_create2 transport (c_string self.m_hostName)
              (c_string (if self.m_options.ContainerId.isEmpty then env.CreateUuid trace
                else self.m_options.ContainerId)))⟩)

/-- Translation of `ConnectionImpl::Poll`. -/
def Poll (self : ConnectionImpl) (trace : List Effect) : List Effect × Outcome Unit :=
  match self.m_transport with
  | some _ => (trace ++ [.engine (.connection_dowork self.m_connection)], .returned ())
  | none => (trace, .returned ())

/-- One call into the frame engine whose non-zero status makes the caller throw
`std::runtime_error(what)`: the shape shared by `Open`, `Listen` and the setters. -/
def checked_call (env : Environment) (call : EngineCall) (what : String)
    (trace : List Effect) : List Effect × Outcome Unit :=
  if env.status trace call ≠ 0 then
    (trace ++ [.engine call], .thrown (.runtime_error what))
  else
    (trace ++ [.engine call], .returned ())

/-- Translation of `ConnectionImpl::Open`. -/
def Open (env : Environment) (self : ConnectionImpl) (trace : List Effect) :
    List Effect × Outcome Unit :=
  checked_call env (.connection_open self.m_connection) "Could not open connection." trace

/-- Translation of `ConnectionImpl::Listen`. -/
def Listen (env : Environment) (self : ConnectionImpl) (trace : List Effect) :
    List Effect × Outcome Unit :=
  checked_call env (.connection_listen self.m_connection) "Could not listen on connection."
    trace

/-- Translation of `ConnectionImpl::Close`: an empty condition or description is passed
as `nullptr`, a non-empty one as its C string. -/
def Close (env : Environment) (self : ConnectionImpl) (condition : String)
    (description : String) (info : AmqpValue) (trace : List Effect) :
    List Effect × Outcome Unit :=
  if self.m_connection.isNone then
    (trace, .thrown (.logic_error "Connection already closed."))
  else
    checked_call env
      (.connection_close self.m_connection
        (if condition.isEmpty then none else some (c_string condition))
        (if description.isEmpty then none else some (c_string description))
        info.m_value)
      "Could not close connection." trace

/-- Translation of `ConnectionImpl::SetMaxFrameSize`. -/
def SetMaxFrameSize (env : Environment) (self : ConnectionImpl) (maxSize : Nat)
    (trace : List Effect) : List Effect × Outcome Unit :=
  checked_call env (.connection_set_max_frame_size self.m_connection maxSize)
    "COuld not set max frame size." trace

/-- Translation of `ConnectionImpl::SetMaxChannel`. -/
def SetMaxChannel (env : Environment) (self : ConnectionImpl) (maxChannel : Nat)
    (trace : List Effect) : List Effect × Outcome Unit :=
  checked_call env (.connection_set_channel_max self.m_connection maxChannel)
    "COuld not set channel max." trace

/-- Translation of `ConnectionImpl::SetIdleTimeout`: the millisecond count is cast to the
engine type `milliseconds`, an unsigned 32-bit integer. -/
def SetIdleTimeout (env : Environment) (self : ConnectionImpl) (idleTimeout : Int)
    (trace : List Effect) : List Effect × Outcome Unit :=
  checked_call env
    (.connection_set_idle_timeout self.m_connection (idleTimeout % 2 ^ 32).toNat)
    "COuld not set idle timeout." trace

/-- Translation of `ConnectionImpl::SetProperties`. -/
def SetProperties (env : Environment) (self : ConnectionImpl) (value : AmqpValue)
    (trace : List Effect) : List Effect × Outcome Unit :=
  checked_call env (.connection_set_properties self.m_connection value.m_value)
    "COuld not set properties." trace

/-- Translation of `ConnectionImpl::SetRemoteIdleTimeoutEmptyFrameSendRatio`, the `double`
argument given by its bit pattern. -/
def SetRemoteIdleTimeoutEmptyFrameSendRatio (env : Environment) (self : ConnectionImpl)
    (ratio : Nat) (trace : List Effect) : List Effect × Outcome Unit :=
  checked_call env
    (.connection_set_remote_idle_timeout_empty_frame_send_ratio self.m_connection ratio)
    "Could not set remote idle timeout send frame ratio." trace

/-- Translation of `ConnectionImpl::OnConnectionStateChangedFn`, `context` being the
connection.  Both state arguments are converted before the handler is called, so a
conversion that throws leaves the handler uncalled. -/
def OnConnectionStateChangedFn (context : ConnectionImpl) (newState : CONNECTION_STATE)
    (oldState : CONNECTION_STATE) (trace : List Effect) : List Effect × Outcome Unit :=
  match context.m_eventHandler with
  | none => (trace, .returned ())
  | some _ =>
      match ConnectionStateFromCONNECTION_STATE newState,
        ConnectionStateFromCONNECTION_STATE oldState with
      | .returned newConverted, .returned oldConverted =>
          (trace ++ [.handler (.OnConnectionStateChanged newConverted oldConverted)],
            .returned ())
      | .thrown e, _ => (trace, .thrown e)
      | _, .thrown e => (trace, .thrown e)
      | _, _ => (trace, .undefined_behaviour)

/-- Translation of `ConnectionImpl::OnNewEndpointFn`, `context` being the connection. -/
def OnNewEndpointFn (context : ConnectionImpl) (newEndpoint : Nat) (trace : List Effect) :
    List Effect × Outcome Bool :=
  match context.m_eventHandler with
  | some eventHandler =>
      (trace ++ [.handler (.OnNewEndpoint newEndpoint)],
        .returned (eventHandler.OnNewEndpoint newEndpoint))
  | none => (trace, .returned false)

/-- Translation of `ConnectionImpl::OnIoErrorFn`, `context` being the connection. -/
def OnIoErrorFn (context : ConnectionImpl) (trace : List Effect) : List Effect × Outcome Unit :=
  match context.m_eventHandler with
  | some _ => (trace ++ [.handler .OnIoError], .returned ())
  | none => (trace, .returned ())

end ConnectionImpl

end _detail

open _detail

namespace _internal.Connection

/-- Translation of `Connection::Connection(transport, options, eventHandler)`: the
implementation object is made, then `FinishConstruction` runs on it. -/
def from_transport (env : Environment) (transport : Option Transport)
    (options : ConnectionOptions) (eventHandler : Option ConnectionEvents)
    (trace : List Effect) : List Effect × Outcome ConnectionImpl :=
  match ConnectionImpl.from_transport transport options eventHandler trace with
  | (trace1, .returned m_impl) => m_impl.FinishConstruction env trace1
  | (trace1, .thrown e) => (trace1, .thrown e)
  | (trace1, .undefined_behaviour) => (trace1, .undefined_behaviour)

/-- Translation of `Connection::Connection(requestUri, options, eventHandler)`, given the
URL parsed from `requestUri`. -/
def from_request_uri (env : Environment) (requestUrl : Url) (options : ConnectionOptions)
    (eventHandler : Option ConnectionEvents) (trace : List Effect) :
    List Effect × Outcome ConnectionImpl :=
  match ConnectionImpl.from_request_uri requestUrl options eventHandler trace with
  | (trace1, .returned m_impl) => m_impl.FinishConstruction env trace1
  | (trace1, .thrown e) => (trace1, .thrown e)
  | (trace1, .undefined_behaviour) => (trace1, .undefined_behaviour)

end _internal.Connection

/-! ## Transport (`sdk/core/azure-core-amqp/src/network/transport.cpp`) -/

/-- The result of a call with its value, if it returns one, mapped by `f`. -/
def Outcome.map {α β : Type} (f : α → β) : Outcome α → Outcome β
  | .returned value => .returned (f value)
  | .thrown exception => .thrown exception
  | .undefined_behaviour => .undefined_behaviour

namespace Network._internal._detail

/-- A handle of the underlying I/O layer (`XIO_HANDLE`); `none` is `NULL`. -/
abbrev XIO_HANDLE := Option Nat

/-- A call into the underlying I/O layer (`azure_c_shared_utility/xio.h`, which is not in
the sources), with its handle and data arguments. -/
inductive XioCall
  | xio_open (xio : XIO_HANDLE)
  | xio_close (xio : XIO_HANDLE)
  | xio_send (xio : XIO_HANDLE) (buffer : List Nat) (size : Nat)
  | xio_dowork (xio : XIO_HANDLE)
  | xio_destroy (xio : XIO_HANDLE)

/-- What lies outside the code: the status code the I/O layer returns for a call, as a
function of the calls made before. -/
structure XioEnvironment where
  status : List XioCall → XioCall → Int

/-- The data members of `TransportImpl`; `m_eventHandler` is a pointer, `none` when
null. -/
structure TransportImpl where
  m_xioInstance : XIO_HANDLE
  m_eventHandler : Option Nat
  m_isOpen : Bool

namespace TransportImpl

/-- Modelled from the spec: the initial value of `m_isOpen`, which the constructors leave
to the class declaration (`transport_impl.hpp`, not in the sources): a transport starts
not open. -/
def m_isOpen_initial : Bool := false

/-- Translation of `TransportImpl::TransportImpl(TransportEvents*)`. -/
def create (eventHandler : Option Nat) : TransportImpl :=
  ⟨none, eventHandler, m_isOpen_initial⟩

/-- Translation of `TransportImpl::TransportImpl(XIO_HANDLE, TransportEvents*)`. -/
def from_handle (handle : XIO_HANDLE) (eventHandler : Option Nat) : TransportImpl :=
  ⟨handle, eventHandler, m_isOpen_initial⟩

/-- Translation of `TransportImpl::Open`: the calls made so far extended, the members
afterwards, and how the call ends. -/
def Open (env : XioEnvironment) (self : TransportImpl) (trace : List XioCall) :
    List XioCall × TransportImpl × Outcome Bool :=
  if self.m_isOpen then
    (trace, self, .thrown (.logic_error "Cannot open an opened transport."))
  else if env.status trace (.xio_open self.m_xioInstance) ≠ 0 then
    (trace ++ [.xio_open self.m_xioInstance], self, .returned false)
  else
    (trace ++ [.xio_open self.m_xioInstance],
      ⟨self.m_xioInstance, self.m_eventHandler, true⟩, .returned true)

/-- Translation of `TransportImpl::Close`. -/
def Close (env : XioEnvironment) (self : TransportImpl) (trace : List XioCall) :
    List XioCall × TransportImpl × Outcome Bool :=
  if !self.m_isOpen then
    (trace, self, .thrown (.logic_error "Cannot close an unopened transport."))
  else
    match self.m_xioInstance with
    | some xio =>
        if env.status trace (.xio_close (some xio)) ≠ 0 then
          (trace ++ [.xio_close (some xio)], self, .returned false)
        else
          (trace ++ [.xio_close (some xio)], ⟨none, self.m_eventHandler, self.m_isOpen⟩,
            .returned true)
    | none => (trace, self, .returned true)

/-- Translation of `TransportImpl::Send`. -/
def Send (env : XioEnvironment) (self : TransportImpl) (buffer : List Nat) (size : Nat)
    (trace : List XioCall) : List XioCall × TransportImpl × Outcome Bool :=
  if env.status trace (.xio_send self.m_xioInstance buffer size) ≠ 0 then
    (trace ++ [.xio_send self.m_xioInstance buffer size], self, .returned false)
  else
    (trace ++ [.xio_send self.m_xioInstance buffer size], self, .returned true)

/-- Translation of `TransportImpl::Poll`. -/
def Poll (self : TransportImpl) (trace : List XioCall) :
    List XioCall × TransportImpl × Outcome Unit :=
  match self.m_xioInstance with
  | some xio => (trace ++ [.xio_dowork (some xio)], self, .returned ())
  | none => (trace, self, .returned ())

end TransportImpl

/-- One call of a member function of the transport interface, with its arguments. -/
inductive TransportCall
  | Open
  | Close
  | Send (buffer : List Nat) (size : Nat)
  | Poll

namespace TransportImpl

/-- The member function called on a transport: the calls made so far extended, the members
afterwards, and how the call ends, with the value returned if there is one. -/
def step (env : XioEnvironment) (call : TransportCall) (self : TransportImpl)
    (trace : List XioCall) : List XioCall × TransportImpl × Outcome (Option Bool) :=
  match call with
  | .Open =>
      ((self.Open env trace).1, (self.Open env trace).2.1, (self.Open env trace).2.2.map some)
  | .Close =>
      ((self.Close env trace).1, (self.Close env trace).2.1,
        (self.Close env trace).2.2.map some)
  | .Send buffer size =>
      ((self.Send env buffer size trace).1, (self.Send env buffer size trace).2.1,
        (self.Send env buffer size trace).2.2.map some)
  | .Poll =>
      ((self.Poll trace).1, (self.Poll trace).2.1, (self.Poll trace).2.2.map (fun _ => none))

/-- A sequence of member-function calls made in order on one transport: the calls made
into the I/O layer, the members at the end, and each call with how it ended. -/
def run (env : XioEnvironment) :
    List TransportCall → TransportImpl → List XioCall →
      List XioCall × TransportImpl × List (TransportCall × Outcome (Option Bool))
  | [], self, trace => (trace, self, [])
  | call :: rest, self, trace =>
      ((run env rest (step env call self trace).2.1 (step env call self trace).1).1,
        (run env rest (step env call self trace).2.1 (step env call self trace).1).2.1,
        (call, (step env call self trace).2.2) ::
          (run env rest (step env call self trace).2.1 (step env call self trace).1).2.2)

end TransportImpl

end Network._internal._detail

end Azure.Core.Amqp

namespace Azure.Core.Amqp.Models

/-! ## Diagnostics: hex dump of binary payloads -/

/-- Modelled from the spec: the formatting state of a `std::stringstream` (C++ standard
library, not in the sources): the characters written so far, the field width for the next
formatted output, the fill character, and whether integers are written in hexadecimal.
Output is right-adjusted (`std::right`). -/
structure StringStream where
  str : List Char
  width : Nat
  fill : Char
  hex : Bool

namespace StringStream

/-- A freshly constructed stream: nothing written, width 0, fill character space,
decimal. -/
def empty : StringStream := ⟨[], 0, ' ', false⟩

/-- The manipulator `std::hex`. -/
def set_hex (ss : StringStream) : StringStream := ⟨ss.str, ss.width, ss.fill, true⟩

/-- The manipulator `std::setw(n)`. -/
def setw (ss : StringStream) (n : Nat) : StringStream := ⟨ss.str, n, ss.fill, ss.hex⟩

/-- The manipulator `std::setfill(c)`. -/
def setfill (ss : StringStream) (c : Char) : StringStream := ⟨ss.str, ss.width, c, ss.hex⟩

/-- A formatted output: the field is written after enough fill characters to reach the
field width, and the width is reset to 0. -/
def put_field (ss : StringStream) (field : List Char) : StringStream :=
  ⟨ss.str ++ List.replicate (ss.width - field.length) ss.fill ++ field, 0, ss.fill, ss.hex⟩

/-- Inserting an integer, written as `ss << value`: its digits in base 16 (lower case) or
10, most significant first. -/
def put_int (ss : StringStream) (value : Nat) : StringStream :=
  ss.put_field (Nat.toDigits (if ss.hex then 16 else 10) value)

/-- Inserting a string literal, written as `ss << "..."`. -/
def put_string (ss : StringStream) (text : String) : StringStream :=
  ss.put_field text.data

/-- Inserting one character, written as `ss << c` for a `uint8_t` or `char`. -/
def put_char (ss : StringStream) (c : Char) : StringStream :=
  ss.put_field [c]

end StringStream

/-- Modelled from the spec: `isprint` of the C library (not in the sources) in the default
locale: the printable characters are the codes 0x20 to 0x7e. -/
def isprint (c : Nat) : Bool := 0x20 ≤ c && c ≤ 0x7e

/-- Translation of `LogRawData`: the characters on `os` afterwards and the value returned.
`pb` is the buffer the pointer designates, `pb[i]` its byte at index `i`. -/
def LogRawData (os : List Char) (startOffset : Nat) (pb : List Nat) (cb : Nat) :
    List Char × Nat :=
  let bytesToWrite := if cb < 0x10 then cb else 0x10
  let ss0 := ((((StringStream.empty.set_hex).setw 8).setfill '0').put_int startOffset).put_string
    ": "
  let ss1 := (List.range bytesToWrite).foldl
    (fun ss i => ((((ss.set_hex).setw 2).setfill '0').put_int (pb.getD i 0)).put_string " ") ss0
  let ss2 := (List.range' bytesToWrite (0x10 - bytesToWrite)).foldl
    (fun ss _ => ss.put_string "   ") ss1
  let ss3 := ss2.put_string "  * "
  let ss4 := (List.range bytesToWrite).foldl
    (fun ss i =>
      if isprint (pb.getD i 0) then ss.put_char (Char.ofNat (pb.getD i 0))
      else ss.put_string ".") ss3
  let ss5 := (List.range' bytesToWrite (0x10 - bytesToWrite)).foldl
    (fun ss _ => ss.put_string " ") ss4
  let ss6 := ss5.put_string " *"
  (os ++ ss6.str, bytesToWrite)

/-- Translation of the `do ... while (cb)` loop of `operator<<(std::ostream&, BinaryData
const&)`: the characters on `os` when the loop ends; `std::endl` writes a line feed. -/
def log_rows (os : List Char) (pb : List Nat) (cb : Nat) (currentOffset : Nat) : List Char :=
  if h : cb - (LogRawData os currentOffset pb cb).2 ≠ 0 then
    log_rows ((LogRawData os currentOffset pb cb).1 ++ [Char.ofNat 10])
      (pb.drop (LogRawData os currentOffset pb cb).2)
      (cb - (LogRawData os currentOffset pb cb).2)
      (currentOffset + (LogRawData os currentOffset pb cb).2)
  else
    (LogRawData os currentOffset pb cb).1
termination_by cb
decreasing_by
  have h2 : (LogRawData os currentOffset pb cb).2 = if cb < 0x10 then cb else 0x10 := rfl
  rw [h2] at h ⊢
  by_cases hc : cb < 0x10
  · simp [hc] at h
  · simp only [hc, if_false] at h ⊢
    omega

/-- Translation of `operator<<(std::ostream&, BinaryData const&)`, the payload given by
its bytes and its length. -/
def operator_shl_BinaryData (os : List Char) (bytes : List Nat) (length : Nat) : List Char :=
  log_rows os bytes length 0

/-! ### The row of the dump in the words of the specification -/

/-- A number as hexadecimal digits, zero-padded on the left to `digits` digits. -/
def hex_zero_padded (digits : Nat) (value : Nat) : List Char :=
  List.replicate (digits - (Nat.toDigits 16 value).length) '0' ++ Nat.toDigits 16 value

/-- A byte in the text column: itself when printable, a dot otherwise. -/
def printable_or_dot (byte : Nat) : Char :=
  if 0x20 ≤ byte ∧ byte ≤ 0x7e then Char.ofNat byte else '.'

/-- The row for the `k` bytes `bytes`, as the specification describes it: the offset as 8
zero-padded hex digits, `": "`, each byte as 2 zero-padded hex digits followed by a
space, 3 spaces for each of the `16 - k` missing bytes, `"  * "`, the bytes with each
printable byte shown as itself and every other byte as a dot, `16 - k` spaces, `" *"`. -/
def raw_data_row (startOffset : Nat) (bytes : List Nat) : List Char :=
  hex_zero_padded 8 startOffset ++ [':', ' '] ++
    bytes.flatMap (fun byte => hex_zero_padded 2 byte ++ [' ']) ++
    List.replicate (3 * (16 - bytes.length)) ' ' ++
    [' ', ' ', '*', ' '] ++
    bytes.map printable_or_dot ++
    List.replicate (16 - bytes.length) ' ' ++
    [' ', '*']

/-! # Theorems -/

/-! ## Shared lemmas -/

theorem c_string_data_no_nul (s : String) : ∀ c ∈ (c_string s).data, c ≠ Char.ofNat 0 := by
  intro c hc
  have h := List.mem_takeWhile_imp hc
  simpa using h

theorem c_string_eq_self_of_no_nul (s : String) (h : ∀ c ∈ s.data, c ≠ Char.ofNat 0) :
    c_string s = s := by
  unfold c_string
  have : s.data.takeWhile (fun c => c != Char.ofNat 0) = s.data := by
    rw [List.takeWhile_eq_self_iff]
    intro c hc
    simpa using h c hc
  rw [this]

theorem c_string_idem (s : String) : c_string (c_string s) = c_string s :=
  c_string_eq_self_of_no_nul (c_string s) (c_string_data_no_nul s)

mutual
theorem AMQP_VALUE_DATA.are_equal_iff :
    ∀ a b : AMQP_VALUE_DATA, a.are_equal b = true ↔ a = b
  | .null, b => by cases b <;> simp [AMQP_VALUE_DATA.are_equal]
  | .bool _, b => by cases b <;> simp [AMQP_VALUE_DATA.are_equal]
  | .ubyte _, b => by cases b <;> simp [AMQP_VALUE_DATA.are_equal]
  | .ushort _, b => by cases b <;> simp [AMQP_VALUE_DATA.are_equal]
  | .uint _, b => by cases b <;> simp [AMQP_VALUE_DATA.are_equal]
  | .ulong _, b => by cases b <;> simp [AMQP_VALUE_DATA.are_equal]
  | .byte _, b => by cases b <;> simp [AMQP_VALUE_DATA.are_equal]
  | .short _, b => by cases b <;> simp [AMQP_VALUE_DATA.are_equal]
  | .int _, b => by cases b <;> simp [AMQP_VALUE_DATA.are_equal]
  | .long _, b => by cases b <;> simp [AMQP_VALUE_DATA.are_equal]
  | .float _, b => by cases b <;> simp [AMQP_VALUE_DATA.are_equal]
  | .double _, b => by cases b <;> simp [AMQP_VALUE_DATA.are_equal]
  | .char _, b => by cases b <;> simp [AMQP_VALUE_DATA.are_equal]
  | .timestamp _, b => by cases b <;> simp [AMQP_VALUE_DATA.are_equal]
  | .uuid _, b => by cases b <;> simp [AMQP_VALUE_DATA.are_equal]
  | .binary _, b => by cases b <;> simp [AMQP_VALUE_DATA.are_equal]
  | .string _, b => by cases b <;> simp [AMQP_VALUE_DATA.are_equal]
  | .symbol _, b => by cases b <;> simp [AMQP_VALUE_DATA.are_equal]
  | .list x, b => by
    cases b <;> simp [AMQP_VALUE_DATA.are_equal, AMQP_VALUE_DATA.items_are_equal_iff x]
  | .map x, b => by
    cases b <;> simp [AMQP_VALUE_DATA.are_equal, AMQP_VALUE_DATA.pairs_are_equal_iff x]
  | .array x, b => by
    cases b <;> simp [AMQP_VALUE_DATA.are_equal, AMQP_VALUE_DATA.items_are_equal_iff x]
  | .described d v, b => by
    cases b <;>
      simp [AMQP_VALUE_DATA.are_equal, AMQP_VALUE_DATA.are_equal_iff d,
        AMQP_VALUE_DATA.are_equal_iff v]
  | .composite d f, b => by
    cases b <;>
      simp [AMQP_VALUE_DATA.are_equal, AMQP_VALUE_DATA.are_equal_iff d,
        AMQP_VALUE_DATA.items_are_equal_iff f]
theorem AMQP_VALUE_DATA.items_are_equal_iff :
    ∀ a b : List AMQP_VALUE_DATA, AMQP_VALUE_DATA.items_are_equal a b = true ↔ a = b
  | [], b => by cases b <;> simp [AMQP_VALUE_DATA.items_are_equal]
  | x :: xs, b => by
    cases b <;>
      simp [AMQP_VALUE_DATA.items_are_equal, AMQP_VALUE_DATA.are_equal_iff x,
        AMQP_VALUE_DATA.items_are_equal_iff xs]
theorem AMQP_VALUE_DATA.pairs_are_equal_iff :
    ∀ a b : List (AMQP_VALUE_DATA × AMQP_VALUE_DATA),
      AMQP_VALUE_DATA.pairs_are_equal a b = true ↔ a = b
  | [], b => by cases b <;> simp [AMQP_VALUE_DATA.pairs_are_equal]
  | (k, v) :: xs, b => by
    cases b with
    | nil => simp [AMQP_VALUE_DATA.pairs_are_equal]
    | cons q qs =>
      cases q
      simp [AMQP_VALUE_DATA.pairs_are_equal, AMQP_VALUE_DATA.are_equal_iff k,
        AMQP_VALUE_DATA.are_equal_iff v, AMQP_VALUE_DATA.pairs_are_equal_iff xs, and_assoc]
end

theorem pad_of_lt (items : List AMQP_VALUE_DATA) (index : Nat) (h : index < items.length) :
    items ++ List.replicate (index + 1 - items.length) AMQP_VALUE_DATA.null = items := by
  have : index + 1 - items.length = 0 := by omega
  simp [this]

theorem find_map_value_of_nodup :
    ∀ (pairs : List (AMQP_VALUE_DATA × AMQP_VALUE_DATA)), (pairs.map Prod.fst).Nodup →
      ∀ (i : Nat) (k v : AMQP_VALUE_DATA), pairs[i]? = some (k, v) →
        find_map_value k pairs = some v
  | [], _, i, k, v, h => by simp at h
  | (k0, v0) :: rest, hnd, i, k, v, h => by
    rw [List.map_cons, List.nodup_cons] at hnd
    cases i with
    | zero =>
      simp at h
      obtain ⟨hk, hv⟩ := h
      subst hk
      subst hv
      simp [find_map_value, (AMQP_VALUE_DATA.are_equal_iff k0 k0).mpr rfl]
    | succ j =>
      simp at h
      have hmem : k ∈ rest.map Prod.fst := by
        have : (k, v) ∈ rest := List.mem_iff_getElem?.mpr ⟨j, h⟩
        exact List.mem_map.mpr ⟨(k, v), this, rfl⟩
      have hne : k0 ≠ k := fun heq => hnd.1 (heq ▸ hmem)
      have hfalse : k0.are_equal k = false := by
        cases hb : k0.are_equal k with
        | false => rfl
        | true => exact absurd ((AMQP_VALUE_DATA.are_equal_iff k0 k).mp hb) hne
      simp [find_map_value, hfalse, find_map_value_of_nodup rest hnd.2 j k v h]

namespace AmqpValue

/-! ## C1: scalar round trip -/

/-- C1. For each fixed-width scalar kind (Bool, UByte, Byte, UShort, Short, UInt, Int,
ULong, Long, Float, Double, Char, Timestamp) and each value representable in that kind
(in the range of the C++ parameter type; a code point, at most `0x10FFFF`, for Char), the
`AmqpValue` built by the constructor or factory of the kind reports that kind from
`GetType`, and the accessor of the kind returns exactly the value, without throwing. -/
theorem scalar_roundtrip :
    (∀ v : Bool, (from_bool v).GetType = .Bool ∧ (from_bool v).operator_bool = .ok v) ∧
    (∀ v : Nat, v < 2 ^ 8 →
      (from_uchar v).GetType = .UByte ∧ (from_uchar v).operator_uchar = .ok v) ∧
    (∀ v : Int, -2 ^ 7 ≤ v → v < 2 ^ 7 →
      (from_char v).GetType = .Byte ∧ (from_char v).operator_char = .ok v) ∧
    (∀ v : Nat, v < 2 ^ 16 →
      (from_uint16 v).GetType = .UShort ∧ (from_uint16 v).operator_uint16 = .ok v) ∧
    (∀ v : Int, -2 ^ 15 ≤ v → v < 2 ^ 15 →
      (from_int16 v).GetType = .Short ∧ (from_int16 v).operator_int16 = .ok v) ∧
    (∀ v : Nat, v < 2 ^ 32 →
      (from_uint32 v).GetType = .UInt ∧ (from_uint32 v).operator_uint32 = .ok v) ∧
    (∀ v : Int, -2 ^ 31 ≤ v → v < 2 ^ 31 →
      (from_int32 v).GetType = .Int ∧ (from_int32 v).operator_int32 = .ok v) ∧
    (∀ v : Nat, v < 2 ^ 64 →
      (from_uint64 v).GetType = .ULong ∧ (from_uint64 v).operator_uint64 = .ok v) ∧
    (∀ v : Int, -2 ^ 63 ≤ v → v < 2 ^ 63 →
      (from_int64 v).GetType = .Long ∧ (from_int64 v).operator_int64 = .ok v) ∧
    (∀ bits : Nat, bits < 2 ^ 32 →
      (from_float bits).GetType = .Float ∧ (from_float bits).operator_float = .ok bits) ∧
    (∀ bits : Nat, bits < 2 ^ 64 →
      (from_double bits).GetType = .Double ∧ (from_double bits).operator_double = .ok bits) ∧
    (∀ v : Nat, v ≤ 0x10FFFF →
      (CreateChar v).GetType = .Char ∧ (CreateChar v).GetChar = .ok v) ∧
    (∀ ms : Int, -2 ^ 63 ≤ ms → ms < 2 ^ 63 →
      (CreateTimestamp ms).GetType = .Timestamp ∧ (CreateTimestamp ms).GetTimestamp = .ok ms) := by
  refine ⟨?_, ?_, ?_, ?_, ?_, ?_, ?_, ?_, ?_, ?_, ?_, ?_, ?_⟩
  · intro v; exact ⟨rfl, rfl⟩
  · intro v _; exact ⟨rfl, rfl⟩
  · intro v _ _; exact ⟨rfl, rfl⟩
  · intro v _; exact ⟨rfl, rfl⟩
  · intro v _ _; exact ⟨rfl, rfl⟩
  · intro v _; exact ⟨rfl, rfl⟩
  · intro v _ _; exact ⟨rfl, rfl⟩
  · intro v _; exact ⟨rfl, rfl⟩
  · intro v _ _; exact ⟨rfl, rfl⟩
  · intro v _; exact ⟨rfl, rfl⟩
  · intro v _; exact ⟨rfl, rfl⟩
  · intro v hv
    have h : ¬ v > 0x10FFFF := Nat.not_lt.mpr hv
    simp [CreateChar, amqpvalue_create_char, h, from_handle, amqpvalue_clone, GetType,
      amqpvalue_get_type, GetChar, amqpvalue_get_char]
  · intro v _ _; exact ⟨rfl, rfl⟩

/-- Witness of C1 at the values of the unit tests: UByte 255 and Char 37. -/
theorem scalar_roundtrip_witness :
    ((from_uchar 255).GetType = .UByte ∧ (from_uchar 255).operator_uchar = .ok 255) ∧
    ((CreateChar 37).GetType = .Char ∧ (CreateChar 37).GetChar = .ok 37) :=
  ⟨scalar_roundtrip.2.1 255 (by decide),
   scalar_roundtrip.2.2.2.2.2.2.2.2.2.2.2.1 37 (by decide)⟩

/-! ## C2: string round trip -/

/-- C2, refuted as stated: the string `a`, NUL, `b` does not round-trip.  The value built
from it has kind String, but converting it back yields the string `a`, the characters
before the NUL, which differs from the original. -/
theorem string_roundtrip_embedded_nul :
    (from_string (String.mk [Char.ofNat 97, Char.ofNat 0, Char.ofNat 98])).GetType = .String ∧
    (from_string (String.mk [Char.ofNat 97, Char.ofNat 0, Char.ofNat 98])).operator_string
      = .ok (String.mk [Char.ofNat 97]) ∧
    String.mk [Char.ofNat 97] ≠ String.mk [Char.ofNat 97, Char.ofNat 0, Char.ofNat 98] := by
  refine ⟨rfl, ?_, by decide⟩
  simp [from_string, operator_string, amqpvalue_create_string, amqpvalue_get_string, c_string]

/-- C2, amended: for every string `s` the value built from `s` has kind String and its
conversion back to `std::string` succeeds and returns the characters of `s` before its
first NUL character; so it returns `s` itself whenever `s` holds no NUL character. -/
theorem string_roundtrip_c_string (s : String) :
    (from_string s).GetType = .String ∧
    (from_string s).operator_string = .ok (c_string s) ∧
    ((∀ c ∈ s.data, c ≠ Char.ofNat 0) → (from_string s).operator_string = .ok s) := by
  have h : (from_string s).operator_string = .ok (c_string s) := by
    simp [from_string, operator_string, amqpvalue_create_string, amqpvalue_get_string,
      c_string_idem]
  refine ⟨rfl, h, ?_⟩
  intro hs
  rw [h, c_string_eq_self_of_no_nul s hs]

/-- Witness of amended C2 at the string of the unit test. -/
theorem string_roundtrip_c_string_witness :
    (from_string "Fred").operator_string = .ok "Fred" :=
  (string_roundtrip_c_string "Fred").2.2 (by decide)

/-! ## C3: scalar and count accessors on a value of another kind -/

/-- C3. For every `AmqpValue` `v` (a moved-from value with a null handle included) and
every scalar or count accessor (the conversion operators, `GetChar`, `GetTimestamp`,
`GetSymbol`, `GetListItemCount`, `GetMapValueCount`, `GetArrayItemCount`,
`GetCompositeItemCount`): when the kind reported by `GetType` differs from the kind of the
accessor, the call throws `std::runtime_error` with the message of that accessor and
returns no value. -/
theorem accessor_kind_mismatch_fails (v : AmqpValue) :
    (v.GetType ≠ .Bool → v.operator_bool = .error "Could not retrieve value") ∧
    (v.GetType ≠ .UByte → v.operator_uchar = .error "Could not retrieve value") ∧
    (v.GetType ≠ .Byte → v.operator_char = .error "Could not retrieve value") ∧
    (v.GetType ≠ .UShort → v.operator_uint16 = .error "Could not retrieve value") ∧
    (v.GetType ≠ .Short → v.operator_int16 = .error "Could not retrieve value") ∧
    (v.GetType ≠ .UInt → v.operator_uint32 = .error "Could not retrieve value") ∧
    (v.GetType ≠ .Int → v.operator_int32 = .error "Could not retrieve value") ∧
    (v.GetType ≠ .ULong → v.operator_uint64 = .error "Could not retrieve value") ∧
    (v.GetType ≠ .Long → v.operator_int64 = .error "Could not retrieve value") ∧
    (v.GetType ≠ .Float → v.operator_float = .error "Could not retrieve value") ∧
    (v.GetType ≠ .Double → v.operator_double = .error "Could not retrieve value") ∧
    (v.GetType ≠ .Binary → v.operator_BinaryData = .error "Could not retrieve value") ∧
    (v.GetType ≠ .String → v.operator_string = .error "Could not retrieve value") ∧
    (v.GetType ≠ .Char → v.GetChar = .error "Could not get character.") ∧
    (v.GetType ≠ .Timestamp → v.GetTimestamp = .error "Could not get timestamp.") ∧
    (v.GetType ≠ .Symbol → v.GetSymbol = .error "Could not get symbol.") ∧
    (v.GetType ≠ .List → v.GetListItemCount = .error "Could not get List item count") ∧
    (v.GetType ≠ .Map → v.GetMapValueCount = .error "Could not get map size.") ∧
    (v.GetType ≠ .Array → v.GetArrayItemCount = .error "Could not get array item count.") ∧
    (v.GetType ≠ .Composite → v.GetCompositeItemCount = .error "Could not set composite item") := by
  obtain ⟨m⟩ := v
  cases m with
  | none =>
    simp [GetType, amqpvalue_get_type, operator_bool, operator_uchar, operator_char,
      operator_uint16, operator_int16, operator_uint32, operator_int32, operator_uint64,
      operator_int64, operator_float, operator_double, operator_BinaryData, operator_string,
      GetChar, GetTimestamp, GetSymbol, GetListItemCount, GetMapValueCount, GetArrayItemCount,
      GetCompositeItemCount, amqpvalue_get_boolean, amqpvalue_get_ubyte, amqpvalue_get_byte,
      amqpvalue_get_ushort, amqpvalue_get_short, amqpvalue_get_uint, amqpvalue_get_int,
      amqpvalue_get_ulong, amqpvalue_get_long, amqpvalue_get_float, amqpvalue_get_double,
      amqpvalue_get_binary, amqpvalue_get_string, amqpvalue_get_char, amqpvalue_get_timestamp,
      amqpvalue_get_symbol, amqpvalue_get_list_item_count, amqpvalue_get_map_pair_count,
      amqpvalue_get_array_item_count, amqpvalue_get_composite_item_count]
  | some d =>
    cases d <;>
    simp [GetType, amqpvalue_get_type, operator_bool, operator_uchar, operator_char,
      operator_uint16, operator_int16, operator_uint32, operator_int32, operator_uint64,
      operator_int64, operator_float, operator_double, operator_BinaryData, operator_string,
      GetChar, GetTimestamp, GetSymbol, GetListItemCount, GetMapValueCount, GetArrayItemCount,
      GetCompositeItemCount, amqpvalue_get_boolean, amqpvalue_get_ubyte, amqpvalue_get_byte,
      amqpvalue_get_ushort, amqpvalue_get_short, amqpvalue_get_uint, amqpvalue_get_int,
      amqpvalue_get_ulong, amqpvalue_get_long, amqpvalue_get_float, amqpvalue_get_double,
      amqpvalue_get_binary, amqpvalue_get_string, amqpvalue_get_char, amqpvalue_get_timestamp,
      amqpvalue_get_symbol, amqpvalue_get_list_item_count, amqpvalue_get_map_pair_count,
      amqpvalue_get_array_item_count, amqpvalue_get_composite_item_count]

/-- Witness of C3 at the Bool value of the unit tests: `GetChar`, `GetTimestamp`,
`GetSymbol` and the four count accessors all throw on `AmqpValue(false)`. -/
theorem accessor_kind_mismatch_fails_witness :
    (from_bool false).GetChar = .error "Could not get character." ∧
    (from_bool false).GetTimestamp = .error "Could not get timestamp." ∧
    (from_bool false).GetSymbol = .error "Could not get symbol." ∧
    (from_bool false).GetListItemCount = .error "Could not get List item count" ∧
    (from_bool false).GetMapValueCount = .error "Could not get map size." ∧
    (from_bool false).GetArrayItemCount = .error "Could not get array item count." ∧
    (from_bool false).GetCompositeItemCount = .error "Could not set composite item" :=
  ⟨(accessor_kind_mismatch_fails (from_bool false)).2.2.2.2.2.2.2.2.2.2.2.2.2.1 (by decide),
   (accessor_kind_mismatch_fails (from_bool false)).2.2.2.2.2.2.2.2.2.2.2.2.2.2.1 (by decide),
   (accessor_kind_mismatch_fails (from_bool false)).2.2.2.2.2.2.2.2.2.2.2.2.2.2.2.1 (by decide),
   (accessor_kind_mismatch_fails (from_bool false)).2.2.2.2.2.2.2.2.2.2.2.2.2.2.2.2.1 (by decide),
   (accessor_kind_mismatch_fails (from_bool false)).2.2.2.2.2.2.2.2.2.2.2.2.2.2.2.2.2.1 (by decide),
   (accessor_kind_mismatch_fails (from_bool false)).2.2.2.2.2.2.2.2.2.2.2.2.2.2.2.2.2.2.1 (by decide),
   (accessor_kind_mismatch_fails (from_bool false)).2.2.2.2.2.2.2.2.2.2.2.2.2.2.2.2.2.2.2 (by decide)⟩

/-! ## C4: element accessors on a value of another kind -/

/-- C4, refuted as stated: `GetListItem(0)` on the Bool value `AmqpValue(false)`, whose kind
is not List, does not fail; it returns a value, and that value has kind Null. -/
theorem element_accessor_on_bool_returns_null :
    (from_bool false).GetType ≠ .List ∧
    (from_bool false).GetListItem 0 = .ok null ∧
    null.GetType = .Null := by
  refine ⟨by decide, rfl, rfl⟩

/-- C4, amended: on every `AmqpValue` `v`, each of `GetListItem`, `GetMapValue`,
`GetArrayItem`, `GetCompositeItem`, `GetDescriptor` and `GetDescribedValue` returns
normally, and when the kind of `v` is not the container kind the accessor is for, the
value it returns is a Null value. -/
theorem element_accessor_kind_mismatch_null (v key : AmqpValue) (index : Nat) :
    (∃ r, v.GetListItem index = .ok r ∧ (v.GetType ≠ .List → r = null)) ∧
    (∃ r, v.GetMapValue key = .ok r ∧ (v.GetType ≠ .Map → r = null)) ∧
    (∃ r, v.GetArrayItem index = .ok r ∧ (v.GetType ≠ .Array → r = null)) ∧
    (∃ r, v.GetCompositeItem index = .ok r ∧ (v.GetType ≠ .Composite → r = null)) ∧
    (∃ r, v.GetDescriptor = .ok r ∧ (v.GetType ≠ .Described → r = null)) ∧
    (∃ r, v.GetDescribedValue = .ok r ∧ (v.GetType ≠ .Described → r = null)) := by
  obtain ⟨m⟩ := v
  obtain ⟨k⟩ := key
  cases m with
  | none =>
    simp [GetType, amqpvalue_get_type, GetListItem, GetMapValue, GetArrayItem,
      GetCompositeItem, GetDescriptor, GetDescribedValue, amqpvalue_get_list_item,
      amqpvalue_get_map_value, amqpvalue_get_array_item, amqpvalue_get_composite_item,
      amqpvalue_get_inplace_descriptor, amqpvalue_get_inplace_described_value, from_handle,
      null]
  | some d =>
    cases d <;>
    simp [GetType, amqpvalue_get_type, GetListItem, GetMapValue, GetArrayItem,
      GetCompositeItem, GetDescriptor, GetDescribedValue, amqpvalue_get_list_item,
      amqpvalue_get_map_value, amqpvalue_get_array_item, amqpvalue_get_composite_item,
      amqpvalue_get_inplace_descriptor, amqpvalue_get_inplace_described_value, from_handle,
      null]

/-- Witness of amended C4 at the Bool value `AmqpValue(false)`: the value `GetMapValue`
returns there is Null. -/
theorem element_accessor_kind_mismatch_null_witness :
    ∃ r, (from_bool false).GetMapValue (from_int32 3) = .ok r ∧ r = null :=
  match (element_accessor_kind_mismatch_null (from_bool false) (from_int32 3) 0).2.1 with
  | ⟨r, hr, hnull⟩ => ⟨r, hr, hnull (by decide)⟩

/-! ## C5: lists -/

/-- C5. A fresh `CreateList()` reports item count 0; for every `N` (a `uint32_t`),
`SetListItemCount(N)` on it succeeds and the list then reports item count `N`; and on every
list with item count `N`, for every `i < N` and every value `x`, `SetListItem(i, x)`
succeeds, after which `GetListItem(i)` returns a value equal to `x`, the item count is
still `N` and `GetListItem(j)` is unchanged for every other index `j`. -/
theorem list_resize_set_get :
    CreateList.GetListItemCount = .ok 0 ∧
    (∀ N : Nat, N < 2 ^ 32 →
      ∃ l, CreateList.SetListItemCount N = .ok l ∧ l.GetListItemCount = .ok N) ∧
    (∀ (l : AmqpValue) (N i : Nat) (x : AMQP_VALUE_DATA),
      l.GetListItemCount = .ok N → i < N →
      ∃ l2, l.SetListItem i (of_data x) = .ok l2 ∧
        l2.GetListItem i = .ok (of_data x) ∧
        l2.GetListItemCount = .ok N ∧
        ∀ j, j ≠ i → l2.GetListItem j = l.GetListItem j) := by
  refine ⟨rfl, ?_, ?_⟩
  · intro N _
    refine ⟨⟨some (.list (List.replicate N .null))⟩, ?_, ?_⟩
    · simp [CreateList, from_handle, amqpvalue_create_list, amqpvalue_clone, SetListItemCount,
        amqpvalue_set_list_item_count]
    · simp [GetListItemCount, amqpvalue_get_list_item_count]
  · intro l N i x hN hi
    obtain ⟨m⟩ := l
    cases m with
    | none => simp [GetListItemCount, amqpvalue_get_list_item_count] at hN
    | some d =>
      cases d <;> simp [GetListItemCount, amqpvalue_get_list_item_count] at hN
      case list items =>
        subst hN
        refine ⟨⟨some (.list (items.set i x))⟩, ?_, ?_, ?_, ?_⟩
        · simp [SetListItem, amqpvalue_set_list_item, amqpvalue_clone, of_data,
            pad_of_lt items i hi]
        · simp [GetListItem, amqpvalue_get_list_item, amqpvalue_clone, of_data, from_handle, hi]
        · simp [GetListItemCount, amqpvalue_get_list_item_count]
        · intro j hj
          have hne : i ≠ j := fun h => hj h.symm
          simp [GetListItem, amqpvalue_get_list_item, amqpvalue_clone,
            List.getElem?_set_ne hne]

/-- Witness of C5 at the list of the unit test: four items, item 0 set to the Int 123. -/
theorem list_resize_set_get_witness :
    (∃ l, CreateList.SetListItemCount 4 = .ok l ∧ l.GetListItemCount = .ok 4) ∧
    (∃ l2, (of_data (.list [.null, .null, .null, .null])).SetListItem 0 (of_data (.int 123))
        = .ok l2 ∧
      l2.GetListItem 0 = .ok (of_data (.int 123)) ∧
      l2.GetListItemCount = .ok 4 ∧
      ∀ j, j ≠ 0 → l2.GetListItem j
        = (of_data (.list [.null, .null, .null, .null])).GetListItem j) :=
  ⟨list_resize_set_get.2.1 4 (by decide),
   list_resize_set_get.2.2 (of_data (.list [.null, .null, .null, .null])) 4 0 (.int 123) rfl
     (by decide)⟩

/-! ## C6: index at or beyond the element count -/

/-- C6, refuted as stated: a fresh list has item count 0, yet `GetListItem(0)` on it does
not fail; it returns a Null value. -/
theorem get_list_item_beyond_count_returns_null :
    CreateList.GetListItemCount = .ok 0 ∧
    CreateList.GetListItem 0 = .ok null ∧
    null.GetType = .Null := by
  refine ⟨rfl, rfl, rfl⟩

/-- C6, amended: for every container value with element count `n` and every index
`i ≥ n`, `GetMapKeyAndValue(i)` throws `std::runtime_error`, while `GetListItem(i)`,
`GetArrayItem(i)` and `GetCompositeItem(i)` return normally with a Null value. -/
theorem index_beyond_count (v : AmqpValue) (n i : Nat) (hi : n ≤ i) :
    (v.GetMapValueCount = .ok n → v.GetMapKeyAndValue i = .error "Could not set map value.") ∧
    (v.GetListItemCount = .ok n → v.GetListItem i = .ok null) ∧
    (v.GetArrayItemCount = .ok n → v.GetArrayItem i = .ok null) ∧
    (v.GetCompositeItemCount = .ok n → v.GetCompositeItem i = .ok null) := by
  obtain ⟨m⟩ := v
  cases m with
  | none =>
    simp [GetMapValueCount, GetListItemCount, GetArrayItemCount, GetCompositeItemCount,
      amqpvalue_get_map_pair_count, amqpvalue_get_list_item_count,
      amqpvalue_get_array_item_count, amqpvalue_get_composite_item_count]
  | some d =>
    cases d <;>
      simp [GetMapValueCount, GetListItemCount, GetArrayItemCount, GetCompositeItemCount,
        amqpvalue_get_map_pair_count, amqpvalue_get_list_item_count,
        amqpvalue_get_array_item_count, amqpvalue_get_composite_item_count]
    case list items =>
      intro h
      subst h
      simp [GetListItem, amqpvalue_get_list_item, amqpvalue_clone, from_handle, null,
        amqpvalue_create_null, List.getElem?_eq_none hi]
    case map pairs =>
      intro h
      subst h
      simp [GetMapKeyAndValue, amqpvalue_get_map_key_value_pair, List.getElem?_eq_none hi]
    case array items =>
      intro h
      subst h
      simp [GetArrayItem, amqpvalue_get_array_item, amqpvalue_clone, from_handle, null,
        amqpvalue_create_null, List.getElem?_eq_none hi]
    case composite d fields =>
      intro h
      subst h
      simp [GetCompositeItem, amqpvalue_get_composite_item, amqpvalue_clone, from_handle, null,
        amqpvalue_create_null, List.getElem?_eq_none hi]

/-- Witness of amended C6: index 2 on a map of two pairs and on a list of two items. -/
theorem index_beyond_count_witness :
    (of_data (.map [(.string "ABC", .int 5), (.int 3, .string "ABC")])).GetMapKeyAndValue 2
      = .error "Could not set map value." ∧
    (of_data (.list [.int 123, .null])).GetListItem 2 = .ok null :=
  ⟨(index_beyond_count (of_data (.map [(.string "ABC", .int 5), (.int 3, .string "ABC")])) 2 2
      (by decide)).1 rfl,
   (index_beyond_count (of_data (.list [.int 123, .null])) 2 2 (by decide)).2.1 rfl⟩

/-! ## C7: maps -/

theorem SetMapValues_append (kvs : List (AMQP_VALUE_DATA × AMQP_VALUE_DATA)) :
    ∀ pairs : List (AMQP_VALUE_DATA × AMQP_VALUE_DATA),
      (of_data (.map pairs)).SetMapValues (kvs.map fun kv => (of_data kv.1, of_data kv.2))
        = .ok (of_data (.map (pairs ++ kvs))) := by
  induction kvs with
  | nil => intro pairs; simp [SetMapValues]
  | cons kv rest ih =>
    intro pairs
    have hstep : (of_data (.map pairs)).SetMapValue (of_data kv.1) (of_data kv.2)
        = .ok (of_data (.map (pairs ++ [kv]))) := rfl
    simp only [List.map_cons, SetMapValues, hstep]
    simpa using ih (pairs ++ [kv])

/-- C7. A fresh `CreateMap()` reports pair count 0.  For every sequence of pairs
`(k1,v1), ..., (kn,vn)` with pairwise distinct keys, the calls `SetMapValue(k1,v1)`, ...,
`SetMapValue(kn,vn)` on a fresh map all succeed, after which `GetMapValueCount()` is `n`,
`GetMapValue(ki)` returns a value equal to `vi`, and `GetMapKeyAndValue(i)` returns the pair
inserted at (zero-based) position `i`: enumeration is in insertion order. -/
theorem map_insert_lookup (kvs : List (AMQP_VALUE_DATA × AMQP_VALUE_DATA))
    (_hcount : kvs.length < 2 ^ 32) (hdistinct : (kvs.map Prod.fst).Nodup) :
    CreateMap.GetMapValueCount = .ok 0 ∧
    ∃ m, CreateMap.SetMapValues (kvs.map fun kv => (of_data kv.1, of_data kv.2)) = .ok m ∧
      m.GetMapValueCount = .ok kvs.length ∧
      ∀ (i : Nat) (k v : AMQP_VALUE_DATA), kvs[i]? = some (k, v) →
        m.GetMapValue (of_data k) = .ok (of_data v) ∧
        m.GetMapKeyAndValue i = .ok (of_data k, of_data v) := by
  refine ⟨rfl, of_data (.map kvs), ?_, ?_, ?_⟩
  · have h := SetMapValues_append kvs []
    simpa [CreateMap, from_handle, amqpvalue_create_map, amqpvalue_clone, of_data] using h
  · simp [GetMapValueCount, amqpvalue_get_map_pair_count, of_data]
  · intro i k v h
    constructor
    · simp [GetMapValue, amqpvalue_get_map_value, amqpvalue_clone, of_data,
        find_map_value_of_nodup kvs hdistinct i k v h, from_handle]
    · simp [GetMapKeyAndValue, amqpvalue_get_map_key_value_pair, amqpvalue_clone, of_data, h,
        from_handle]

/-- Witness of C7 at the map of the unit test: `"ABC"` to the Int 5, then the Int 3 to
`"ABC"`. -/
theorem map_insert_lookup_witness :
    ∃ m, CreateMap.SetMapValues
        ([(AMQP_VALUE_DATA.string "ABC", AMQP_VALUE_DATA.int 5),
          (AMQP_VALUE_DATA.int 3, AMQP_VALUE_DATA.string "ABC")].map
            fun kv => (of_data kv.1, of_data kv.2)) = .ok m ∧
      m.GetMapValueCount = .ok 2 ∧
      ∀ (i : Nat) (k v : AMQP_VALUE_DATA),
        [(AMQP_VALUE_DATA.string "ABC", AMQP_VALUE_DATA.int 5),
          (AMQP_VALUE_DATA.int 3, AMQP_VALUE_DATA.string "ABC")][i]? = some (k, v) →
        m.GetMapValue (of_data k) = .ok (of_data v) ∧
        m.GetMapKeyAndValue i = .ok (of_data k, of_data v) :=
  (map_insert_lookup [(.string "ABC", .int 5), (.int 3, .string "ABC")] (by decide)
    (by simp)).2

/-! ## C8: arrays -/

theorem AddArrayItems_append (xs : List AMQP_VALUE_DATA) :
    ∀ items : List AMQP_VALUE_DATA,
      (of_data (.array items)).AddArrayItems (xs.map of_data)
        = .ok (of_data (.array (items ++ xs))) := by
  induction xs with
  | nil => intro items; simp [AddArrayItems]
  | cons x rest ih =>
    intro items
    have hstep : (of_data (.array items)).AddArrayItem (of_data x)
        = .ok (of_data (.array (items ++ [x]))) := rfl
    simp only [List.map_cons, AddArrayItems, hstep]
    simpa using ih (items ++ [x])

/-- C8. A fresh `CreateArray()` reports item count 0.  For every sequence `x1, ..., xn` of
values that all have one AMQP type, the calls `AddArrayItem(x1)`, ..., `AddArrayItem(xn)` on
a fresh array all succeed, after which `GetArrayItemCount()` is `n` and `GetArrayItem(i)`
returns a value equal to the item added at (zero-based) position `i`: `AddArrayItem`
appends in order. -/
theorem array_add_get (xs : List AMQP_VALUE_DATA) (_hcount : xs.length < 2 ^ 32)
    (_hsame : ∀ x ∈ xs, ∀ y ∈ xs, (of_data x).GetType = (of_data y).GetType) :
    CreateArray.GetArrayItemCount = .ok 0 ∧
    ∃ a, CreateArray.AddArrayItems (xs.map of_data) = .ok a ∧
      a.GetArrayItemCount = .ok xs.length ∧
      ∀ (i : Nat) (x : AMQP_VALUE_DATA), xs[i]? = some x →
        a.GetArrayItem i = .ok (of_data x) := by
  refine ⟨rfl, of_data (.array xs), ?_, ?_, ?_⟩
  · have h := AddArrayItems_append xs []
    simpa [CreateArray, from_handle, amqpvalue_create_array, amqpvalue_clone, of_data] using h
  · simp [GetArrayItemCount, amqpvalue_get_array_item_count, of_data]
  · intro i x h
    simp [GetArrayItem, amqpvalue_get_array_item, amqpvalue_clone, of_data, h, from_handle]

/-- Witness of C8 at the array of the unit test: the strings `"3"`, `"Foo"`, `"George"`. -/
theorem array_add_get_witness :
    ∃ a, CreateArray.AddArrayItems
        ([AMQP_VALUE_DATA.string "3", AMQP_VALUE_DATA.string "Foo",
          AMQP_VALUE_DATA.string "George"].map of_data) = .ok a ∧
      a.GetArrayItemCount = .ok 3 ∧
      ∀ (i : Nat) (x : AMQP_VALUE_DATA),
        [AMQP_VALUE_DATA.string "3", AMQP_VALUE_DATA.string "Foo",
          AMQP_VALUE_DATA.string "George"][i]? = some x →
        a.GetArrayItem i = .ok (of_data x) :=
  (array_add_get [.string "3", .string "Foo", .string "George"] (by decide)
    (by
      intro x hx y hy
      simp at hx hy
      rcases hx with rfl | rfl | rfl <;> rcases hy with rfl | rfl | rfl <;> rfl)).2

/-! ## C9: composites -/

theorem SetCompositeItems_frame (d : AMQP_VALUE_DATA) (sets : List (Nat × AMQP_VALUE_DATA)) :
    ∀ fields : List AMQP_VALUE_DATA, (∀ p ∈ sets, p.1 < fields.length) →
      ∃ fields2 : List AMQP_VALUE_DATA,
        (of_data (.composite d fields)).SetCompositeItems (sets.map fun p => (p.1, of_data p.2))
          = .ok (of_data (.composite d fields2)) ∧
        fields2.length = fields.length ∧
        ∀ i, (∀ p ∈ sets, p.1 ≠ i) → fields2[i]? = fields[i]? := by
  induction sets with
  | nil => intro fields _; exact ⟨fields, by simp [SetCompositeItems], rfl, fun _ _ => rfl⟩
  | cons p rest ih =>
    intro fields hlt
    have hp : p.1 < fields.length := hlt p (List.mem_cons_self _ _)
    have hstep : (of_data (.composite d fields)).SetCompositeItem p.1 (of_data p.2)
        = .ok (of_data (.composite d (fields.set p.1 p.2))) := by
      simp [SetCompositeItem, amqpvalue_set_composite_item, amqpvalue_clone, of_data,
        pad_of_lt fields p.1 hp]
    obtain ⟨fields2, hrun, hlen, hframe⟩ := ih (fields.set p.1 p.2) (by
      intro q hq
      simpa using hlt q (List.mem_cons_of_mem _ hq))
    refine ⟨fields2, ?_, by simpa using hlen, ?_⟩
    · simp only [List.map_cons, SetCompositeItems, hstep]
      exact hrun
    · intro i hi
      have hne : p.1 ≠ i := hi p (List.mem_cons_self _ _)
      rw [hframe i (fun q hq => hi q (List.mem_cons_of_mem _ hq)), List.getElem?_set_ne hne]

/-- C9. For every descriptor `d` and field count `n` (a `uint32_t`):
`CreateComposite(d, n)` reports `GetCompositeItemCount() == n`; after any sequence of
`SetCompositeItem` calls on fields below `n`, the count is still `n` and `GetCompositeItem(i)`
on every field `i < n` that was never set returns normally with a Null value; and on every
composite with `n` fields, for every `i < n` and every value `x`, `SetCompositeItem(i, x)`
succeeds and `GetCompositeItem(i)` then returns a value equal to `x`. -/
theorem composite_create_set_get (d : AMQP_VALUE_DATA) (n : Nat) (_hn : n < 2 ^ 32) :
    (CreateComposite (of_data d) n).GetCompositeItemCount = .ok n ∧
    (∀ sets : List (Nat × AMQP_VALUE_DATA), (∀ p ∈ sets, p.1 < n) →
      ∃ c, (CreateComposite (of_data d) n).SetCompositeItems
          (sets.map fun p => (p.1, of_data p.2)) = .ok c ∧
        c.GetCompositeItemCount = .ok n ∧
        ∀ i, i < n → (∀ p ∈ sets, p.1 ≠ i) → c.GetCompositeItem i = .ok null) ∧
    (∀ (c : AmqpValue) (i : Nat) (x : AMQP_VALUE_DATA),
      c.GetCompositeItemCount = .ok n → i < n →
      ∃ c2, c.SetCompositeItem i (of_data x) = .ok c2 ∧
        c2.GetCompositeItem i = .ok (of_data x)) := by
  have hcreate : CreateComposite (of_data d) n
      = of_data (.composite d (List.replicate n .null)) := by
    simp [CreateComposite, amqpvalue_create_composite, amqpvalue_clone, of_data, from_handle]
  refine ⟨?_, ?_, ?_⟩
  · rw [hcreate]
    simp [GetCompositeItemCount, amqpvalue_get_composite_item_count, of_data]
  · intro sets hlt
    obtain ⟨fields2, hrun, hlen, hframe⟩ :=
      SetCompositeItems_frame d sets (List.replicate n .null) (by simpa using hlt)
    refine ⟨of_data (.composite d fields2), by rw [hcreate]; exact hrun, ?_, ?_⟩
    · simpa [GetCompositeItemCount, amqpvalue_get_composite_item_count, of_data] using hlen
    · intro i hi hnot
      have hnull : fields2[i]? = some AMQP_VALUE_DATA.null := by
        rw [hframe i hnot]
        simp [hi]
      simp [GetCompositeItem, amqpvalue_get_composite_item, amqpvalue_clone, of_data, hnull,
        from_handle, null, amqpvalue_create_null]
  · intro c i x hc hi
    obtain ⟨m⟩ := c
    cases m with
    | none => simp [GetCompositeItemCount, amqpvalue_get_composite_item_count] at hc
    | some v =>
      cases v <;> simp [GetCompositeItemCount, amqpvalue_get_composite_item_count] at hc
      case composite d2 fields =>
        subst hc
        refine ⟨of_data (.composite d2 (fields.set i x)), ?_, ?_⟩
        · simp [SetCompositeItem, amqpvalue_set_composite_item, amqpvalue_clone, of_data,
            pad_of_lt fields i hi]
        · simp [GetCompositeItem, amqpvalue_get_composite_item, amqpvalue_clone, of_data,
            from_handle, hi]

/-- Witness of C9 at the composites of the unit test: five fields under the descriptor
`"My Composite Type"`, and field 0 of a two-field composite set to the Int 25. -/
theorem composite_create_set_get_witness :
    (CreateComposite (of_data (.string "My Composite Type")) 5).GetCompositeItemCount
      = .ok 5 ∧
    (∃ c2, (CreateComposite (of_data (.string "CompType")) 2).SetCompositeItem 0
        (of_data (.int 25)) = .ok c2 ∧
      c2.GetCompositeItem 0 = .ok (of_data (.int 25))) :=
  ⟨(composite_create_set_get (.string "My Composite Type") 5 (by decide)).1,
   (composite_create_set_get (.string "CompType") 2 (by decide)).2.2
     (CreateComposite (of_data (.string "CompType")) 2) 0 (.int 25) rfl (by decide)⟩

/-! ## C10: header round trip -/

/-- C10. For every header `h`, whichever of its optional fields (durable, priority, ttl,
first-acquirer, delivery-count) are set, the value made by `CreateHeader(h)` carries the
header descriptor, and `GetHeaderFromValue()` on it succeeds and returns a header equal to
`h`: set fields keep their values and unset fields stay unset. -/
theorem header_roundtrip (h : Header) :
    (CreateHeader h).IsHeaderTypeByDescriptor = true ∧
    (CreateHeader h).GetHeaderFromValue = .ok h := by
  obtain ⟨durable, priority, ttl, first_acquirer, delivery_count⟩ := h
  cases durable <;> cases priority <;> cases ttl <;> cases first_acquirer <;>
    cases delivery_count <;> exact ⟨rfl, rfl⟩

/-! ## C11: header and properties conversion on a value with another descriptor -/

/-- C11. For every `AmqpValue` `v`: when `IsHeaderTypeByDescriptor()` is false,
`GetHeaderFromValue()` throws `std::runtime_error` and returns no header; when
`IsPropertiesTypeByDescriptor()` is false, `GetPropertiesFromValue()` throws
`std::runtime_error` and returns no properties; and both predicates are false on every
value that is neither Described nor Composite. -/
theorem header_properties_descriptor_mismatch (v : AmqpValue) :
    (v.IsHeaderTypeByDescriptor = false →
      v.GetHeaderFromValue = .error "Could not get header from value") ∧
    (v.IsPropertiesTypeByDescriptor = false →
      v.GetPropertiesFromValue = .error "Could not get properties from value") ∧
    (v.GetType ≠ .Described → v.GetType ≠ .Composite →
      v.IsHeaderTypeByDescriptor = false ∧ v.IsPropertiesTypeByDescriptor = false) := by
  refine ⟨?_, ?_, ?_⟩
  · intro h
    simp only [IsHeaderTypeByDescriptor] at h
    simp [GetHeaderFromValue, amqpvalue_get_header, h]
  · intro h
    simp only [IsPropertiesTypeByDescriptor] at h
    simp [GetPropertiesFromValue, amqpvalue_get_properties, h]
  · obtain ⟨m⟩ := v
    cases m with
    | none =>
      simp [IsHeaderTypeByDescriptor, IsPropertiesTypeByDescriptor,
        is_header_type_by_descriptor, is_properties_type_by_descriptor]
    | some d =>
      cases d <;>
        simp [GetType, amqpvalue_get_type, IsHeaderTypeByDescriptor,
          IsPropertiesTypeByDescriptor, is_header_type_by_descriptor,
          is_properties_type_by_descriptor]

/-- Witness of C11 at a value that is not described (the Bool value `AmqpValue(false)`) and
at a composite under another descriptor (a string). -/
theorem header_properties_descriptor_mismatch_witness :
    (from_bool false).GetHeaderFromValue = .error "Could not get header from value" ∧
    (CreateComposite (of_data (.string "CompType")) 2).GetPropertiesFromValue
      = .error "Could not get properties from value" :=
  ⟨(header_properties_descriptor_mismatch (from_bool false)).1 rfl,
   (header_properties_descriptor_mismatch
      (CreateComposite (of_data (.string "CompType")) 2)).2.1 rfl⟩

/-! ## C13: structural equality -/

/-- C13. `AmqpValue::operator==` is structural: for all values `a` and `b` it returns true
exactly when `a` and `b` hold the same value tree (same AMQP type and same AMQP value).
Hence equal values have the same type, the operator is reflexive and symmetric, a copy
equals its original, values of different kinds are unequal, and two values built
independently from the same primitive are equal. -/
theorem operator_eq_structural (a b : AmqpValue) :
    (a.operator_eq b = true ↔ a = b) ∧
    (a.operator_eq b = true → a.GetType = b.GetType) ∧
    a.operator_eq a = true ∧
    a.operator_eq b = b.operator_eq a ∧
    a.copy.operator_eq a = true ∧
    (a.GetType ≠ b.GetType → a.operator_eq b = false) ∧
    (∀ n : Int, (from_int32 n).operator_eq (from_int32 n) = true) ∧
    (∀ text : String, (from_string text).operator_eq (from_string text) = true) := by
  have hiff : ∀ x y : AmqpValue, x.operator_eq y = true ↔ x = y := by
    intro x y
    obtain ⟨x⟩ := x
    obtain ⟨y⟩ := y
    cases x <;> cases y <;>
      simp [operator_eq, amqpvalue_are_equal, AMQP_VALUE_DATA.are_equal_iff]
  have hrefl : ∀ x : AmqpValue, x.operator_eq x = true := fun x => (hiff x x).mpr rfl
  refine ⟨hiff a b, ?_, hrefl a, ?_, ?_, ?_, fun n => hrefl _, fun text => hrefl _⟩
  · intro h
    rw [(hiff a b).mp h]
  · cases hab : a.operator_eq b with
    | true =>
      have h := (hiff a b).mp hab
      subst h
      exact hab.symm
    | false =>
      cases hba : b.operator_eq a with
      | false => rfl
      | true =>
        have h := (hiff b a).mp hba
        subst h
        rw [hba] at hab
        exact absurd hab (by decide)
  · exact (hiff a.copy a).mpr rfl
  · intro hne
    cases hab : a.operator_eq b with
    | false => rfl
    | true => exact absurd (congrArg GetType ((hiff a b).mp hab)) hne

/-- Witness of C13: the Int 3 and the UInt 3 are unequal, and equal values have one type. -/
theorem operator_eq_structural_witness :
    (from_int32 3).operator_eq (from_uint32 3) = false ∧
    (from_int32 3).GetType = (from_int32 3).GetType :=
  ⟨(operator_eq_structural (from_int32 3) (from_uint32 3)).2.2.2.2.2.1 (by decide),
   (operator_eq_structural (from_int32 3) (from_int32 3)).2.1 rfl⟩

end AmqpValue

/-! ## C12: copies are deep -/

theorem Mutation.run_ok_some (m : Mutation) (self next : AmqpValue)
    (h : m.run self = .ok next) : ∃ tree, next = ⟨some tree⟩ := by
  cases m <;>
    simp only [Mutation.run, AmqpValue.SetListItemCount, AmqpValue.SetListItem,
      AmqpValue.SetMapValue, AmqpValue.AddArrayItem, AmqpValue.SetCompositeItem] at h <;>
    split at h <;> simp at h <;> exact ⟨_, h.symm⟩

theorem Mutation.run_null (m : Mutation) (next : AmqpValue) : m.run ⟨none⟩ ≠ .ok next := by
  cases m <;>
    simp [Mutation.run, AmqpValue.SetListItemCount, AmqpValue.SetListItem,
      AmqpValue.SetMapValue, AmqpValue.AddArrayItem, AmqpValue.SetCompositeItem,
      amqpvalue_set_list_item_count, amqpvalue_set_list_item, amqpvalue_set_map_value,
      amqpvalue_add_array_item, amqpvalue_set_composite_item]

namespace StoredAmqpValue

theorem mutate_frame (storage s2 : Storage) (self other : StoredAmqpValue) (m : Mutation)
    (hne : self.m_value ≠ other.m_value) (h : self.mutate storage m = .ok s2) :
    other.value s2 = other.value storage ∧ m.run (self.value storage) = .ok (self.value s2) := by
  unfold mutate at h
  cases hrun : m.run (self.value storage) with
  | error e => simp [hrun] at h
  | ok next =>
    obtain ⟨tree, rfl⟩ := Mutation.run_ok_some m _ _ hrun
    obtain ⟨a⟩ := self
    obtain ⟨b⟩ := other
    cases a with
    | none => exact absurd hrun (Mutation.run_null m _)
    | some address =>
      have hlt : address < storage.length := by
        by_contra hge
        have hnone : storage[address]? = none := List.getElem?_eq_none (Nat.le_of_not_lt hge)
        have : value storage ⟨some address⟩ = ⟨none⟩ := by
          simp [value, Storage.value_at, hnone]
        rw [this] at hrun
        exact Mutation.run_null m _ hrun
      simp [hrun] at h
      subst h
      constructor
      · cases b with
        | none => simp [value, Storage.value_at]
        | some address2 =>
          have hne2 : address ≠ address2 := fun heq => hne (by simp [heq])
          simp [value, Storage.value_at, List.getElem?_set_ne hne2]
      · simp [value, Storage.value_at, hlt]

theorem clone_cases (storage : Storage) (handle : Handle) :
    (storage.value_at handle = none ∧ storage.clone handle = (storage, none)) ∨
    (∃ address tree, handle = some address ∧ address < storage.length ∧
      storage[address]? = some tree ∧
      storage.clone handle = (storage ++ [tree], some storage.length)) := by
  cases hv : storage.value_at handle with
  | none => exact Or.inl ⟨rfl, by simp [Storage.clone, hv]⟩
  | some tree =>
    cases handle with
    | none => simp [Storage.value_at] at hv
    | some address =>
      have hget : storage[address]? = some tree := by simpa [Storage.value_at] using hv
      have hlt : address < storage.length := by
        by_contra hge
        rw [List.getElem?_eq_none (Nat.le_of_not_lt hge)] at hget
        exact absurd hget (by simp)
      exact Or.inr ⟨address, tree, rfl, hlt, hget, by simp [Storage.clone, hv]⟩

/-- C12. For every object `v` in the storage, the copy `c` made by copy construction or by
copy assignment (onto any object `w`) is structurally equal to `v` and leaves `v` as it
was; every later mutation of `c` that succeeds (`SetListItemCount`, `SetListItem`,
`SetMapValue`, `AddArrayItem`, `SetCompositeItem`) changes the value of `c` as the member
function says and leaves the value of `v` unchanged, and every later mutation of `v`
likewise leaves the value of `c` unchanged. -/
theorem copy_is_independent (storage : Storage) (v w : StoredAmqpValue) (m : Mutation)
    (s1 : Storage) (c : StoredAmqpValue)
    (hcopy : copy_construct storage v = (s1, c) ∨ copy_assign storage w v = (s1, c)) :
    c.operator_eq s1 v = true ∧
    c.value s1 = v.value storage ∧
    v.value s1 = v.value storage ∧
    (∀ s2, c.mutate s1 m = .ok s2 →
      v.value s2 = v.value s1 ∧ m.run (c.value s1) = .ok (c.value s2)) ∧
    (∀ s2, v.mutate s1 m = .ok s2 →
      c.value s2 = c.value s1 ∧ m.run (v.value s1) = .ok (v.value s2)) := by
  have hc : (storage.clone v.m_value).1 = s1 ∧ (⟨(storage.clone v.m_value).2⟩ : StoredAmqpValue) = c := by
    rcases hcopy with h | h
    · simp only [copy_construct, Prod.mk.injEq] at h
      exact h
    · simp only [copy_assign, Prod.mk.injEq] at h
      exact h
  obtain ⟨hs1, hcv⟩ := hc
  obtain ⟨vh⟩ := v
  rcases clone_cases storage vh with ⟨hnone, hclone⟩ | ⟨address, tree, hvh, hlt, hget, hclone⟩
  · rw [hclone] at hs1 hcv
    simp only at hs1 hcv
    subst hs1
    subst hcv
    have hval : value storage ⟨vh⟩ = ⟨none⟩ := by simp [value, hnone]
    refine ⟨?_, ?_, rfl, ?_, ?_⟩
    · show amqpvalue_are_equal (storage.value_at none) (storage.value_at vh) = true
      rw [hnone]
      rfl
    · show (⟨storage.value_at none⟩ : AmqpValue) = ⟨storage.value_at vh⟩
      rw [hnone]
      rfl
    · intro s2 h
      unfold mutate at h
      cases hrun : m.run (value storage ⟨none⟩) with
      | error e => simp [hrun] at h
      | ok next => exact absurd hrun (by simpa [value, Storage.value_at] using Mutation.run_null m next)
    · intro s2 h
      unfold mutate at h
      cases hrun : m.run (value storage ⟨vh⟩) with
      | error e => simp [hrun] at h
      | ok next =>
        rw [hval] at hrun
        exact absurd hrun (Mutation.run_null m next)
  · rw [hclone] at hs1 hcv
    simp only at hs1 hcv
    subst hs1
    subst hcv
    subst hvh
    have hnew : (storage ++ [tree])[storage.length]? = some tree := by simp
    have hold : (storage ++ [tree])[address]? = some tree := by
      rw [List.getElem?_append_left hlt]
      exact hget
    have hne : (some storage.length : Handle) ≠ some address := by
      intro h
      have : storage.length = address := Option.some.inj h
      omega
    refine ⟨?_, ?_, ?_, ?_, ?_⟩
    · simp [operator_eq, Storage.value_at, hnew, hold, amqpvalue_are_equal,
        (AMQP_VALUE_DATA.are_equal_iff tree tree).mpr rfl]
    · simp [value, Storage.value_at, hget]
    · simp [value, Storage.value_at, hold, hget]
    · intro s2 h
      exact mutate_frame (storage ++ [tree]) s2 ⟨some storage.length⟩ ⟨some address⟩ m hne h
    · intro s2 h
      exact mutate_frame (storage ++ [tree]) s2 ⟨some address⟩ ⟨some storage.length⟩ m
        (fun heq => hne heq.symm) h

/-- Witness of C12: a list of two items is copied, and `SetListItem(0, 123)` on the copy
leaves the original as it was. -/
theorem copy_is_independent_witness :
    value [.list [.null, .null], .list [.int 123, .null]] ⟨some 0⟩
      = value [.list [.null, .null], .list [.null, .null]] ⟨some 0⟩ ∧
    Mutation.run (.SetListItem 0 (AmqpValue.from_int32 123))
        (value [.list [.null, .null], .list [.null, .null]] ⟨some 1⟩)
      = .ok (value [.list [.null, .null], .list [.int 123, .null]] ⟨some 1⟩) :=
  (copy_is_independent [.list [.null, .null]] ⟨some 0⟩ ⟨none⟩
    (.SetListItem 0 (AmqpValue.from_int32 123)) [.list [.null, .null], .list [.null, .null]]
    ⟨some 1⟩ (Or.inl rfl)).2.2.2.1 [.list [.null, .null], .list [.int 123, .null]] rfl

end StoredAmqpValue

/-! ## C14: message body type -/

namespace Message

/-- C14. For every message `m` on which no body has been set, `GetBodyType()` is `None`;
after `AddBodyAmqpData(d)` the body type is `Data`, `GetBodyAmqpDataCount()` is 1 and
`GetBodyAmqpData(0)` returns `d`; after a subsequent `SetBodyAmqpValue(x)`, which succeeds,
the body type is `Value` and `GetBodyAmqpDataCount()` is 0. -/
theorem body_type_follows_last_call (m : Message) (d : List Nat) (x : AMQP_VALUE_DATA)
    (hbody : m.body = MessageBody.none) :
    m.GetBodyType = .None ∧
    (m.AddBodyAmqpData d).GetBodyType = .Data ∧
    (m.AddBodyAmqpData d).GetBodyAmqpDataCount = 1 ∧
    (m.AddBodyAmqpData d).GetBodyAmqpData 0 = .ok d ∧
    ∃ m2, (m.AddBodyAmqpData d).SetBodyAmqpValue (AmqpValue.of_data x) = .ok m2 ∧
      m2.GetBodyType = .Value ∧ m2.GetBodyAmqpDataCount = 0 := by
  obtain ⟨h1, h2, h3, h4, h5, h6, h7, body⟩ := m
  simp only at hbody
  subst hbody
  refine ⟨rfl, rfl, rfl, rfl, ?_⟩
  exact ⟨_, rfl, rfl, rfl⟩

/-- Witness of C14 at a freshly constructed message, the bytes 1, 2, 3 and the Int 5. -/
theorem body_type_follows_last_call_witness :
    create.GetBodyType = .None ∧
    (create.AddBodyAmqpData [1, 2, 3]).GetBodyType = .Data ∧
    (create.AddBodyAmqpData [1, 2, 3]).GetBodyAmqpDataCount = 1 ∧
    (create.AddBodyAmqpData [1, 2, 3]).GetBodyAmqpData 0 = .ok [1, 2, 3] ∧
    ∃ m2, (create.AddBodyAmqpData [1, 2, 3]).SetBodyAmqpValue
        (AmqpValue.of_data (.int 5)) = .ok m2 ∧
      m2.GetBodyType = .Value ∧ m2.GetBodyAmqpDataCount = 0 :=
  body_type_follows_last_call create [1, 2, 3] (.int 5) rfl

end Message

/-! ## C22: one row of the hex dump -/

section HexDump

open StringStream

theorem foldl_hex_bytes (pb : List Nat) :
    ∀ (indices : List Nat) (ss : StringStream), ss.width = 0 → ss.fill = '0' → ss.hex = true →
      indices.foldl
        (fun ss i => ((((ss.set_hex).setw 2).setfill '0').put_int (pb.getD i 0)).put_string " ")
        ss
      = ⟨ss.str ++ indices.flatMap (fun i => hex_zero_padded 2 (pb.getD i 0) ++ [' ']),
          0, '0', true⟩ := by
  intro indices
  induction indices with
  | nil =>
    intro ss hw hf hh
    obtain ⟨str, width, fill, hex⟩ := ss
    simp at hw hf hh
    simp [hw, hf, hh]
  | cons i rest ih =>
    intro ss hw hf hh
    rw [List.foldl_cons, ih _ rfl rfl rfl]
    simp [set_hex, setw, setfill, put_int, put_string, put_field, hex_zero_padded]

theorem foldl_put_string (text : String) :
    ∀ (indices : List Nat) (ss : StringStream), ss.width = 0 →
      indices.foldl (fun ss _ => ss.put_string text) ss
      = ⟨ss.str ++ indices.flatMap (fun _ => text.data), 0, ss.fill, ss.hex⟩ := by
  intro indices
  induction indices with
  | nil =>
    intro ss hw
    obtain ⟨str, width, fill, hex⟩ := ss
    simp at hw
    simp [hw]
  | cons i rest ih =>
    intro ss hw
    rw [List.foldl_cons, ih _ rfl]
    simp [put_string, put_field, hw]

theorem printable_or_dot_eq (b : Nat) :
    printable_or_dot b = if isprint b = true then Char.ofNat b else '.' := by
  simp [printable_or_dot, isprint]

theorem foldl_text_column (pb : List Nat) :
    ∀ (indices : List Nat) (ss : StringStream), ss.width = 0 →
      indices.foldl
        (fun ss i =>
          if isprint (pb.getD i 0) then ss.put_char (Char.ofNat (pb.getD i 0))
          else ss.put_string ".") ss
      = ⟨ss.str ++ indices.map (fun i => printable_or_dot (pb.getD i 0)), 0, ss.fill, ss.hex⟩ := by
  intro indices
  induction indices with
  | nil =>
    intro ss hw
    obtain ⟨str, width, fill, hex⟩ := ss
    simp at hw
    simp [hw]
  | cons i rest ih =>
    intro ss hw
    rw [List.foldl_cons, List.map_cons, printable_or_dot_eq]
    generalize pb.getD i 0 = b
    by_cases hp : isprint b = true
    · rw [if_pos hp, if_pos hp, ih _ rfl]
      simp [put_char, put_field, hw]
    · rw [if_neg hp, if_neg hp, ih _ rfl]
      simp [put_string, put_field, hw]

theorem range_map_getD (pb : List Nat) (k : Nat) (hk : k ≤ pb.length) :
    (List.range k).map (fun i => pb.getD i 0) = pb.take k := by
  apply List.ext_getElem
  · simp [hk]
  · intro i h1 h2
    simp at h1 h2
    simp [List.getD, List.getElem?_eq_getElem (Nat.lt_of_lt_of_le h1 hk)]

theorem flatMap_const (c : Char) (times : Nat) :
    ∀ indices : List Nat,
      indices.flatMap (fun _ => List.replicate times c)
        = List.replicate (times * indices.length) c := by
  intro indices
  induction indices with
  | nil => simp
  | cons i rest ih =>
    rw [List.flatMap_cons, ih, List.length_cons, Nat.mul_succ, Nat.add_comm,
      List.replicate_add]

theorem put_string_mk (str : List Char) (fill : Char) (hex : Bool) (text : String) :
    StringStream.put_string ⟨str, 0, fill, hex⟩ text = ⟨str ++ text.data, 0, fill, hex⟩ := by
  simp [StringStream.put_string, StringStream.put_field]

theorem offset_field (startOffset : Nat) :
    ((((StringStream.empty.set_hex).setw 8).setfill '0').put_int startOffset).put_string ": "
      = ⟨hex_zero_padded 8 startOffset ++ [':', ' '], 0, '0', true⟩ := by
  simp [StringStream.empty, StringStream.set_hex, StringStream.setw, StringStream.setfill,
    StringStream.put_int, StringStream.put_string, StringStream.put_field, hex_zero_padded]

theorem LogRawData_row (os : List Char) (startOffset : Nat) (pb : List Nat) (cb : Nat)
    (hcb : cb ≤ pb.length) :
    LogRawData os startOffset pb cb
      = (os ++ raw_data_row startOffset (pb.take (min cb 16)), min cb 16) := by
  have hk : (if cb < 0x10 then cb else 0x10) = min cb 16 := by
    split <;> omega
  have hkl : min cb 16 ≤ pb.length := by omega
  have hlen : (pb.take (min cb 16)).length = min cb 16 := by
    rw [List.length_take]
    omega
  have hbytes : (List.range (min cb 16)).flatMap
        (fun i => hex_zero_padded 2 (pb.getD i 0) ++ [' '])
      = (pb.take (min cb 16)).flatMap (fun byte => hex_zero_padded 2 byte ++ [' ']) := by
    rw [← range_map_getD pb (min cb 16) hkl, List.flatMap_map]
  have htext : (List.range (min cb 16)).map (fun i => printable_or_dot (pb.getD i 0))
      = (pb.take (min cb 16)).map printable_or_dot := by
    rw [← range_map_getD pb (min cb 16) hkl, List.map_map]
    rfl
  have h3 : (List.range' (min cb 16) (0x10 - min cb 16)).flatMap (fun _ => "   ".data)
      = List.replicate (3 * (16 - min cb 16)) ' ' := by
    have := flatMap_const ' ' 3 (List.range' (min cb 16) (0x10 - min cb 16))
    simpa using this
  have h1 : (List.range' (min cb 16) (0x10 - min cb 16)).flatMap (fun _ => " ".data)
      = List.replicate (16 - min cb 16) ' ' := by
    have := flatMap_const ' ' 1 (List.range' (min cb 16) (0x10 - min cb 16))
    simpa using this
  simp only [LogRawData, hk]
  rw [offset_field, foldl_hex_bytes pb _ _ rfl rfl rfl, foldl_put_string "   " _ _ rfl,
    put_string_mk, foldl_text_column pb _ _ rfl, foldl_put_string " " _ _ rfl, put_string_mk,
    hbytes, htext, h3, h1]
  simp [raw_data_row, hlen]

theorem hex_zero_padded_length (digits value : Nat) (hdigits : 0 < digits)
    (hvalue : value < 16 ^ digits) : (hex_zero_padded digits value).length = digits := by
  have h : (Nat.toDigits 16 value).length ≤ digits :=
    Nat.toDigitsCore_length 16 (by decide) (value + 1) value digits hvalue hdigits
  simp only [hex_zero_padded, List.length_append, List.length_replicate]
  omega

theorem raw_data_row_length (startOffset : Nat) (bytes : List Nat)
    (hoffset : startOffset < 2 ^ 32) (hcount : bytes.length ≤ 16)
    (hbytes : ∀ b ∈ bytes, b < 256) : (raw_data_row startOffset bytes).length = 80 := by
  have h8 : (hex_zero_padded 8 startOffset).length = 8 :=
    hex_zero_padded_length 8 startOffset (by decide) (by norm_num at hoffset ⊢; exact hoffset)
  have hflat : ∀ l : List Nat, (∀ b ∈ l, b < 256) →
      (l.flatMap (fun byte => hex_zero_padded 2 byte ++ [' '])).length = 3 * l.length := by
    intro l
    induction l with
    | nil => simp
    | cons b rest ih =>
      intro hl
      have hb : (hex_zero_padded 2 b).length = 2 :=
        hex_zero_padded_length 2 b (by decide) (by
          have := hl b (List.mem_cons_self _ _)
          norm_num
          exact this)
      rw [List.flatMap_cons, List.length_append, List.length_append, hb,
        ih (fun x hx => hl x (List.mem_cons_of_mem _ hx))]
      simp
      omega
  simp only [raw_data_row, List.length_append, h8, hflat bytes hbytes, List.length_replicate,
    List.length_map, List.length_cons, List.length_nil]
  omega

/-- C22. For every buffer of at least `cb` bytes and every start offset below `2^32`,
`LogRawData` appends to the stream one row for the first `k = min(cb, 16)` bytes and returns
`k`.  The row is the one the specification describes (`raw_data_row`): the offset as 8
zero-padded hex digits, `": "`, each of the `k` bytes as 2 zero-padded hex digits followed
by a space, 3 spaces for each of the `16 - k` missing bytes, `"  * "`, the `k` bytes with
each printable byte shown as itself and every other byte as a dot, `16 - k` spaces, `" *"`.
The offset takes exactly 8 digits, each byte exactly 2, and the row is exactly 80
characters long. -/
theorem LogRawData_writes_one_row (os : List Char) (startOffset : Nat) (pb : List Nat)
    (cb : Nat) (hoffset : startOffset < 2 ^ 32) (hcb : cb ≤ pb.length)
    (hbytes : ∀ b ∈ pb, b < 256) :
    LogRawData os startOffset pb cb
      = (os ++ raw_data_row startOffset (pb.take (min cb 16)), min cb 16) ∧
    (pb.take (min cb 16)).length = min cb 16 ∧
    (hex_zero_padded 8 startOffset).length = 8 ∧
    (∀ b ∈ pb, (hex_zero_padded 2 b).length = 2) ∧
    (raw_data_row startOffset (pb.take (min cb 16))).length = 80 := by
  refine ⟨LogRawData_row os startOffset pb cb hcb, ?_, ?_, ?_, ?_⟩
  · rw [List.length_take]
    omega
  · exact hex_zero_padded_length 8 startOffset (by decide)
      (by norm_num at hoffset ⊢; exact hoffset)
  · intro b hb
    exact hex_zero_padded_length 2 b (by decide) (by
      have := hbytes b hb
      norm_num
      exact this)
  · apply raw_data_row_length startOffset _ hoffset
    · rw [List.length_take]
      omega
    · intro b hb
      exact hbytes b (List.mem_of_mem_take hb)

/-- Witness of C22: the four bytes `48 69 00 ff` at offset 16, with the row written out. -/
theorem LogRawData_writes_one_row_witness :
    LogRawData [] 16 [72, 105, 0, 255] 4
      = ([] ++ raw_data_row 16 ([72, 105, 0, 255].take (min 4 16)), min 4 16) ∧
    (raw_data_row 16 ([72, 105, 0, 255].take (min 4 16))).length = 80 ∧
    raw_data_row 16 [72, 105, 0, 255]
      = "00000010: 48 69 00 ff                                       * Hi..             *".data :=
  ⟨(LogRawData_writes_one_row [] 16 [72, 105, 0, 255] 4 (by decide) (by decide)
      (by decide)).1,
   (LogRawData_writes_one_row [] 16 [72, 105, 0, 255] 4 (by decide) (by decide)
      (by decide)).2.2.2.2,
   by decide⟩

/-! ## C24: the rows of a binary payload -/

theorem intercalate_cons_of_ne_nil (sep a : List Char) (l : List (List Char)) (hl : l ≠ []) :
    List.intercalate sep (a :: l) = a ++ sep ++ List.intercalate sep l := by
  cases l with
  | nil => exact absurd rfl hl
  | cons b rest => simp [List.intercalate, List.intersperse]

theorem log_rows_eq :
    ∀ (n : Nat) (os : List Char) (pb : List Nat) (currentOffset : Nat), pb.length = n →
      log_rows os pb pb.length currentOffset
        = os ++ List.intercalate [Char.ofNat 10]
            ((List.range (max 1 ((n + 15) / 16))).map
              (fun i => raw_data_row (currentOffset + 16 * i) ((pb.drop (16 * i)).take 16))) := by
  intro n
  induction n using Nat.strong_induction_on with
  | _ n ih =>
    intro os pb currentOffset hn
    rw [log_rows]
    have hrow := LogRawData_row os currentOffset pb pb.length (Nat.le_refl _)
    by_cases hsmall : n ≤ 16
    · have hmin : min pb.length 16 = pb.length := by omega
      have hcount : max 1 ((n + 15) / 16) = 1 := by omega
      have htake : pb.take 16 = pb := List.take_of_length_le (by omega)
      rw [dif_neg (by rw [hrow]; simp [hmin]), hrow, hmin, hcount,
        show List.range 1 = [0] from rfl]
      simp [List.intercalate, htake]
    · have hmin : min pb.length 16 = 16 := by omega
      have hcount : max 1 ((n + 15) / 16) = max 1 ((n - 16 + 15) / 16) + 1 := by omega
      have hdrop : (pb.drop 16).length = n - 16 := by simp [hn]
      have hpos : pb.length - 16 ≠ 0 := by omega
      have hrec := ih (n - 16) (by omega)
        (os ++ raw_data_row currentOffset (pb.take 16) ++ [Char.ofNat 10]) (pb.drop 16)
        (currentOffset + 16) hdrop
      rw [hdrop] at hrec
      have hmap : (List.range (max 1 ((n - 16 + 15) / 16))).map
            (fun i => raw_data_row (currentOffset + 16 + 16 * i)
              (((pb.drop 16).drop (16 * i)).take 16))
          = (List.range (max 1 ((n - 16 + 15) / 16))).map
            ((fun i => raw_data_row (currentOffset + 16 * i) ((pb.drop (16 * i)).take 16))
              ∘ Nat.succ) := by
        apply List.map_congr_left
        intro i _
        have e1 : currentOffset + 16 + 16 * i = currentOffset + 16 * (i + 1) := by omega
        have e2 : (pb.drop 16).drop (16 * i) = pb.drop (16 * (i + 1)) := by
          rw [List.drop_drop]
          congr 1
          omega
        simp only [Function.comp, e1, e2]
      have hne : (List.range (max 1 ((n - 16 + 15) / 16))).map
            ((fun i => raw_data_row (currentOffset + 16 * i) ((pb.drop (16 * i)).take 16))
              ∘ Nat.succ) ≠ [] := by
        intro h
        have hlen := congrArg List.length h
        simp at hlen
      rw [dif_pos (by rw [hrow]; simpa [hmin] using hpos), hrow, hmin]
      simp only
      rw [show pb.length - 16 = n - 16 by omega, hrec, hmap, hcount, List.range_succ_eq_map,
        List.map_cons, List.map_map, intercalate_cons_of_ne_nil _ _ _ hne]
      simp [List.append_assoc]

theorem chunk_lengths_sum :
    ∀ (n : Nat) (pb : List Nat), pb.length = n →
      ((List.range (max 1 ((n + 15) / 16))).map
        (fun i => ((pb.drop (16 * i)).take 16).length)).sum = n := by
  intro n
  induction n using Nat.strong_induction_on with
  | _ n ih =>
    intro pb hn
    by_cases hsmall : n ≤ 16
    · have hcount : max 1 ((n + 15) / 16) = 1 := by omega
      rw [hcount, show List.range 1 = [0] from rfl]
      simp
      omega
    · have hcount : max 1 ((n + 15) / 16) = max 1 ((n - 16 + 15) / 16) + 1 := by omega
      have hdrop : (pb.drop 16).length = n - 16 := by simp [hn]
      have hrec := ih (n - 16) (by omega) (pb.drop 16) hdrop
      have hmap : (List.range (max 1 ((n - 16 + 15) / 16))).map
            (fun i => (((pb.drop 16).drop (16 * i)).take 16).length)
          = (List.range (max 1 ((n - 16 + 15) / 16))).map
            ((fun i => ((pb.drop (16 * i)).take 16).length) ∘ Nat.succ) := by
        apply List.map_congr_left
        intro i _
        have e2 : (pb.drop 16).drop (16 * i) = pb.drop (16 * (i + 1)) := by
          rw [List.drop_drop]
          congr 1
          omega
        simp only [Function.comp, e2]
      rw [hmap] at hrec
      rw [hcount, List.range_succ_eq_map, List.map_cons, List.map_map, List.sum_cons, hrec]
      simp
      omega

/-- C24. For every `BinaryData` payload of `n` bytes the stream operator terminates (it is
a total function) and appends exactly `max(1, ceil(n/16))` rows, one row even when `n = 0`:
row `i` (from 0) is the row for offset `16*i` and the bytes from `16*i` up to
`min(n, 16*i+16)`; consecutive rows are separated by a line feed and nothing follows the
last row; the byte counts of the rows sum to `n`. -/
theorem binary_dump_rows (os : List Char) (bytes : List Nat) (length : Nat)
    (hlength : length = bytes.length) :
    operator_shl_BinaryData os bytes length
      = os ++ List.intercalate [Char.ofNat 10]
          ((List.range (max 1 ((length + 15) / 16))).map
            (fun i => raw_data_row (16 * i) ((bytes.drop (16 * i)).take 16))) ∧
    (∀ i, ((bytes.drop (16 * i)).take 16).length = min length (16 * i + 16) - 16 * i) ∧
    ((List.range (max 1 ((length + 15) / 16))).map
      (fun i => ((bytes.drop (16 * i)).take 16).length)).sum = length := by
  subst hlength
  refine ⟨?_, ?_, chunk_lengths_sum bytes.length bytes rfl⟩
  · have h := log_rows_eq bytes.length os bytes 0 rfl
    simpa [operator_shl_BinaryData] using h
  · intro i
    simp only [List.length_take, List.length_drop]
    omega

/-- Witness of C24 at the empty payload: one row, with no bytes, and no line feed. -/
theorem binary_dump_rows_witness :
    operator_shl_BinaryData [] [] 0
      = "00000000:                                                   *                  *".data :=
  (binary_dump_rows [] [] 0 rfl).1.trans (by decide)

end HexDump

end Azure.Core.Amqp.Models

/-!
# Theorems on the connection
-/

namespace Azure.Core.Amqp

open Azure.Core.Amqp.Models Network._internal _internal _detail

namespace _detail.ConnectionImpl

/-! ## Shared lemmas -/

theorem checked_call_spec (env : Environment) (call : EngineCall) (what : String)
    (trace : List Effect) :
    (checked_call env call what trace).1 = trace ++ [.engine call] ∧
    ((checked_call env call what trace).2 = .thrown (.runtime_error what) ↔
      env.status trace call ≠ 0) ∧
    ((checked_call env call what trace).2 = .returned () ↔ env.status trace call = 0) := by
  unfold checked_call
  by_cases h : env.status trace call = 0
  · simp [h]
  · simp [h]

theorem checked_call_not_logic_error (env : Environment) (call : EngineCall) (what : String)
    (trace : List Effect) (other : String) :
    (checked_call env call what trace).2 ≠ .thrown (.logic_error other) := by
  unfold checked_call
  by_cases h : env.status trace call = 0
  · simp [h]
  · simp [h]

/-! ## C15: SASL credentials are refused at construction -/

/-- C15. For every options value whose `SaslCredentials` is non-null, for every transport,
every request URL, every event handler and whatever happened before: both `ConnectionImpl`
constructors throw `std::runtime_error`; the transport-based one has done nothing by then
and the URI-based one has only initialised the global state, so no transport was made or
assigned and no frame-engine connection was created; the public `Connection` constructors
end with the same exception, `FinishConstruction` not having run. -/
theorem sasl_credentials_refused (env : Environment) (transport : Option Transport)
    (requestUrl : Url) (options : ConnectionOptions) (eventHandler : Option ConnectionEvents)
    (trace : List Effect) (hsasl : options.SaslCredentials ≠ none) :
    from_transport transport options eventHandler trace
      = (trace,
          .thrown (.runtime_error "Sasl Credentials should not be provided with a transport.")) ∧
    from_request_uri requestUrl options eventHandler trace
      = (trace ++ [.EnsureGlobalStateInitialized],
          .thrown
            (.runtime_error "Sasl Credentials should not be provided with a request URI.")) ∧
    Connection.from_transport env transport options eventHandler trace
      = (trace,
          .thrown (.runtime_error "Sasl Credentials should not be provided with a transport.")) ∧
    Connection.from_request_uri env requestUrl options eventHandler trace
      = (trace ++ [.EnsureGlobalStateInitialized],
          .thrown
            (.runtime_error "Sasl Credentials should not be provided with a request URI.")) := by
  have hsome : options.SaslCredentials.isSome = true := by
    cases h : options.SaslCredentials with
    | none => exact absurd h hsasl
    | some _ => rfl
  have h1 : from_transport transport options eventHandler trace
      = (trace,
          .thrown (.runtime_error "Sasl Credentials should not be provided with a transport.")) := by
    simp [from_transport, hsome]
  have h2 : from_request_uri requestUrl options eventHandler trace
      = (trace ++ [.EnsureGlobalStateInitialized],
          .thrown
            (.runtime_error "Sasl Credentials should not be provided with a request URI.")) := by
    simp [from_request_uri, hsome]
  refine ⟨h1, h2, ?_, ?_⟩
  · simp only [Connection.from_transport, h1]
  · simp only [Connection.from_request_uri, h2]

/-- Witness of C15: options with credentials, a prebuilt transport, the URL
`amqp://host`. -/
theorem sasl_credentials_refused_witness :
    from_transport (some (.prebuilt 0)) ⟨"host", "", false, some 1⟩ none []
      = ([],
          .thrown (.runtime_error "Sasl Credentials should not be provided with a transport.")) ∧
    from_request_uri ⟨"amqp", "host", 0⟩ ⟨"host", "", false, some 1⟩ none []
      = ([.EnsureGlobalStateInitialized],
          .thrown
            (.runtime_error "Sasl Credentials should not be provided with a request URI.")) :=
  ⟨(sasl_credentials_refused ⟨fun _ _ => 0, fun _ _ => some 1, fun _ => "id"⟩
      (some (.prebuilt 0)) ⟨"amqp", "host", 0⟩ ⟨"host", "", false, some 1⟩ none []
      (by decide)).1,
   (sasl_credentials_refused ⟨fun _ _ => 0, fun _ _ => some 1, fun _ => "id"⟩
      (some (.prebuilt 0)) ⟨"amqp", "host", 0⟩ ⟨"host", "", false, some 1⟩ none []
      (by decide)).2.1⟩

/-! ## C16: the URI scheme selects the transport -/

/-- C16. For every request URL and options without SASL credentials: with scheme `amqp` the
URI-based constructor returns a connection whose transport is a plaintext socket transport
to the URL's host, on the URL's port, or on 5672 when the URL gives no port (`GetPort()`
is 0); with scheme `amqps` it is a TLS transport to the URL's host, on the URL's port, or
on 5671 when the URL gives no port; in both cases the host name is the URL's host. -/
theorem uri_scheme_selects_transport (requestUrl : Url) (options : ConnectionOptions)
    (eventHandler : Option ConnectionEvents) (trace : List Effect)
    (hsasl : options.SaslCredentials = none) :
    (requestUrl.GetScheme = "amqp" →
      ∃ impl, (from_request_uri requestUrl options eventHandler trace).2 = .returned impl ∧
        impl.m_hostName = requestUrl.GetHost ∧
        (requestUrl.GetPort ≠ 0 →
          impl.m_transport = some (.SocketTransport requestUrl.GetHost requestUrl.GetPort)) ∧
        (requestUrl.GetPort = 0 →
          impl.m_transport = some (.SocketTransport requestUrl.GetHost 5672))) ∧
    (requestUrl.GetScheme = "amqps" →
      ∃ impl, (from_request_uri requestUrl options eventHandler trace).2 = .returned impl ∧
        impl.m_hostName = requestUrl.GetHost ∧
        (requestUrl.GetPort ≠ 0 →
          impl.m_transport = some (.TlsTransport requestUrl.GetHost requestUrl.GetPort)) ∧
        (requestUrl.GetPort = 0 →
          impl.m_transport = some (.TlsTransport requestUrl.GetHost 5671))) := by
  constructor
  · intro hscheme
    refine ⟨_, by simp [from_request_uri, hsasl, hscheme]; rfl, rfl, ?_, ?_⟩
    · intro hport
      simp [hport]
    · intro hport
      simp [hport]
  · intro hscheme
    have hne : ¬ requestUrl.GetScheme = "amqp" := by
      rw [hscheme]
      decide
    refine ⟨_, by simp [from_request_uri, hsasl, hscheme]; rfl, rfl, ?_, ?_⟩
    · intro hport
      simp [hport]
    · intro hport
      simp [hport]

/-- Witness of C16 at the URLs `amqp://host`, `amqps://host` and `amqp://host:1234`. -/
theorem uri_scheme_selects_transport_witness :
    (∃ impl, (from_request_uri ⟨"amqp", "host", 0⟩ ⟨"", "", false, none⟩ none []).2
        = .returned impl ∧
      impl.m_hostName = "host" ∧ impl.m_transport = some (.SocketTransport "host" 5672)) ∧
    (∃ impl, (from_request_uri ⟨"amqps", "host", 0⟩ ⟨"", "", false, none⟩ none []).2
        = .returned impl ∧
      impl.m_hostName = "host" ∧ impl.m_transport = some (.TlsTransport "host" 5671)) ∧
    (∃ impl, (from_request_uri ⟨"amqp", "host", 1234⟩ ⟨"", "", false, none⟩ none []).2
        = .returned impl ∧
      impl.m_hostName = "host" ∧ impl.m_transport = some (.SocketTransport "host" 1234)) :=
  ⟨match (uri_scheme_selects_transport ⟨"amqp", "host", 0⟩ ⟨"", "", false, none⟩ none []
      rfl).1 rfl with
    | ⟨impl, h, hhost, _, hport⟩ => ⟨impl, h, hhost, hport rfl⟩,
   match (uri_scheme_selects_transport ⟨"amqps", "host", 0⟩ ⟨"", "", false, none⟩ none []
      rfl).2 rfl with
    | ⟨impl, h, hhost, _, hport⟩ => ⟨impl, h, hhost, hport rfl⟩,
   match (uri_scheme_selects_transport ⟨"amqp", "host", 1234⟩ ⟨"", "", false, none⟩ none []
      rfl).1 rfl with
    | ⟨impl, h, hhost, hport, _⟩ => ⟨impl, h, hhost, hport (by decide)⟩⟩

/-! ## C19: the engine status decides between return and `std::runtime_error` -/

/-- C19. Each of `Open`, `Listen`, `SetMaxFrameSize`, `SetMaxChannel`, `SetIdleTimeout`,
`SetProperties` and `SetRemoteIdleTimeoutEmptyFrameSendRatio` makes exactly one call into
the frame engine, the corresponding one; it throws `std::runtime_error` if and only if the
engine returns a non-zero status for that call, and returns normally if and only if the
status is zero. -/
theorem engine_status_decides (env : Environment) (self : ConnectionImpl)
    (trace : List Effect) (maxSize maxChannel ratio : Nat) (idleTimeout : Int)
    (properties : AmqpValue) :
    ((self.Open env trace).1 = trace ++ [.engine (.connection_open self.m_connection)] ∧
      ((self.Open env trace).2 = .thrown (.runtime_error "Could not open connection.") ↔
        env.status trace (.connection_open self.m_connection) ≠ 0) ∧
      ((self.Open env trace).2 = .returned () ↔
        env.status trace (.connection_open self.m_connection) = 0)) ∧
    ((self.Listen env trace).1 = trace ++ [.engine (.connection_listen self.m_connection)] ∧
      ((self.Listen env trace).2 = .thrown (.runtime_error "Could not listen on connection.") ↔
        env.status trace (.connection_listen self.m_connection) ≠ 0) ∧
      ((self.Listen env trace).2 = .returned () ↔
        env.status trace (.connection_listen self.m_connection) = 0)) ∧
    ((self.SetMaxFrameSize env maxSize trace).1 = trace ++ [.engine (.connection_set_max_frame_size self.m_connection maxSize)] ∧
      ((self.SetMaxFrameSize env maxSize trace).2 = .thrown (.runtime_error "COuld not set max frame size.") ↔
        env.status trace (.connection_set_max_frame_size self.m_connection maxSize) ≠ 0) ∧
      ((self.SetMaxFrameSize env maxSize trace).2 = .returned () ↔
        env.status trace (.connection_set_max_frame_size self.m_connection maxSize) = 0)) ∧
    ((self.SetMaxChannel env maxChannel trace).1 = trace ++ [.engine (.connection_set_channel_max self.m_connection maxChannel)] ∧
      ((self.SetMaxChannel env maxChannel trace).2 = .thrown (.runtime_error "COuld not set channel max.") ↔
        env.status trace (.connection_set_channel_max self.m_connection maxChannel) ≠ 0) ∧
      ((self.SetMaxChannel env maxChannel trace).2 = .returned () ↔
        env.status trace (.connection_set_channel_max self.m_connection maxChannel) = 0)) ∧
    ((self.SetIdleTimeout env idleTimeout trace).1 = trace ++ [.engine (.connection_set_idle_timeout self.m_connection (idleTimeout % 2 ^ 32).toNat)] ∧
      ((self.SetIdleTimeout env idleTimeout trace).2 = .thrown (.runtime_error "COuld not set idle timeout.") ↔
        env.status trace (.connection_set_idle_timeout self.m_connection (idleTimeout % 2 ^ 32).toNat) ≠ 0) ∧
      ((self.SetIdleTimeout env idleTimeout trace).2 = .returned () ↔
        env.status trace (.connection_set_idle_timeout self.m_connection (idleTimeout % 2 ^ 32).toNat) = 0)) ∧
    ((self.SetProperties env properties trace).1 = trace ++ [.engine (.connection_set_properties self.m_connection properties.m_value)] ∧
      ((self.SetProperties env properties trace).2 = .thrown (.runtime_error "COuld not set properties.") ↔
        env.status trace (.connection_set_properties self.m_connection properties.m_value) ≠ 0) ∧
      ((self.SetProperties env properties trace).2 = .returned () ↔
        env.status trace (.connection_set_properties self.m_connection properties.m_value) = 0)) ∧
    ((self.SetRemoteIdleTimeoutEmptyFrameSendRatio env ratio trace).1 = trace ++ [.engine (.connection_set_remote_idle_timeout_empty_frame_send_ratio self.m_connection ratio)] ∧
      ((self.SetRemoteIdleTimeoutEmptyFrameSendRatio env ratio trace).2 = .thrown (.runtime_error "Could not set remote idle timeout send frame ratio.") ↔
        env.status trace (.connection_set_remote_idle_timeout_empty_frame_send_ratio self.m_connection ratio) ≠ 0) ∧
      ((self.SetRemoteIdleTimeoutEmptyFrameSendRatio env ratio trace).2 = .returned () ↔
        env.status trace (.connection_set_remote_idle_timeout_empty_frame_send_ratio self.m_connection ratio) = 0)) := by
  refine ⟨?_, ?_, ?_, ?_, ?_, ?_, ?_⟩ <;> exact checked_call_spec env _ _ trace

/-- Witness of C19: `Open` against an engine that answers 0 returns normally, and against
an engine that answers 1 throws. -/
theorem engine_status_decides_witness :
    (Open ⟨fun _ _ => 0, fun _ _ => none, fun _ => ""⟩
        ⟨"host", ⟨"host", "", false, none⟩, none, none, some 7⟩ []).2 = .returned () ∧
    (Open ⟨fun _ _ => 1, fun _ _ => none, fun _ => ""⟩
        ⟨"host", ⟨"host", "", false, none⟩, none, none, some 7⟩ []).2
      = .thrown (.runtime_error "Could not open connection.") :=
  ⟨((engine_status_decides ⟨fun _ _ => 0, fun _ _ => none, fun _ => ""⟩
      ⟨"host", ⟨"host", "", false, none⟩, none, none, some 7⟩ [] 0 0 0 0
      AmqpValue.null).1.2.2).mpr rfl,
   ((engine_status_decides ⟨fun _ _ => 1, fun _ _ => none, fun _ => ""⟩
      ⟨"host", ⟨"host", "", false, none⟩, none, none, some 7⟩ [] 0 0 0 0
      AmqpValue.null).1.2.1).mpr (by decide)⟩

/-! ## C17: a request URI with an unsupported scheme -/

/-- C17, refuted as stated: for the URL `http://host` the URI-based constructor returns a
connection with no transport, and `Poll` on that connection does not fail: it returns
normally, having done nothing.  `FinishConstruction`, which the public constructor runs
next, does not fail with an error either: it dereferences the null transport, which is
undefined behaviour. -/
theorem unsupported_scheme_later_operations :
    ∃ impl, from_request_uri ⟨"http", "host", 0⟩ ⟨"", "", false, none⟩ none []
        = ([.EnsureGlobalStateInitialized], .returned impl) ∧
      impl.m_transport = none ∧
      impl.Poll [.EnsureGlobalStateInitialized]
        = ([.EnsureGlobalStateInitialized], .returned ()) ∧
      impl.FinishConstruction ⟨fun _ _ => 0, fun _ _ => some 1, fun _ => "id"⟩
          [.EnsureGlobalStateInitialized]
        = ([.EnsureGlobalStateInitialized], .undefined_behaviour) ∧
      (Connection.from_request_uri ⟨fun _ _ => 0, fun _ _ => some 1, fun _ => "id"⟩
          ⟨"http", "host", 0⟩ ⟨"", "", false, none⟩ none []).2 = .undefined_behaviour :=
  ⟨_, rfl, rfl, rfl, rfl, rfl⟩

/-- C17, amended: for every request URL whose scheme is neither `amqp` nor `amqps` (and
options without SASL credentials), the URI-based constructor returns a connection with no
transport assigned and no frame-engine connection; on that connection `Poll` returns
normally without calling the frame engine, and `Close` throws `std::logic_error` without
calling the frame engine.  Nothing is said about `FinishConstruction`. -/
theorem unsupported_scheme_leaves_no_transport (requestUrl : Url)
    (options : ConnectionOptions) (eventHandler : Option ConnectionEvents)
    (trace : List Effect) (hsasl : options.SaslCredentials = none)
    (hamqp : requestUrl.GetScheme ≠ "amqp") (hamqps : requestUrl.GetScheme ≠ "amqps") :
    ∃ impl, from_request_uri requestUrl options eventHandler trace
        = (trace ++ [.EnsureGlobalStateInitialized], .returned impl) ∧
      impl.m_transport = none ∧
      impl.m_connection = none ∧
      (∀ later : List Effect, impl.Poll later = (later, .returned ())) ∧
      (∀ (env : Environment) (condition description : String) (info : AmqpValue)
          (later : List Effect),
        impl.Close env condition description info later
          = (later, .thrown (.logic_error "Connection already closed."))) := by
  refine ⟨⟨requestUrl.GetHost, options, eventHandler, none, none⟩, ?_, rfl, rfl, ?_, ?_⟩
  · simp [from_request_uri, hsasl, hamqp, hamqps]
  · intro later
    rfl
  · intro env condition description info later
    rfl

/-- Witness of amended C17 at the URL `http://host`. -/
theorem unsupported_scheme_leaves_no_transport_witness :
    ∃ impl, from_request_uri ⟨"http", "host", 0⟩ ⟨"", "", false, none⟩ none []
        = ([] ++ [.EnsureGlobalStateInitialized], .returned impl) ∧
      impl.m_transport = none ∧
      impl.m_connection = none ∧
      (∀ later : List Effect, impl.Poll later = (later, .returned ())) ∧
      (∀ (env : Environment) (condition description : String) (info : AmqpValue)
          (later : List Effect),
        impl.Close env condition description info later
          = (later, .thrown (.logic_error "Connection already closed."))) :=
  unsupported_scheme_leaves_no_transport ⟨"http", "host", 0⟩ ⟨"", "", false, none⟩ none []
    rfl (by decide) (by decide)

/-! ## C18: `Close` called twice -/

/-- C18, evaluated on the code: when a first `Close` returns normally, a second `Close` on
the same connection, whatever its arguments, sends a second `connection_close` to the
frame engine, never throws `std::logic_error`, and returns normally exactly when the
engine answers 0 to that second call.  `Close` does not change `m_connection`, so its
test for an already closed connection still finds the handle. -/
theorem second_close_reaches_engine (env : Environment) (self : ConnectionImpl)
    (condition description condition2 description2 : String) (info info2 : AmqpValue)
    (trace : List Effect)
    (hfirst : (self.Close env condition description info trace).2 = .returned ()) :
    (self.Close env condition description info trace).1
      = trace ++ [.engine (.connection_close self.m_connection
          (if condition.isEmpty then none else some (c_string condition))
          (if description.isEmpty then none else some (c_string description))
          info.m_value)] ∧
    (self.Close env condition2 description2 info2
        (self.Close env condition description info trace).1).1
      = (self.Close env condition description info trace).1 ++
          [.engine (.connection_close self.m_connection
            (if condition2.isEmpty then none else some (c_string condition2))
            (if description2.isEmpty then none else some (c_string description2))
            info2.m_value)] ∧
    (∀ what : String,
      (self.Close env condition2 description2 info2
        (self.Close env condition description info trace).1).2
        ≠ .thrown (.logic_error what)) ∧
    ((self.Close env condition2 description2 info2
        (self.Close env condition description info trace).1).2 = .returned () ↔
      env.status (self.Close env condition description info trace).1
        (.connection_close self.m_connection
          (if condition2.isEmpty then none else some (c_string condition2))
          (if description2.isEmpty then none else some (c_string description2))
          info2.m_value) = 0) := by
  have hconn : self.m_connection.isNone = false := by
    cases h : self.m_connection.isNone with
    | false => rfl
    | true => simp [Close, h] at hfirst
  have hclose : ∀ (c d : String) (i : AmqpValue) (t : List Effect),
      self.Close env c d i t = checked_call env
        (.connection_close self.m_connection
          (if c.isEmpty then none else some (c_string c))
          (if d.isEmpty then none else some (c_string d)) i.m_value)
        "Could not close connection." t := by
    intro c d i t
    simp [Close, hconn]
  refine ⟨?_, ?_, ?_, ?_⟩
  · rw [hclose]
    exact (checked_call_spec env _ _ trace).1
  · rw [hclose condition2]
    exact (checked_call_spec env _ _ _).1
  · intro what
    rw [hclose condition2]
    exact checked_call_not_logic_error env _ _ _ what
  · rw [hclose condition2]
    exact (checked_call_spec env _ _ _).2.2

/-- Witness of C18 on a connection with handle 7 and an engine that always answers 0: the
second `Close` returns normally and the engine has received `connection_close` twice. -/
theorem second_close_reaches_engine_witness :
    (Close ⟨fun _ _ => 0, fun _ _ => none, fun _ => ""⟩
        ⟨"host", ⟨"host", "", false, none⟩, none, some (.prebuilt 0), some 7⟩ "" ""
        AmqpValue.null
        (Close ⟨fun _ _ => 0, fun _ _ => none, fun _ => ""⟩
          ⟨"host", ⟨"host", "", false, none⟩, none, some (.prebuilt 0), some 7⟩ "" ""
          AmqpValue.null []).1).2 = .returned () :=
  ((second_close_reaches_engine ⟨fun _ _ => 0, fun _ _ => none, fun _ => ""⟩
      ⟨"host", ⟨"host", "", false, none⟩, none, some (.prebuilt 0), some 7⟩ "" "" "" ""
      AmqpValue.null AmqpValue.null [] rfl).2.2.2).mpr rfl

/-! ## C20: engine callbacks and the event handler -/

/-- C20, refuted as stated: with a non-null event handler, `OnConnectionStateChangedFn`
called with an engine state the conversion does not recognise invokes no handler method:
the conversion throws `std::logic_error` before the handler is called. -/
theorem state_changed_unrecognised_state :
    OnConnectionStateChangedFn
        ⟨"host", ⟨"host", "", false, none⟩, some ⟨fun _ => true⟩, none, some 7⟩
        (.unrecognised 99) .CONNECTION_STATE_START []
      = ([], .thrown (.logic_error "Unknown connection state")) :=
  rfl

/-- C20, amended: for every connection whose event-handler reference is null (as it is
after the destructor body), none of `OnConnectionStateChangedFn`, `OnNewEndpointFn`,
`OnIoErrorFn` invokes a handler method, for every argument, and `OnNewEndpointFn` returns
false.  When the handler is non-null, `OnNewEndpointFn` invokes exactly `OnNewEndpoint`
once and returns its answer, `OnIoErrorFn` invokes exactly `OnIoError` once, and
`OnConnectionStateChangedFn` invokes exactly `OnConnectionStateChanged` once, with the
converted states, when both engine states are recognised; when one of them is not, it
throws `std::logic_error` and invokes nothing. -/
theorem callbacks_dispatch (context : ConnectionImpl) (newState oldState : CONNECTION_STATE)
    (newEndpoint : Nat) (trace : List Effect) :
    (context.destroy trace).2.m_eventHandler = none ∧
    (context.m_eventHandler = none →
      context.OnConnectionStateChangedFn newState oldState trace = (trace, .returned ()) ∧
      context.OnNewEndpointFn newEndpoint trace = (trace, .returned false) ∧
      context.OnIoErrorFn trace = (trace, .returned ())) ∧
    (∀ eventHandler, context.m_eventHandler = some eventHandler →
      context.OnNewEndpointFn newEndpoint trace
        = (trace ++ [.handler (.OnNewEndpoint newEndpoint)],
            .returned (eventHandler.OnNewEndpoint newEndpoint)) ∧
      context.OnIoErrorFn trace = (trace ++ [.handler .OnIoError], .returned ()) ∧
      (∀ newConverted oldConverted,
        ConnectionStateFromCONNECTION_STATE newState = .returned newConverted →
        ConnectionStateFromCONNECTION_STATE oldState = .returned oldConverted →
        context.OnConnectionStateChangedFn newState oldState trace
          = (trace ++ [.handler (.OnConnectionStateChanged newConverted oldConverted)],
              .returned ())) ∧
      ((∃ value, newState = .unrecognised value ∨ oldState = .unrecognised value) →
        context.OnConnectionStateChangedFn newState oldState trace
          = (trace, .thrown (.logic_error "Unknown connection state")))) := by
  refine ⟨?_, ?_, ?_⟩
  · unfold destroy
    cases context.m_connection <;> rfl
  · intro h
    simp [OnConnectionStateChangedFn, OnNewEndpointFn, OnIoErrorFn, h]
  · intro eventHandler h
    refine ⟨by simp [OnNewEndpointFn, h], by simp [OnIoErrorFn, h], ?_, ?_⟩
    · intro newConverted oldConverted hnew hold
      simp [OnConnectionStateChangedFn, h, hnew, hold]
    · rintro ⟨value, hvalue | hvalue⟩
      · subst hvalue
        cases oldState <;>
          simp [OnConnectionStateChangedFn, h, ConnectionStateFromCONNECTION_STATE]
      · subst hvalue
        cases newState <;>
          simp [OnConnectionStateChangedFn, h, ConnectionStateFromCONNECTION_STATE]

/-- Witness of amended C20: with a null handler `OnNewEndpointFn` rejects the endpoint and
calls nothing; with a handler that accepts, it calls `OnNewEndpoint` once and accepts. -/
theorem callbacks_dispatch_witness :
    OnNewEndpointFn ⟨"host", ⟨"host", "", false, none⟩, none, none, some 7⟩ 3 []
      = ([], .returned false) ∧
    OnNewEndpointFn ⟨"host", ⟨"host", "", false, none⟩, some ⟨fun _ => true⟩, none, some 7⟩
        3 []
      = ([] ++ [.handler (.OnNewEndpoint 3)], .returned true) :=
  ⟨((callbacks_dispatch ⟨"host", ⟨"host", "", false, none⟩, none, none, some 7⟩
      .CONNECTION_STATE_START .CONNECTION_STATE_START 3 []).2.1 rfl).2.1,
   ((callbacks_dispatch
      ⟨"host", ⟨"host", "", false, none⟩, some ⟨fun _ => true⟩, none, some 7⟩
      .CONNECTION_STATE_START .CONNECTION_STATE_START 3 []).2.2 ⟨fun _ => true⟩ rfl).1⟩

end _detail.ConnectionImpl

end Azure.Core.Amqp

/-!
# Theorems on the connection state translation and on the transport
-/

namespace Azure.Core.Amqp

open Azure.Core.Amqp.Models

namespace _detail

/-! ## C23: translation of the engine's connection state -/

/-- C23, refuted as stated: the engine state `CONNECTION_STATE_CLOSE_PIPE` is translated
into `ClosePipe`, a state outside the list of fourteen. -/
theorem close_pipe_outside_the_fourteen :
    ConnectionStateFromCONNECTION_STATE .CONNECTION_STATE_CLOSE_PIPE = .returned .ClosePipe ∧
    _internal.ConnectionState.ClosePipe ∉
      [_internal.ConnectionState.Start, .HeaderReceived, .HeaderSent, .HeaderExchanged,
        .OpenPipe, .OcPipe, .OpenReceived, .OpenSent, .Opened, .CloseReceived, .CloseSent,
        .Discarding, .Error, .End] :=
  ⟨rfl, by decide⟩

/-- C23, amended: `ConnectionStateFromCONNECTION_STATE` translates every frame-engine
connection state it recognises into one of exactly the fifteen states Start,
HeaderReceived, HeaderSent, HeaderExchanged, OpenPipe, OcPipe, OpenReceived, OpenSent,
ClosePipe, Opened, CloseReceived, CloseSent, Discarding, Error, End, each of which is the
translation of some engine state, and throws `std::logic_error` for an engine value it
does not recognise. -/
theorem connection_state_translation (state : CONNECTION_STATE) :
    ((∀ value, state ≠ .unrecognised value) →
      ∃ translated, ConnectionStateFromCONNECTION_STATE state = .returned translated ∧
        translated ∈
          [_internal.ConnectionState.Start, .HeaderReceived, .HeaderSent, .HeaderExchanged,
            .OpenPipe, .OcPipe, .OpenReceived, .OpenSent, .ClosePipe, .Opened, .CloseReceived,
            .CloseSent, .Discarding, .Error, .End]) ∧
    (∀ translated ∈
        [_internal.ConnectionState.Start, .HeaderReceived, .HeaderSent, .HeaderExchanged,
          .OpenPipe, .OcPipe, .OpenReceived, .OpenSent, .ClosePipe, .Opened, .CloseReceived,
          .CloseSent, .Discarding, .Error, .End],
      ∃ engineState, ConnectionStateFromCONNECTION_STATE engineState = .returned translated) ∧
    (∀ value, ConnectionStateFromCONNECTION_STATE (.unrecognised value)
      = .thrown (.logic_error "Unknown connection state")) := by
  refine ⟨?_, ?_, fun _ => rfl⟩
  · intro hrecognised
    cases state
    case unrecognised value => exact absurd rfl (hrecognised value)
    all_goals exact ⟨_, rfl, by decide⟩
  · intro translated _
    cases translated
    · exact ⟨.CONNECTION_STATE_START, rfl⟩
    · exact ⟨.CONNECTION_STATE_CLOSE_PIPE, rfl⟩
    · exact ⟨.CONNECTION_STATE_CLOSE_RCVD, rfl⟩
    · exact ⟨.CONNECTION_STATE_END, rfl⟩
    · exact ⟨.CONNECTION_STATE_HDR_RCVD, rfl⟩
    · exact ⟨.CONNECTION_STATE_HDR_SENT, rfl⟩
    · exact ⟨.CONNECTION_STATE_HDR_EXCH, rfl⟩
    · exact ⟨.CONNECTION_STATE_OPEN_PIPE, rfl⟩
    · exact ⟨.CONNECTION_STATE_OC_PIPE, rfl⟩
    · exact ⟨.CONNECTION_STATE_OPEN_RCVD, rfl⟩
    · exact ⟨.CONNECTION_STATE_OPEN_SENT, rfl⟩
    · exact ⟨.CONNECTION_STATE_OPENED, rfl⟩
    · exact ⟨.CONNECTION_STATE_CLOSE_SENT, rfl⟩
    · exact ⟨.CONNECTION_STATE_DISCARDING, rfl⟩
    · exact ⟨.CONNECTION_STATE_ERROR, rfl⟩

/-- Witness of amended C23 at the engine state `CONNECTION_STATE_OPENED`. -/
theorem connection_state_translation_witness :
    ∃ translated,
      ConnectionStateFromCONNECTION_STATE .CONNECTION_STATE_OPENED = .returned translated ∧
        translated ∈
          [_internal.ConnectionState.Start, .HeaderReceived, .HeaderSent, .HeaderExchanged,
            .OpenPipe, .OcPipe, .OpenReceived, .OpenSent, .ClosePipe, .Opened, .CloseReceived,
            .CloseSent, .Discarding, .Error, .End] :=
  (connection_state_translation .CONNECTION_STATE_OPENED).1 (by intro value h; cases h)

end _detail

namespace Network._internal._detail.TransportImpl

/-! ## Shared lemmas on the transport -/

theorem step_isOpen (env : XioEnvironment) (call : TransportCall) (self : TransportImpl)
    (trace : List XioCall) :
    (step env call self trace).2.1.m_isOpen = true ↔
      self.m_isOpen = true ∨
        (call = .Open ∧ (step env call self trace).2.2 = .returned (some true)) := by
  obtain ⟨xio, handler, isOpen⟩ := self
  cases call with
  | Open =>
    cases isOpen
    · by_cases h : env.status trace (.xio_open xio) = 0
      · simp [step, Open, h, Outcome.map]
      · simp [step, Open, h, Outcome.map]
    · simp [step, Open, Outcome.map]
  | Close =>
    cases isOpen
    · simp [step, Close, Outcome.map]
    · cases xio with
      | none => simp [step, Close, Outcome.map]
      | some x =>
        by_cases h : env.status trace (.xio_close (some x)) = 0
        · simp [step, Close, h, Outcome.map]
        · simp [step, Close, h, Outcome.map]
  | Send buffer size =>
    by_cases h : env.status trace (.xio_send xio buffer size) = 0
    · simp [step, Send, h, Outcome.map]
    · simp [step, Send, h, Outcome.map]
  | Poll =>
    cases xio <;> simp [step, Poll, Outcome.map]

theorem run_isOpen (env : XioEnvironment) (calls : List TransportCall) :
    ∀ (self : TransportImpl) (trace : List XioCall),
      (run env calls self trace).2.1.m_isOpen = true ↔
        self.m_isOpen = true ∨
          (TransportCall.Open, Outcome.returned (some true)) ∈
            (run env calls self trace).2.2 := by
  induction calls with
  | nil => intro self trace; simp [run]
  | cons call rest ih =>
    intro self trace
    simp only [run]
    rw [ih, step_isOpen, List.mem_cons, Prod.mk.injEq]
    constructor
    · rintro ((h | ⟨h1, h2⟩) | h)
      · exact Or.inl h
      · exact Or.inr (Or.inl ⟨h1.symm, h2.symm⟩)
      · exact Or.inr (Or.inr h)
    · rintro (h | ⟨h1, h2⟩ | h)
      · exact Or.inl (Or.inl h)
      · exact Or.inl (Or.inr ⟨h1.symm, h2.symm⟩)
      · exact Or.inr h

/-! ## C21: guards of `Open` and `Close` -/

/-- C21. After any sequence of `Open`, `Close`, `Send` and `Poll` calls on a freshly
constructed transport: if an earlier `Open` returned true, `Open` throws
`std::logic_error` without calling the I/O layer and without changing the transport; if no
`Open` has returned true, `Close` throws `std::logic_error`, likewise.  And on every
transport that is not open, an `Open` for which the I/O layer returns a non-zero status
makes that one I/O call, returns false and leaves the transport as it was, not open. -/
theorem open_close_guards (env : XioEnvironment) (handle : XIO_HANDLE)
    (eventHandler : Option Nat) (calls : List TransportCall) :
    ((TransportCall.Open, Outcome.returned (some true)) ∈
        (run env calls (from_handle handle eventHandler) []).2.2 →
      (run env calls (from_handle handle eventHandler) []).2.1.Open env
          (run env calls (from_handle handle eventHandler) []).1
        = ((run env calls (from_handle handle eventHandler) []).1,
            (run env calls (from_handle handle eventHandler) []).2.1,
            .thrown (.logic_error "Cannot open an opened transport."))) ∧
    ((TransportCall.Open, Outcome.returned (some true)) ∉
        (run env calls (from_handle handle eventHandler) []).2.2 →
      (run env calls (from_handle handle eventHandler) []).2.1.Close env
          (run env calls (from_handle handle eventHandler) []).1
        = ((run env calls (from_handle handle eventHandler) []).1,
            (run env calls (from_handle handle eventHandler) []).2.1,
            .thrown (.logic_error "Cannot close an unopened transport."))) ∧
    (∀ (self : TransportImpl) (trace : List XioCall), self.m_isOpen = false →
      env.status trace (.xio_open self.m_xioInstance) ≠ 0 →
      self.Open env trace
        = (trace ++ [.xio_open self.m_xioInstance], self, .returned false)) := by
  have hinv := run_isOpen env calls (from_handle handle eventHandler) []
  have hinit : (from_handle handle eventHandler).m_isOpen = false := rfl
  refine ⟨?_, ?_, ?_⟩
  · intro hmem
    have hopen := hinv.mpr (Or.inr hmem)
    simp [Open, hopen]
  · intro hmem
    have hclosed :
        (run env calls (from_handle handle eventHandler) []).2.1.m_isOpen = false := by
      cases h : (run env calls (from_handle handle eventHandler) []).2.1.m_isOpen with
      | false => rfl
      | true =>
        rcases hinv.mp h with h1 | h1
        · rw [hinit] at h1
          exact absurd h1 (by decide)
        · exact absurd h1 hmem
    simp [Close, hclosed]
  · intro self trace hclosed hstatus
    simp [Open, hclosed, hstatus]

/-- Witness of C21: after one `Open` that the I/O layer accepts, `Open` throws; on a fresh
transport `Close` throws. -/
theorem open_close_guards_witness :
    (run ⟨fun _ _ => 0⟩ [.Open] (from_handle (some 1) none) []).2.1.Open ⟨fun _ _ => 0⟩
        (run ⟨fun _ _ => 0⟩ [.Open] (from_handle (some 1) none) []).1
      = ((run ⟨fun _ _ => 0⟩ [.Open] (from_handle (some 1) none) []).1,
          (run ⟨fun _ _ => 0⟩ [.Open] (from_handle (some 1) none) []).2.1,
          .thrown (.logic_error "Cannot open an opened transport.")) ∧
    (run ⟨fun _ _ => 0⟩ [] (from_handle (some 1) none) []).2.1.Close ⟨fun _ _ => 0⟩
        (run ⟨fun _ _ => 0⟩ [] (from_handle (some 1) none) []).1
      = ((run ⟨fun _ _ => 0⟩ [] (from_handle (some 1) none) []).1,
          (run ⟨fun _ _ => 0⟩ [] (from_handle (some 1) none) []).2.1,
          .thrown (.logic_error "Cannot close an unopened transport.")) :=
  ⟨(open_close_guards ⟨fun _ _ => 0⟩ (some 1) none [.Open]).1 (by
      simp [run, step, Open, from_handle, m_isOpen_initial, Outcome.map]),
   (open_close_guards ⟨fun _ _ => 0⟩ (some 1) none []).2.1 (by simp [run])⟩

/-! ## C25: the open flag is never cleared -/

/-- C25. Each call of `Open`, `Close`, `Send` or `Poll` leaves the open flag set exactly
when it was set before or the call is an `Open` that returned true: the flag is set only
by a successful `Open` and never cleared.  So when `Open` returns true and `Close` then
returns true, the transport has no I/O handle and its open flag is still set; a further
`Open` throws `std::logic_error`, and a further `Close` returns true without calling the
I/O layer and without changing the transport. -/
theorem open_flag_never_cleared (env : XioEnvironment) (self opened closed : TransportImpl)
    (trace trace1 trace2 : List XioCall) (call : TransportCall)
    (hopen : self.Open env trace = (trace1, opened, .returned true))
    (hclose : opened.Close env trace1 = (trace2, closed, .returned true)) :
    ((step env call self trace).2.1.m_isOpen = true ↔
      self.m_isOpen = true ∨
        (call = .Open ∧ (step env call self trace).2.2 = .returned (some true))) ∧
    closed.m_isOpen = true ∧
    closed.m_xioInstance = none ∧
    closed.Open env trace2
      = (trace2, closed, .thrown (.logic_error "Cannot open an opened transport.")) ∧
    closed.Close env trace2 = (trace2, closed, .returned true) := by
  refine ⟨step_isOpen env call self trace, ?_⟩
  obtain ⟨xio, handler, isOpen⟩ := self
  have hopened : opened.m_isOpen = true := by
    cases isOpen
    · by_cases h : env.status trace (.xio_open xio) = 0
      · simp [Open, h] at hopen
        rw [← hopen.2]
      · simp [Open, h] at hopen
    · simp [Open] at hopen
  obtain ⟨xio1, handler1, isOpen1⟩ := opened
  simp at hopened
  subst hopened
  have hclosed : closed.m_isOpen = true ∧ closed.m_xioInstance = none := by
    cases xio1 with
    | none =>
      simp [Close] at hclose
      rw [← hclose.2]
      exact ⟨rfl, rfl⟩
    | some x =>
      by_cases h : env.status trace1 (.xio_close (some x)) = 0
      · simp [Close, h] at hclose
        rw [← hclose.2]
        exact ⟨rfl, rfl⟩
      · simp [Close, h] at hclose
  obtain ⟨xio2, handler2, isOpen2⟩ := closed
  simp at hclosed
  obtain ⟨h1, h2⟩ := hclosed
  subst h1
  subst h2
  exact ⟨rfl, rfl, by simp [Open], by simp [Close]⟩

/-- Witness of C25 on a transport with handle 1 and an I/O layer that always answers 0. -/
theorem open_flag_never_cleared_witness :
    Close ⟨fun _ _ => 0⟩ ⟨none, none, true⟩ [.xio_open (some 1), .xio_close (some 1)]
      = ([.xio_open (some 1), .xio_close (some 1)], ⟨none, none, true⟩, .returned true) ∧
    Open ⟨fun _ _ => 0⟩ ⟨none, none, true⟩ [.xio_open (some 1), .xio_close (some 1)]
      = ([.xio_open (some 1), .xio_close (some 1)], ⟨none, none, true⟩,
          .thrown (.logic_error "Cannot open an opened transport.")) :=
  ⟨(open_flag_never_cleared ⟨fun _ _ => 0⟩ ⟨some 1, none, false⟩ ⟨some 1, none, true⟩
      ⟨none, none, true⟩ [] [.xio_open (some 1)] [.xio_open (some 1), .xio_close (some 1)]
      .Poll rfl rfl).2.2.2.2,
   (open_flag_never_cleared ⟨fun _ _ => 0⟩ ⟨some 1, none, false⟩ ⟨some 1, none, true⟩
      ⟨none, none, true⟩ [] [.xio_open (some 1)] [.xio_open (some 1), .xio_close (some 1)]
      .Poll rfl rfl).2.2.2.1⟩

end Network._internal._detail.TransportImpl
end Azure.Core.Amqp
